import Mathlib

/-!
# Data device: drag-and-drop and selection (src/data-device.c)

A shallow embedding of the server side data-device logic.

* Heap objects (data sources, data offers) live in lists of a `World` record
  and are referred to by the `wl_resource` that names them; a dereference of a
  pointer to an object that is not in the heap makes the operation return
  `none`.
* Everything the C code sends to a client, to a signal or to the pointer
  subsystem is appended, in order, to `World.trace`.
* The outcome of an allocation (`malloc`, `wl_array_add`, `strdup`) is an
  argument of the function that allocates: the code has a branch for each
  outcome.
* `uint32_t` values are natural numbers; the one subtraction that can wrap is
  written with an explicit `% 2^32`.
-/

namespace DataDevice

/-! ## Data model -/

/-- A protocol object (struct wl_resource), identified by its owning client
and its object id. -/
structure wl_resource where
  client : Nat
  object_id : Nat
deriving DecidableEq

/-- Value of one of the three function pointers `accept`, `send`, `cancel` of
a data source.  `client_source` stands for the handlers installed by
`create_data_source`; `foreign tag` for a handler installed by code outside
this file (the struct is public), whose call is recorded in the trace. -/
inductive capability where
  | client_source
  | foreign (tag : Nat)
deriving DecidableEq

/-- The C struct wl_data_source.  An entry of `mime_types` is `none` when
`strdup` failed for it (a NULL string stored in the array). -/
structure wl_data_source where
  resource : wl_resource
  accept : capability
  send : capability
  cancel : capability
  mime_types : List (Option String)
deriving DecidableEq

/-- The C struct wl_data_offer; `source` is the (nullable) pointer to the
source it was created from.  Its `source_destroy_listener` is the listener
`wl_listener.source_destroy_listener resource`. -/
structure wl_data_offer where
  resource : wl_resource
  source : Option wl_resource
deriving DecidableEq

/-- The C struct wl_data_device: its resource (the seat is the one seat of
the world, the link is membership in `drag_data_device_list`). -/
structure wl_data_device where
  resource : wl_resource
deriving DecidableEq

/-- The C struct wl_surface, as far as this file reads it. -/
structure wl_surface where
  resource : wl_resource
deriving DecidableEq

/-- The listeners this file registers on destroy signals. -/
inductive wl_listener where
  | source_destroy_listener (offer : wl_resource)
  | drag_focus_listener
  | drag_data_source_listener
  | drag_icon_listener
  | selection_data_source_listener
deriving DecidableEq

/-- Which grab the pointer currently dispatches to. -/
inductive grab_slot where
  | default_grab
  | drag_grab
deriving DecidableEq

/-- The C struct wl_pointer, as far as this file reads it. -/
structure wl_pointer where
  grab_button : Nat
  button_count : Nat
  grab : grab_slot
deriving DecidableEq

/-- The C struct wl_keyboard, as far as this file reads it. -/
structure wl_keyboard where
  focus_resource : Option wl_resource
deriving DecidableEq

/-- The record `seat->drag_grab` (struct wl_pointer_grab): whether the drag
callback table is installed in it, and its `focus` field. -/
structure wl_pointer_grab where
  drag_interface : Bool
  focus : Option wl_surface
deriving DecidableEq

/-- The C struct wl_seat, as far as this file reads or writes it.  The pointer
is not optional: every function here that reads `seat->pointer` does so
without a NULL check. -/
structure wl_seat where
  pointer : wl_pointer
  keyboard : Option wl_keyboard
  selection_serial : Nat
  selection_data_source : Option wl_resource
  drag_data_device_list : List wl_data_device
  drag_client : Option Nat
  drag_data_source : Option wl_resource
  drag_focus : Option wl_surface
  drag_focus_device : Option wl_data_device
  drag_surface : Option wl_surface
  drag_grab : wl_pointer_grab
deriving DecidableEq

/-- Modelled from the spec: the event emission primitives of the object layer
and the other calls that leave this file.  Everything observable that the
code emits is one `Event`: protocol events to clients (the generated
`wl_*_send_*` functions), signal emissions, calls into the pointer subsystem,
calls of foreign source handlers, `wl_resource_post_no_memory`, and `close`
on a file descriptor. -/
inductive Event where
  | data_device_data_offer (target offer : wl_resource)
  | data_offer_offer (offer : wl_resource) (type : Option String)
  | data_device_enter (device : wl_resource) (serial : Nat)
      (surface : wl_resource) (x y : Int) (offer : Option wl_resource)
  | data_device_leave (device : wl_resource)
  | data_device_motion (device : wl_resource) (time : Nat) (x y : Int)
  | data_device_drop (device : wl_resource)
  | data_device_selection (device : wl_resource) (offer : Option wl_resource)
  | data_source_target (source : wl_resource) (mime_type : String)
  | data_source_send (source : wl_resource) (mime_type : String) (fd : Int)
  | data_source_cancelled (source : wl_resource)
  | post_no_memory (resource : wl_resource)
  | close (fd : Int)
  | selection_signal
  | drag_icon_signal (data : Option wl_resource)
  | pointer_set_focus (surface : Option wl_resource) (x y : Int)
  | pointer_start_grab
  | pointer_end_grab
  | foreign_accept (tag : Nat) (source : wl_resource) (serial : Nat)
      (mime_type : String)
  | foreign_send (tag : Nat) (source : wl_resource) (mime_type : String)
      (fd : Int)
  | foreign_cancel (tag : Nat) (source : wl_resource)
deriving DecidableEq

/-- The state of the server as seen from this file: the seat, the heap of
data sources and data offers, the destroy-listener registrations (resource
and listener, in registration order), the display serial and the trace. -/
structure World where
  seat : wl_seat
  sources : List wl_data_source
  offers : List wl_data_offer
  destroy_listeners : List (wl_resource × wl_listener)
  serial : Nat
  trace : List Event
deriving DecidableEq

/-! ## Primitives of the object, list and input layers -/

/-- The constant UINT32_MAX of the C library. -/
def UINT32_MAX : Nat := 4294967295

/-- Subtraction of two uint32_t values, with wraparound. -/
def uint32_sub (a b : Nat) : Nat :=
  (a + 4294967296 - b % 4294967296) % 4294967296

/-- Modelled from the spec: the protocol constant of the *released* button
state (declared in the generated protocol header, not in this file). -/
def WL_POINTER_BUTTON_STATE_RELEASED : Nat := 0

/-- Modelled from the spec: the owning client of a resource (the accessor is
part of the object layer). -/
def wl_resource_get_client (r : wl_resource) : Nat := r.client

/-- Modelled from the spec: wl_fixed_from_int of the object layer (fixed-point
coordinates are kept as integers here). -/
def wl_fixed_from_int (i : Int) : Int := i

/-- Appends one event to the trace. -/
def World.emit (w : World) (e : Event) : World :=
  { w with trace := w.trace ++ [e] }

/-- Dereference of a `wl_data_source *` (also `wl_resource_get_data` on a
source resource): `none` when no such source is live. -/
def World.source (w : World) (p : wl_resource) : Option wl_data_source :=
  w.sources.find? (fun s => decide (s.resource = p))

/-- The value of `wl_resource_get_data` on an offer resource: `none` when no
such offer is live. -/
def World.offer (w : World) (r : wl_resource) : Option wl_data_offer :=
  w.offers.find? (fun o => decide (o.resource = r))

/-- Modelled from the spec: registration of a destruction observer on a
resource (wl_resource_add_destroy_listener of the object layer); the
listener goes to the end of that resource's list. -/
def wl_resource_add_destroy_listener (w : World) (r : wl_resource)
    (l : wl_listener) : World :=
  { w with destroy_listeners := w.destroy_listeners ++ [(r, l)] }

/-- Modelled from the spec: deregistration of a destruction observer
(wl_list_remove on the link of a listener). -/
def wl_list_remove (w : World) (l : wl_listener) : World :=
  { w with destroy_listeners :=
      w.destroy_listeners.filter (fun e => decide (e.2 ≠ l)) }

/-- Modelled from the spec: allocation of a fresh global sequence number
(wl_display_next_serial of the object layer): the display serial is
incremented, with 32-bit wraparound, and returned. -/
def wl_display_next_serial (w : World) : World × Nat :=
  let s := (w.serial + 1) % 4294967296
  ({ w with serial := s }, s)

/-- Modelled from the spec: the input layer hands the grab slot of the pointer
back to the default behaviour (wl_pointer_end_grab). -/
def wl_pointer_end_grab (w : World) : World :=
  ({ w with seat := { w.seat with
      pointer := { w.seat.pointer with grab := grab_slot.default_grab } } }).emit
    Event.pointer_end_grab

/-- Modelled from the spec: the input layer installs the drag grab in the grab
slot of the pointer (wl_pointer_start_grab). -/
def wl_pointer_start_grab (w : World) : World :=
  ({ w with seat := { w.seat with
      pointer := { w.seat.pointer with grab := grab_slot.drag_grab } } }).emit
    Event.pointer_start_grab

/-- Modelled from the spec: the input layer sets the pointer focus
(wl_pointer_set_focus). -/
def wl_pointer_set_focus (w : World) (surface : Option wl_surface)
    (x y : Int) : World :=
  w.emit (Event.pointer_set_focus (surface.map (fun s => s.resource)) x y)

/-- Replaces the heap entry of the source named `p` by `f` of it. -/
def World.update_source (w : World) (p : wl_resource)
    (f : wl_data_source → wl_data_source) : World :=
  { w with sources := w.sources.map (fun s => if s.resource = p then f s else s) }

/-- Replaces the heap entry of the offer named `r` by `f` of it. -/
def World.update_offer (w : World) (r : wl_resource)
    (f : wl_data_offer → wl_data_offer) : World :=
  { w with offers := w.offers.map (fun o => if o.resource = r then f o else o) }

/-! ## The functions of src/data-device.c -/

/-- The handler client_source_accept: a target event to the source. -/
def client_source_accept (w : World) (source : wl_data_source) (_time : Nat)
    (mime_type : String) : World :=
  w.emit (Event.data_source_target source.resource mime_type)

/-- The handler client_source_send: a send event to the source, then the
descriptor is closed. -/
def client_source_send (w : World) (source : wl_data_source)
    (mime_type : String) (fd : Int) : World :=
  (w.emit (Event.data_source_send source.resource mime_type fd)).emit
    (Event.close fd)

/-- The handler client_source_cancel: a cancelled event to the source. -/
def client_source_cancel (w : World) (source : wl_data_source) : World :=
  w.emit (Event.data_source_cancelled source.resource)

/-- The call `source->accept(source, serial, mime_type)`. -/
def source_accept (w : World) (source : wl_data_source) (serial : Nat)
    (mime_type : String) : World :=
  match source.accept with
  | capability.client_source => client_source_accept w source serial mime_type
  | capability.foreign tag =>
    w.emit (Event.foreign_accept tag source.resource serial mime_type)

/-- The call `source->send(source, mime_type, fd)`. -/
def source_send (w : World) (source : wl_data_source) (mime_type : String)
    (fd : Int) : World :=
  match source.send with
  | capability.client_source => client_source_send w source mime_type fd
  | capability.foreign tag =>
    w.emit (Event.foreign_send tag source.resource mime_type fd)

/-- The call `source->cancel(source)`. -/
def source_cancel (w : World) (source : wl_data_source) : World :=
  match source.cancel with
  | capability.client_source => client_source_cancel w source
  | capability.foreign tag => w.emit (Event.foreign_cancel tag source.resource)

/-- The request handler data_offer_accept. -/
def data_offer_accept (w : World) (resource : wl_resource) (serial : Nat)
    (mime_type : String) : Option World := do
  let offer ← w.offer resource
  match offer.source with
  | some p => do
    let source ← w.source p
    pure (source_accept w source serial mime_type)
  | none => pure w

/-- The request handler data_offer_receive. -/
def data_offer_receive (w : World) (resource : wl_resource)
    (mime_type : String) (fd : Int) : Option World := do
  let offer ← w.offer resource
  match offer.source with
  | some p => do
    let source ← w.source p
    pure (source_send w source mime_type fd)
  | none => pure (w.emit (Event.close fd))

/-- The resource destructor destroy_data_offer. -/
def destroy_data_offer (w : World) (resource : wl_resource) : Option World := do
  let offer ← w.offer resource
  let w1 := if offer.source.isSome then
      wl_list_remove w (wl_listener.source_destroy_listener resource)
    else w
  pure { w1 with offers := w1.offers.filter (fun o => decide (o.resource ≠ resource)) }

/-- The listener destroy_offer_data_source of the offer named `offer`. -/
def destroy_offer_data_source (w : World) (offer : wl_resource) : World :=
  w.update_offer offer (fun o => { o with source := none })

/-- The loop `wl_array_for_each(p, &source->mime_types)` of
wl_data_source_send_offer: one offer event per array entry, in order. -/
def send_mime_types (w : World) (offer : wl_resource) :
    List (Option String) → World
  | [] => w
  | t :: ts => send_mime_types (w.emit (Event.data_offer_offer offer t)) offer ts

/-- The function wl_data_source_send_offer.  `alloc` is the outcome of the
allocation of the offer: `none` when `malloc` returns NULL, `some id` when the
offer is allocated and `wl_client_new_object` gives its resource the object
id `id`.  The result is the new world and the returned offer resource. -/
def wl_data_source_send_offer (w : World) (source : wl_resource)
    (target : wl_resource) (alloc : Option Nat) :
    Option (World × Option wl_resource) :=
  match alloc with
  | none => some (w, none)
  | some id => do
    let src ← w.source source
    let resource : wl_resource :=
      { client := wl_resource_get_client target, object_id := id }
    let offer : wl_data_offer := { resource := resource, source := some source }
    let w1 : World := { w with offers := offer :: w.offers }
    let w2 := wl_resource_add_destroy_listener w1 src.resource
      (wl_listener.source_destroy_listener resource)
    let w3 := w2.emit (Event.data_device_data_offer target resource)
    let w4 := send_mime_types w3 resource src.mime_types
    pure (w4, some resource)

/-- The request handler data_source_offer.  `array_ok` says whether
`wl_array_add` returned a slot, `strdup_ok` whether `strdup` returned a
string. -/
def data_source_offer (w : World) (resource : wl_resource) (type : String)
    (array_ok strdup_ok : Bool) : Option World := do
  let _source ← w.source resource
  if array_ok then
    let entry : Option String := if strdup_ok then some type else none
    let w1 := w.update_source resource
      (fun s => { s with mime_types := s.mime_types ++ [entry] })
    if strdup_ok then pure w1 else pure (w1.emit (Event.post_no_memory resource))
  else
    pure (w.emit (Event.post_no_memory resource))

/-- The function find_data_device: the first device of the list whose
resource belongs to `client`. -/
def find_data_device (list : List wl_data_device) (client : Nat) :
    Option wl_data_device :=
  list.find? (fun device => decide (wl_resource_get_client device.resource = client))

/-- The listener destroy_drag_focus. -/
def destroy_drag_focus (w : World) : World :=
  { w with seat := { w.seat with drag_focus_device := none } }

/-- The grab callback drag_grab_focus; `alloc` is the allocation outcome handed
to wl_data_source_send_offer. -/
def drag_grab_focus (w : World) (surface : Option wl_surface) (x y : Int)
    (alloc : Option Nat) : Option World :=
  let w1 : World :=
    match w.seat.drag_focus_device with
    | some device =>
      let wa := w.emit (Event.data_device_leave device.resource)
      let wb := wl_list_remove wa wl_listener.drag_focus_listener
      { wb with seat := { wb.seat with drag_focus_device := none, drag_focus := none } }
    | none => w
  match surface with
  | none => some w1
  | some s =>
    if w1.seat.drag_data_source = none ∧
        some (wl_resource_get_client s.resource) ≠ w1.seat.drag_client then
      some w1
    else
      match find_data_device w1.seat.drag_data_device_list
          (wl_resource_get_client s.resource) with
      | none => some w1
      | some device => do
        let (w2, serial) := wl_display_next_serial w1
        let (w3, offer) ←
          match w2.seat.drag_data_source with
          | some source => wl_data_source_send_offer w2 source device.resource alloc
          | none => some (w2, none)
        let w4 := w3.emit
          (Event.data_device_enter device.resource serial s.resource x y offer)
        let w5 : World := { w4 with seat := { w4.seat with drag_focus := some s } }
        let w6 := wl_resource_add_destroy_listener w5 device.resource
          wl_listener.drag_focus_listener
        pure { w6 with seat := { w6.seat with
          drag_focus_device := some device,
          drag_grab := { w6.seat.drag_grab with focus := some s } } }

/-- The grab callback drag_grab_motion. -/
def drag_grab_motion (w : World) (time : Nat) (x y : Int) : World :=
  match w.seat.drag_focus_device with
  | some device => w.emit (Event.data_device_motion device.resource time x y)
  | none => w

/-- The function data_device_end_drag_grab. -/
def data_device_end_drag_grab (w : World) : Option World := do
  let w1 : World :=
    match w.seat.drag_surface with
    | some _ =>
      let wa : World := { w with seat := { w.seat with drag_surface := none } }
      let wb := wa.emit (Event.drag_icon_signal none)
      wl_list_remove wb wl_listener.drag_icon_listener
    | none => w
  let w2 ← drag_grab_focus w1 none (wl_fixed_from_int 0) (wl_fixed_from_int 0) none
  let w3 := wl_pointer_end_grab w2
  pure { w3 with seat := { w3.seat with drag_data_source := none, drag_client := none } }

/-- The grab callback drag_grab_button. -/
def drag_grab_button (w : World) (_time : Nat) (button : Nat) (state_w : Nat) :
    Option World :=
  let w1 : World :=
    match w.seat.drag_focus_device with
    | some device =>
      if w.seat.pointer.grab_button = button ∧
          state_w = WL_POINTER_BUTTON_STATE_RELEASED then
        w.emit (Event.data_device_drop device.resource)
      else w
    | none => w
  if w1.seat.pointer.button_count = 0 ∧
      state_w = WL_POINTER_BUTTON_STATE_RELEASED then
    let w2 :=
      if w1.seat.drag_data_source.isSome then
        wl_list_remove w1 wl_listener.drag_data_source_listener
      else w1
    data_device_end_drag_grab w2
  else
    some w1

/-- The listener destroy_data_device_source. -/
def destroy_data_device_source (w : World) : Option World :=
  data_device_end_drag_grab w

/-- The listener destroy_data_device_icon. -/
def destroy_data_device_icon (w : World) : World :=
  { w with seat := { w.seat with drag_surface := none } }

/-- The request handler data_device_start_drag, called by `client`.  The
source and the icon are named by their resources. -/
def data_device_start_drag (w : World) (client : Nat)
    (source_resource : Option wl_resource) (icon_resource : Option wl_surface) :
    Option World := do
  let w1 : World := { w with seat := { w.seat with
    drag_grab := { w.seat.drag_grab with drag_interface := true },
    drag_client := some client,
    drag_data_source := none } }
  let w2 ←
    match source_resource with
    | some r => do
      let source ← w1.source r
      let wa : World :=
        { w1 with seat := { w1.seat with drag_data_source := some source.resource } }
      pure (wl_resource_add_destroy_listener wa r wl_listener.drag_data_source_listener)
    | none => pure w1
  let w3 : World :=
    match icon_resource with
    | some icon =>
      let wa : World := { w2 with seat := { w2.seat with drag_surface := some icon } }
      let wb := wl_resource_add_destroy_listener wa icon.resource
        wl_listener.drag_icon_listener
      wb.emit (Event.drag_icon_signal (some icon.resource))
    | none => w2
  let w4 := wl_pointer_set_focus w3 none (wl_fixed_from_int 0) (wl_fixed_from_int 0)
  pure (wl_pointer_start_grab w4)

/-- The keyboard focus resource read by the selection code:
`seat->keyboard ? seat->keyboard->focus_resource : NULL`. -/
def keyboard_focus (keyboard : Option wl_keyboard) : Option wl_resource :=
  match keyboard with
  | some k => k.focus_resource
  | none => none

/-- The listener destroy_selection_data_source. -/
def destroy_selection_data_source (w : World) : World :=
  let w1 : World := { w with seat := { w.seat with selection_data_source := none } }
  let w2 : World :=
    match keyboard_focus w1.seat.keyboard with
    | some focus =>
      match find_data_device w1.seat.drag_data_device_list
          (wl_resource_get_client focus) with
      | some data_device =>
        w1.emit (Event.data_device_selection data_device.resource none)
      | none => w1
    | none => w1
  w2.emit Event.selection_signal

/-- The exported function wl_seat_set_selection; `alloc` is the allocation
outcome handed to wl_data_source_send_offer. -/
def wl_seat_set_selection (w : World) (source : Option wl_resource)
    (serial : Nat) (alloc : Option Nat) : Option World :=
  if w.seat.selection_data_source.isSome ∧
      uint32_sub w.seat.selection_serial serial < UINT32_MAX / 2 then
    some w
  else do
    let w1 ←
      match w.seat.selection_data_source with
      | some p => do
        let old ← w.source p
        let wa := source_cancel w old
        let wb := wl_list_remove wa wl_listener.selection_data_source_listener
        pure ({ wb with seat := { wb.seat with selection_data_source := none } } : World)
      | none => pure w
    let w2 : World := { w1 with seat := { w1.seat with
      selection_data_source := source, selection_serial := serial } }
    let w3 ←
      match keyboard_focus w2.seat.keyboard with
      | some focus =>
        match find_data_device w2.seat.drag_data_device_list
            (wl_resource_get_client focus), source with
        | some data_device, some s => do
          let (wa, offer) ←
            wl_data_source_send_offer w2 s data_device.resource alloc
          pure (wa.emit (Event.data_device_selection data_device.resource offer))
        | some data_device, none =>
          pure (w2.emit (Event.data_device_selection data_device.resource none))
        | none, _ => pure w2
      | none => pure w2
    let w4 := w3.emit Event.selection_signal
    match source with
    | some s => do
      let src ← w4.source s
      pure (wl_resource_add_destroy_listener w4 src.resource
        wl_listener.selection_data_source_listener)
    | none => pure w4

/-- The request handler data_device_set_selection. -/
def data_device_set_selection (w : World) (source_resource : Option wl_resource)
    (serial : Nat) (alloc : Option Nat) : Option World :=
  match source_resource with
  | none => some w
  | some r => do
    let source ← w.source r
    wl_seat_set_selection w (some source.resource) serial alloc

/-- The resource destructor destroy_data_source: the mime types and the array
are released (the source leaves the heap). -/
def destroy_data_source (w : World) (resource : wl_resource) : World :=
  { w with sources := w.sources.filter (fun s => decide (s.resource ≠ resource)) }

/-- The request handler create_data_source, for `client` and the new object id
`id`; `alloc_ok` says whether `malloc` returned memory and `resource` is the
manager resource the error is posted on. -/
def create_data_source (w : World) (client : Nat) (resource : wl_resource)
    (id : Nat) (alloc_ok : Bool) : World :=
  if alloc_ok then
    { w with sources :=
        { resource := { client := client, object_id := id },
          accept := capability.client_source,
          send := capability.client_source,
          cancel := capability.client_source,
          mime_types := [] } :: w.sources }
  else
    w.emit (Event.post_no_memory resource)

/-- The resource destructor unbind_data_device. -/
def unbind_data_device (w : World) (device : wl_data_device) : World :=
  { w with seat := { w.seat with
      drag_data_device_list := w.seat.drag_data_device_list.erase device } }

/-- The request handler get_data_device, for `client` and the new object id
`id`; `alloc_ok` says whether `malloc` returned memory. -/
def get_data_device (w : World) (client : Nat) (manager_resource : wl_resource)
    (id : Nat) (alloc_ok : Bool) : World :=
  if alloc_ok then
    { w with seat := { w.seat with
        drag_data_device_list :=
          { resource := { client := client, object_id := id } } ::
            w.seat.drag_data_device_list } }
  else
    w.emit (Event.post_no_memory manager_resource)

/-- The exported function wl_data_device_set_keyboard_focus; `alloc` is the
allocation outcome handed to wl_data_source_send_offer. -/
def wl_data_device_set_keyboard_focus (w : World) (alloc : Option Nat) :
    Option World :=
  match w.seat.keyboard with
  | none => some w
  | some keyboard =>
    match keyboard.focus_resource with
    | none => some w
    | some focus =>
      match find_data_device w.seat.drag_data_device_list
          (wl_resource_get_client focus) with
      | none => some w
      | some data_device =>
        match w.seat.selection_data_source with
        | some source => do
          let (w1, offer) ←
            wl_data_source_send_offer w source data_device.resource alloc
          pure (w1.emit (Event.data_device_selection data_device.resource offer))
        | none => some w

/-- Runs the listener `l` of a destroy signal: each listener of this file is
registered with one fixed `notify` function. -/
def notify (w : World) (l : wl_listener) : Option World :=
  match l with
  | wl_listener.source_destroy_listener offer => some (destroy_offer_data_source w offer)
  | wl_listener.drag_focus_listener => some (destroy_drag_focus w)
  | wl_listener.drag_data_source_listener => destroy_data_device_source w
  | wl_listener.drag_icon_listener => some (destroy_data_device_icon w)
  | wl_listener.selection_data_source_listener => some (destroy_selection_data_source w)

/-- Modelled from the spec: emission of a destroy signal (wl_signal_emit of
the object layer): the registered observers are invoked synchronously, one
after the other. -/
def wl_signal_emit_destroy (w : World) : List wl_listener → Option World
  | [] => some w
  | l :: ls => (notify w l).bind (fun w1 => wl_signal_emit_destroy w1 ls)

/-- Modelled from the spec: destruction of the resource of a data source
(wl_resource_destroy of the object layer, reached from data_source_destroy or
from a client disconnect): every destruction observer registered on the
resource is invoked, in registration order, before the destructor
destroy_data_source releases the source; the observer list goes away with the
resource. -/
def wl_resource_destroy_source (w : World) (resource : wl_resource) :
    Option World := do
  let _source ← w.source resource
  let listeners :=
    (w.destroy_listeners.filter (fun e => decide (e.1 = resource))).map Prod.snd
  let w1 ← wl_signal_emit_destroy w listeners
  let w2 := destroy_data_source w1 resource
  pure { w2 with destroy_listeners :=
    w2.destroy_listeners.filter (fun e => decide (e.1 ≠ resource)) }

/-- Modelled from the spec: destruction of the resource of a data device
(wl_resource_destroy of the object layer, on unbind or client disconnect):
every destruction observer registered on the resource is invoked, in
registration order, before the destructor unbind_data_device removes the
device from the collection of the seat; the observer list goes away with the
resource. -/
def wl_resource_destroy_device (w : World) (device : wl_data_device) :
    Option World := do
  let listeners :=
    (w.destroy_listeners.filter (fun e => decide (e.1 = device.resource))).map Prod.snd
  let w1 ← wl_signal_emit_destroy w listeners
  let w2 := unbind_data_device w1 device
  pure { w2 with destroy_listeners :=
    w2.destroy_listeners.filter (fun e => decide (e.1 ≠ device.resource)) }

/-- A nullable source pointer is valid: null, or the source it names is live. -/
def World.live (w : World) (p : Option wl_resource) : Bool :=
  match p with
  | none => true
  | some s => (w.source s).isSome

/-! ## Concrete states used to exercise the definitions -/

/-- A client source of client 1 with two mime types. -/
def src_a : wl_data_source :=
  { resource := { client := 1, object_id := 10 },
    accept := capability.client_source,
    send := capability.client_source,
    cancel := capability.client_source,
    mime_types := [some "a", some "b"] }

/-- A second client source, of client 2, with one mime type. -/
def src_b : wl_data_source :=
  { resource := { client := 2, object_id := 20 },
    accept := capability.client_source,
    send := capability.client_source,
    cancel := capability.client_source,
    mime_types := [some "c"] }

/-- The data device of client 3. -/
def dev_c : wl_data_device := { resource := { client := 3, object_id := 30 } }

/-- A surface of client 3. -/
def surf_c : wl_surface := { resource := { client := 3, object_id := 31 } }

/-- A seat that holds `src_a` as selection with serial 100; client 3 has the
keyboard focus and a data device; no drag is in progress. -/
def seat_sel : wl_seat :=
  { pointer := { grab_button := 272, button_count := 0, grab := grab_slot.default_grab },
    keyboard := some { focus_resource := some { client := 3, object_id := 32 } },
    selection_serial := 100,
    selection_data_source := some src_a.resource,
    drag_data_device_list := [dev_c],
    drag_client := none,
    drag_data_source := none,
    drag_focus := none,
    drag_focus_device := none,
    drag_surface := none,
    drag_grab := { drag_interface := false, focus := none } }

/-- A world around `seat_sel` with the two sources live. -/
def world_sel : World :=
  { seat := seat_sel,
    sources := [src_a, src_b],
    offers := [],
    destroy_listeners := [(src_a.resource, wl_listener.selection_data_source_listener)],
    serial := 7,
    trace := [] }

/-! ## Descriptions used in the statements -/

/-- The offer resource that wl_data_source_send_offer creates for `target`
when the object layer hands out the object id `id`. -/
def new_offer (target : wl_resource) (id : Nat) : wl_resource :=
  { client := wl_resource_get_client target, object_id := id }

/-- The events of one presentation of a source to `target`: the data-offer
event naming the new offer, then one offer event per mime type. -/
def presentation (target : wl_resource) (id : Nat) (types : List (Option String)) :
    List Event :=
  Event.data_device_data_offer target (new_offer target id) ::
    types.map (Event.data_offer_offer (new_offer target id))

/-- The call of the cancel capability of a source, as it shows in the trace. -/
def cancel_call (src : wl_data_source) : Event :=
  match src.cancel with
  | capability.client_source => Event.data_source_cancelled src.resource
  | capability.foreign tag => Event.foreign_cancel tag src.resource

/-- The data device of the client that has the keyboard focus, if any. -/
def selection_target (seat : wl_seat) : Option wl_data_device :=
  match keyboard_focus seat.keyboard with
  | some focus =>
    find_data_device seat.drag_data_device_list (wl_resource_get_client focus)
  | none => none

/-- The cancel call an accepted claim makes on the previously held source. -/
def previous_cancel (w : World) : List Event :=
  match w.seat.selection_data_source with
  | some p =>
    match w.source p with
    | some old => [cancel_call old]
    | none => []
  | none => []

/-- The offer that a presentation of `source` to the focused device creates:
none without a focused device, without a source or when the allocation
fails. -/
def presented_offer (w : World) (source : Option wl_resource) (alloc : Option Nat) :
    Option wl_data_offer :=
  match selection_target w.seat, source, alloc with
  | some device, some s, some id =>
    some { resource := new_offer device.resource id, source := some s }
  | _, _, _ => none

/-- The events an accepted claim sends to the data device of the focused
client. -/
def selection_events (w : World) (source : Option wl_resource) (alloc : Option Nat) :
    List Event :=
  match selection_target w.seat with
  | none => []
  | some device =>
    match source with
    | none => [Event.data_device_selection device.resource none]
    | some s =>
      match alloc, w.source s with
      | some id, some src =>
        presentation device.resource id src.mime_types ++
          [Event.data_device_selection device.resource (some (new_offer device.resource id))]
      | _, _ => [Event.data_device_selection device.resource none]

/-- The destroy-listener registrations after an accepted claim. -/
def selection_listeners (w : World) (source : Option wl_resource) (alloc : Option Nat) :
    List (wl_resource × wl_listener) :=
  (match w.seat.selection_data_source with
    | some _ => w.destroy_listeners.filter
        (fun e => decide (e.2 ≠ wl_listener.selection_data_source_listener))
    | none => w.destroy_listeners) ++
  (match presented_offer w source alloc, source with
    | some o, some s => [(s, wl_listener.source_destroy_listener o.resource)]
    | _, _ => []) ++
  (match source with
    | some s => [(s, wl_listener.selection_data_source_listener)]
    | none => [])

/-- A sequence of successful data_source_offer requests on the source named
`resource`, one per type, in order. -/
def offer_types (w : World) (resource : wl_resource) : List String → Option World
  | [] => some w
  | t :: ts =>
    (data_source_offer w resource t true true).bind (fun w1 => offer_types w1 resource ts)

/-- The events of the end sequence of a drag (data_device_end_drag_grab): the
icon-removed notification if an icon surface was recorded, the leave event if
a device was focused, and the end of the pointer grab. -/
def end_drag_events (w : World) : List Event :=
  (match w.seat.drag_surface with
    | some _ => [Event.drag_icon_signal none]
    | none => []) ++
  (match w.seat.drag_focus_device with
    | some device => [Event.data_device_leave device.resource]
    | none => []) ++
  [Event.pointer_end_grab]

/-- The drop event of drag_grab_button, if its condition holds. -/
def drop_events (w : World) (button state_w : Nat) : List Event :=
  match w.seat.drag_focus_device with
  | some device =>
    if w.seat.pointer.grab_button = button ∧
        state_w = WL_POINTER_BUTTON_STATE_RELEASED then
      [Event.data_device_drop device.resource]
    else []
  | none => []

/-- A seat in the middle of a drag of `src_a` started by client 1: the icon
surface is recorded, `dev_c` is focused on `surf_c`, button 272 started the
grab and no button is held any more. -/
def seat_drag : wl_seat :=
  { pointer := { grab_button := 272, button_count := 0, grab := grab_slot.drag_grab },
    keyboard := none,
    selection_serial := 0,
    selection_data_source := none,
    drag_data_device_list := [dev_c],
    drag_client := some 1,
    drag_data_source := some src_a.resource,
    drag_focus := some surf_c,
    drag_focus_device := some dev_c,
    drag_surface := some { resource := { client := 1, object_id := 12 } },
    drag_grab := { drag_interface := true, focus := some surf_c } }

/-- A world around `seat_drag`. -/
def world_drag : World :=
  { seat := seat_drag,
    sources := [src_a],
    offers := [{ resource := { client := 3, object_id := 33 }, source := some src_a.resource }],
    destroy_listeners :=
      [(src_a.resource, wl_listener.drag_data_source_listener),
       ({ client := 1, object_id := 12 }, wl_listener.drag_icon_listener),
       (src_a.resource, wl_listener.source_destroy_listener { client := 3, object_id := 33 }),
       (dev_c.resource, wl_listener.drag_focus_listener)],
    serial := 8,
    trace := [] }

/-- The state `world_drag` after the focused data device `dev_c` was destroyed
during the drag: the device left the collection, no device is focused, the
focused surface is still recorded. -/
def world_drag_unbound : World :=
  { seat := { seat_drag with drag_data_device_list := [], drag_focus_device := none },
    sources := [src_a],
    offers := [{ resource := { client := 3, object_id := 33 }, source := some src_a.resource }],
    destroy_listeners :=
      [(src_a.resource, wl_listener.drag_data_source_listener),
       ({ client := 1, object_id := 12 }, wl_listener.drag_icon_listener),
       (src_a.resource, wl_listener.source_destroy_listener { client := 3, object_id := 33 })],
    serial := 8,
    trace := [] }

/-- Recognises a leave event. -/
def Event.is_leave : Event → Bool
  | Event.data_device_leave _ => true
  | _ => false

/-- Recognises a drop event. -/
def Event.is_drop : Event → Bool
  | Event.data_device_drop _ => true
  | _ => false

/-- Recognises an emission of the drag icon signal. -/
def Event.is_icon_signal : Event → Bool
  | Event.drag_icon_signal _ => true
  | _ => false

/-- The condition under which drag_grab_button ends the gesture. -/
def ends_gesture (w : World) (state_w : Nat) : Prop :=
  w.seat.pointer.button_count = 0 ∧ state_w = WL_POINTER_BUTTON_STATE_RELEASED

/-- Recognises a call of the send capability of a source: the send event of a
client source, or the recorded call of a foreign handler. -/
def Event.is_send_call : Event → Bool
  | Event.data_source_send _ _ _ => true
  | Event.foreign_send _ _ _ _ => true
  | _ => false

/-- An offer of client 3 whose source `src_a` is live, in a world that also
has an offer of client 3 whose source is gone. -/
def world_offers : World :=
  { seat := seat_sel,
    sources := [src_a, src_b],
    offers := [{ resource := { client := 3, object_id := 33 }, source := some src_a.resource },
      { resource := { client := 3, object_id := 34 }, source := none }],
    destroy_listeners :=
      [(src_a.resource, wl_listener.selection_data_source_listener),
       (src_a.resource, wl_listener.source_destroy_listener { client := 3, object_id := 33 })],
    serial := 7,
    trace := [] }

/-- What the listeners `ls` of a destroy signal do to an offer: its source
pointer is nulled if its `source_destroy_listener` is among them. -/
def null_source (ls : List wl_listener) (o : wl_data_offer) : wl_data_offer :=
  if wl_listener.source_destroy_listener o.resource ∈ ls then { o with source := none }
  else o

/-- Every offer that points to the source `p` has its source_destroy_listener
registered on `p`, as wl_data_source_send_offer leaves it. -/
def offers_linked (w : World) (p : wl_resource) : Prop :=
  ∀ o ∈ w.offers, o.source = some p →
    (p, wl_listener.source_destroy_listener o.resource) ∈ w.destroy_listeners

/-- The state `world_sel` after `src_a` was presented twice to the device
`dev_c` (offers 33 and 34), as wl_data_source_send_offer leaves it. -/
def world_presented : World :=
  { seat := seat_sel,
    sources := [src_a, src_b],
    offers := [{ resource := { client := 3, object_id := 34 }, source := some src_a.resource },
      { resource := { client := 3, object_id := 33 }, source := some src_a.resource }],
    destroy_listeners :=
      [(src_a.resource, wl_listener.selection_data_source_listener),
       (src_a.resource, wl_listener.source_destroy_listener { client := 3, object_id := 33 }),
       (src_a.resource, wl_listener.source_destroy_listener { client := 3, object_id := 34 })],
    serial := 7,
    trace :=
      [Event.data_device_data_offer dev_c.resource { client := 3, object_id := 33 },
       Event.data_offer_offer { client := 3, object_id := 33 } (some "a"),
       Event.data_offer_offer { client := 3, object_id := 33 } (some "b"),
       Event.data_device_data_offer dev_c.resource { client := 3, object_id := 34 },
       Event.data_offer_offer { client := 3, object_id := 34 } (some "a"),
       Event.data_offer_offer { client := 3, object_id := 34 } (some "b")] }

/-- The leave event of the first block of drag_grab_focus, if a device is
focused. -/
def leave_events (w : World) : List Event :=
  match w.seat.drag_focus_device with
  | some device => [Event.data_device_leave device.resource]
  | none => []

/-- The state after the first block of drag_grab_focus: the previous focus, if
any, got its leave event, the focus listener is deregistered and both focus
fields are cleared. -/
def drag_unfocus (w : World) : World :=
  match w.seat.drag_focus_device with
  | some device =>
    { wl_list_remove (w.emit (Event.data_device_leave device.resource))
        wl_listener.drag_focus_listener with
      seat := { w.seat with drag_focus_device := none, drag_focus := none } }
  | none => w

/-- The last block of drag_grab_focus, from the enter event on, for the
serial just allocated, the surface `s`, the device `device` and the offer
returned by the presentation. -/
def focus_enter (w : World) (serial : Nat) (s : wl_surface) (device : wl_data_device)
    (x y : Int) (offer : Option wl_resource) : World :=
  { seat := { w.seat with
      drag_focus := some s,
      drag_focus_device := some device,
      drag_grab := { w.seat.drag_grab with focus := some s } },
    sources := w.sources,
    offers := w.offers,
    destroy_listeners := w.destroy_listeners ++
      [(device.resource, wl_listener.drag_focus_listener)],
    serial := w.serial,
    trace := w.trace ++
      [Event.data_device_enter device.resource serial s.resource x y offer] }

/-- The seat after the end sequence of a drag (data_device_end_drag_grab). -/
def end_drag_seat (seat : wl_seat) : wl_seat :=
  { seat with
    pointer := { seat.pointer with grab := grab_slot.default_grab },
    drag_client := none,
    drag_data_source := none,
    drag_focus := (match seat.drag_focus_device with
      | some _ => none
      | none => seat.drag_focus),
    drag_focus_device := none,
    drag_surface := none }

/-- A source of client 1 with the types "text/plain" and "text/html". -/
def src_text : wl_data_source :=
  { resource := { client := 1, object_id := 10 },
    accept := capability.client_source,
    send := capability.client_source,
    cancel := capability.client_source,
    mime_types := [some "text/plain", some "text/html"] }

/-- A seat on which client 1 drags `src_text`; client 3 has the data device
`dev_c`; nothing is focused yet. -/
def seat_dragging : wl_seat :=
  { pointer := { grab_button := 272, button_count := 1, grab := grab_slot.drag_grab },
    keyboard := none,
    selection_serial := 0,
    selection_data_source := none,
    drag_data_device_list := [dev_c, { resource := { client := 1, object_id := 13 } }],
    drag_client := some 1,
    drag_data_source := some src_text.resource,
    drag_focus := none,
    drag_focus_device := none,
    drag_surface := none,
    drag_grab := { drag_interface := true, focus := none } }

/-- A world around `seat_dragging`. -/
def world_dragging : World :=
  { seat := seat_dragging,
    sources := [src_text],
    offers := [],
    destroy_listeners := [(src_text.resource, wl_listener.drag_data_source_listener)],
    serial := 8,
    trace := [] }

/-- The world `world_dragging` for a drag without a data source. -/
def world_dragging_bare : World :=
  { world_dragging with
    seat := { seat_dragging with drag_data_source := none },
    destroy_listeners := [] }

/-- The destroy-listener registrations after the end sequence of a drag: the
icon listener is deregistered if an icon surface was recorded, then the focus
listener if a device was focused. -/
def end_drag_listeners (w : World) : List (wl_resource × wl_listener) :=
  match w.seat.drag_focus_device with
  | some _ =>
    List.filter (fun e => decide (e.2 ≠ wl_listener.drag_focus_listener))
      (match w.seat.drag_surface with
        | some _ => w.destroy_listeners.filter
            (fun e => decide (e.2 ≠ wl_listener.drag_icon_listener))
        | none => w.destroy_listeners)
  | none =>
    match w.seat.drag_surface with
    | some _ => w.destroy_listeners.filter
        (fun e => decide (e.2 ≠ wl_listener.drag_icon_listener))
    | none => w.destroy_listeners

/-- Recognises the drag events sent to a data device: enter, leave, motion and
drop. -/
def Event.is_drag : Event → Bool
  | Event.data_device_enter _ _ _ _ _ _ => true
  | Event.data_device_leave _ => true
  | Event.data_device_motion _ _ _ _ => true
  | Event.data_device_drop _ => true
  | _ => false

/-- The data device a motion, drop or leave event is sent to. -/
def Event.focus_target : Event → Option wl_resource
  | Event.data_device_leave device => some device
  | Event.data_device_motion device _ _ _ => some device
  | Event.data_device_drop device => some device
  | _ => none

/-- One step of the replay of a trace for the device `r`: an enter event to
`r` opens, a leave event to `r` closes, every other event changes nothing. -/
def track (b : Bool) (r : wl_resource) (e : Event) : Bool :=
  match e with
  | Event.data_device_enter device _ _ _ _ _ => if device = r then true else b
  | Event.data_device_leave device => if device = r then false else b
  | _ => b

/-- Replay of a trace for the device `r`: true when the last enter or leave
event sent to `r` is an enter event. -/
def entered (t : List Event) (r : wl_resource) : Bool :=
  t.foldl (fun b e => track b r e) false

/-- In the words of the ordering guarantee: the trace `p` has an enter event
sent to the device `r` with no leave event sent to `r` after it. -/
def enter_open (p : List Event) (r : wl_resource) : Prop :=
  ∃ p1 p2 serial surface x y offer,
    p = p1 ++ Event.data_device_enter r serial surface x y offer :: p2 ∧
    Event.data_device_leave r ∉ p2

/-- Every motion, drop and leave event of the trace is preceded by an enter
event sent to the same device with no leave to it in between. -/
def causal (t : List Event) : Prop :=
  ∀ p e q r, t = p ++ e :: q → e.focus_target = some r → enter_open p r

/-- The replay form of `causal`, used as invariant. -/
def replay_ok (t : List Event) : Prop :=
  ∀ p e q r, t = p ++ e :: q → e.focus_target = some r → entered p r = true

/-- A step that does not concern the drag focus: focused device, focused
surface and device collection are unchanged, no registration of the focus
listener is lost, and the events added to the trace are no drag events. -/
def Quiet (w w' : World) : Prop :=
  w'.seat.drag_focus_device = w.seat.drag_focus_device ∧
  w'.seat.drag_focus = w.seat.drag_focus ∧
  w'.seat.drag_data_device_list = w.seat.drag_data_device_list ∧
  (∀ r, (r, wl_listener.drag_focus_listener) ∈ w.destroy_listeners →
    (r, wl_listener.drag_focus_listener) ∈ w'.destroy_listeners) ∧
  ∃ es, w'.trace = w.trace ++ es ∧ ∀ e ∈ es, e.is_drag = false

/-- An idle seat: no drag is in progress, nothing is focused, the devices of
the collection are distinct objects, and the trace starts here. -/
def idle (w : World) : Prop :=
  w.seat.drag_focus_device = none ∧ w.seat.drag_focus = none ∧
  w.seat.drag_data_source = none ∧ w.seat.drag_client = none ∧
  w.seat.drag_surface = none ∧
  w.seat.drag_data_device_list.Nodup ∧ w.trace = []

/-- One step of the server, as far as this file is concerned: a request
handler, a grab callback, an exported function, the firing of one destruction
observer, the destruction of a source or of a data device, or a change of the
pointer and keyboard records by the input layer.  The object id of a new data
device is one that the object layer does not have in use.  The selection
functions are called with valid source pointers. -/
inductive Step : World → World → Prop where
  | get_data_device (w : World) (client : Nat) (manager : wl_resource) (id : Nat)
      (alloc_ok : Bool)
      (fresh : ({ resource := { client := client, object_id := id } } : wl_data_device) ∉
        w.seat.drag_data_device_list) :
      Step w (get_data_device w client manager id alloc_ok)
  | create_data_source (w : World) (client : Nat) (manager : wl_resource) (id : Nat)
      (alloc_ok : Bool) :
      Step w (create_data_source w client manager id alloc_ok)
  | data_source_offer (w w' : World) (resource : wl_resource) (type : String)
      (array_ok strdup_ok : Bool)
      (h : data_source_offer w resource type array_ok strdup_ok = some w') : Step w w'
  | start_drag (w w' : World) (client : Nat) (source : Option wl_resource)
      (icon : Option wl_surface)
      (h : data_device_start_drag w client source icon = some w') : Step w w'
  | focus (w w' : World) (surface : Option wl_surface) (x y : Int) (alloc : Option Nat)
      (h : drag_grab_focus w surface x y alloc = some w') : Step w w'
  | motion (w : World) (time : Nat) (x y : Int) : Step w (drag_grab_motion w time x y)
  | button (w w' : World) (time button state_w : Nat)
      (h : drag_grab_button w time button state_w = some w') : Step w w'
  | notify (w w' : World) (l : wl_listener) (h : notify w l = some w') : Step w w'
  | destroy_source (w w' : World) (resource : wl_resource)
      (h : wl_resource_destroy_source w resource = some w') : Step w w'
  | destroy_device (w w' : World) (device : wl_data_device)
      (hmem : device ∈ w.seat.drag_data_device_list)
      (h : wl_resource_destroy_device w device = some w') : Step w w'
  | set_selection (w w' : World) (source : Option wl_resource) (serial : Nat)
      (alloc : Option Nat)
      (hold : w.live w.seat.selection_data_source = true) (hnew : w.live source = true)
      (h : wl_seat_set_selection w source serial alloc = some w') : Step w w'
  | keyboard_focus (w w' : World) (alloc : Option Nat)
      (hold : w.live w.seat.selection_data_source = true)
      (h : wl_data_device_set_keyboard_focus w alloc = some w') : Step w w'
  | offer_accept (w w' : World) (resource : wl_resource) (serial : Nat)
      (mime_type : String)
      (h : data_offer_accept w resource serial mime_type = some w') : Step w w'
  | offer_receive (w w' : World) (resource : wl_resource) (mime_type : String) (fd : Int)
      (h : data_offer_receive w resource mime_type fd = some w') : Step w w'
  | destroy_offer (w w' : World) (resource : wl_resource)
      (h : destroy_data_offer w resource = some w') : Step w w'
  | input (w : World) (pointer : wl_pointer) (keyboard : Option wl_keyboard) :
      Step w { w with seat := { w.seat with pointer := pointer, keyboard := keyboard } }

/-- The states reachable from an idle seat. -/
inductive Reachable : World → Prop where
  | init (w : World) (h : idle w) : Reachable w
  | step (w w' : World) (hw : Reachable w) (hs : Step w w') : Reachable w'

/-- The invariant of the drag focus: the devices of the collection are
distinct; a focused device is in the collection, has the focus listener
registered on its resource, comes with a focused surface of the same client,
and has an enter event open in the trace; the trace is causal. -/
structure Inv (w : World) : Prop where
  nodup : w.seat.drag_data_device_list.Nodup
  focus : ∀ d, w.seat.drag_focus_device = some d →
    d ∈ w.seat.drag_data_device_list ∧
    (d.resource, wl_listener.drag_focus_listener) ∈ w.destroy_listeners ∧
    (∃ s, w.seat.drag_focus = some s ∧
      wl_resource_get_client d.resource = wl_resource_get_client s.resource) ∧
    entered w.trace d.resource = true
  trace : replay_ok w.trace

/-- An idle world: no device, no source, nothing in progress. -/
def world_idle : World :=
  { seat :=
      { pointer := { grab_button := 272, button_count := 1, grab := grab_slot.default_grab },
        keyboard := none,
        selection_serial := 0,
        selection_data_source := none,
        drag_data_device_list := [],
        drag_client := none,
        drag_data_source := none,
        drag_focus := none,
        drag_focus_device := none,
        drag_surface := none,
        drag_grab := { drag_interface := false, focus := none } },
    sources := [],
    offers := [],
    destroy_listeners := [],
    serial := 0,
    trace := [] }

/-- The events a step adds to the trace respect the drag focus: the trace
only grows, and each motion, drop and leave event added goes to the device
that was the focused device before the step. -/
def Targets (w w' : World) : Prop :=
  ∃ es, w'.trace = w.trace ++ es ∧
    ∀ e ∈ es, ∀ r, e.focus_target = some r →
      ∃ d, w.seat.drag_focus_device = some d ∧ d.resource = r

/-- A step that can only drop the drag focus: the device collection is
unchanged, the focused device is unchanged or cleared, and the events respect
the drag focus. -/
def Fading (w w' : World) : Prop :=
  w'.seat.drag_data_device_list = w.seat.drag_data_device_list ∧
  (w'.seat.drag_focus_device = w.seat.drag_focus_device ∨
    w'.seat.drag_focus_device = none) ∧
  (w'.seat.drag_focus = w.seat.drag_focus ∨ w'.seat.drag_focus = none) ∧
  Targets w w'

/-- An idle world in which client 3 has bound the data device `dev_c`. -/
def world_ready : World :=
  { world_idle with seat := { world_idle.seat with drag_data_device_list := [dev_c] } }

/-- The world `world_ready` after client 3 started a drag without data source
and without icon. -/
def world_started : World :=
  { world_ready with
    seat := { world_ready.seat with
      pointer := { world_ready.seat.pointer with grab := grab_slot.drag_grab },
      drag_client := some 3,
      drag_grab := { drag_interface := true, focus := none } },
    trace := [Event.pointer_set_focus none 0 0, Event.pointer_start_grab] }

/-- The world `world_started` after the drag entered the surface `surf_c` of
client 3: the device `dev_c` is the focused device. -/
def world_focused : World :=
  { world_started with
    seat := { world_started.seat with
      drag_focus := some surf_c,
      drag_focus_device := some dev_c,
      drag_grab := { drag_interface := true, focus := some surf_c } },
    destroy_listeners := [(dev_c.resource, wl_listener.drag_focus_listener)],
    serial := 1,
    trace := [Event.pointer_set_focus none 0 0, Event.pointer_start_grab,
      Event.data_device_enter dev_c.resource 1 surf_c.resource 0 0 none] }

/-- The world `world_focused` after the data device `dev_c` was destroyed:
the focused device is cleared, the focused surface is still recorded. -/
def world_stale : World :=
  { world_focused with
    seat := { world_focused.seat with
      drag_focus_device := none,
      drag_data_device_list := [] },
    destroy_listeners := [] }

/-- The world `world_focused` after one pointer motion. -/
def world_moved : World :=
  { world_focused with
    trace := world_focused.trace ++ [Event.data_device_motion dev_c.resource 5 1 2] }

/-- The world `world_moved` after the release of the grab button: the drop
was delivered and the drag ended. -/
def world_dropped : World :=
  { world_moved with
    seat := end_drag_seat { world_moved.seat with
      pointer := { world_moved.seat.pointer with button_count := 0 } },
    destroy_listeners := [],
    trace := world_moved.trace ++ [Event.data_device_drop dev_c.resource,
      Event.data_device_leave dev_c.resource, Event.pointer_end_grab] }

/-! ## General facts about the primitives -/

theorem uint32_sub_eq (a b : Nat) :
    ((uint32_sub a b : Nat) : Int) = ((a : Int) - (b : Int)) % 4294967296 := by
  unfold uint32_sub
  omega

theorem send_mime_types_eq (w : World) (r : wl_resource) (ts : List (Option String)) :
    send_mime_types w r ts =
      { w with trace := w.trace ++ ts.map (Event.data_offer_offer r) } := by
  induction ts generalizing w with
  | nil => simp [send_mime_types]
  | cons t ts ih => simp [send_mime_types, ih, World.emit]

theorem source_resource_eq (w : World) (p : wl_resource) (src : wl_data_source)
    (h : w.source p = some src) : src.resource = p := by
  unfold World.source at h
  have := List.find?_some h
  simpa using this

theorem wl_data_source_send_offer_some (w : World) (source target : wl_resource)
    (id : Nat) (src : wl_data_source) (h : w.source source = some src) :
    wl_data_source_send_offer w source target (some id) =
      some ({ w with
          offers := { resource := new_offer target id, source := some source } :: w.offers,
          destroy_listeners := w.destroy_listeners ++
            [(source, wl_listener.source_destroy_listener (new_offer target id))],
          trace := w.trace ++ presentation target id src.mime_types },
        some (new_offer target id)) := by
  have hr := source_resource_eq w source src h
  simp [wl_data_source_send_offer, h, send_mime_types_eq, World.emit,
    wl_resource_add_destroy_listener, new_offer, presentation, hr]

theorem wl_data_source_send_offer_none (w : World) (source target : wl_resource) :
    wl_data_source_send_offer w source target none = some (w, none) := rfl

theorem live_some (w : World) (p : wl_resource) (h : w.live (some p) = true) :
    ∃ src, w.source p = some src := by
  simp only [World.live] at h
  exact Option.isSome_iff_exists.mp h

theorem source_cancel_eq (w : World) (src : wl_data_source) :
    source_cancel w src = w.emit (cancel_call src) := by
  unfold source_cancel cancel_call client_source_cancel
  cases src.cancel <;> rfl

theorem selection_target_none_iff (seat : wl_seat) :
    selection_target seat = none ↔
      (seat.keyboard = none ∨
        (∃ k, seat.keyboard = some k ∧ k.focus_resource = none) ∨
        (∃ k f, seat.keyboard = some k ∧ k.focus_resource = some f ∧
          find_data_device seat.drag_data_device_list (wl_resource_get_client f) = none)) := by
  unfold selection_target keyboard_focus
  rcases hk : seat.keyboard with _ | k
  · simp
  · rcases hf : k.focus_resource with _ | f
    · simp [hf]
    · simp [hf]

theorem set_selection_accept (w : World) (source : Option wl_resource) (serial : Nat)
    (alloc : Option Nat)
    (hc : ¬ (w.seat.selection_data_source.isSome ∧
      uint32_sub w.seat.selection_serial serial < UINT32_MAX / 2))
    (hold : w.live w.seat.selection_data_source = true)
    (hnew : w.live source = true) :
    wl_seat_set_selection w source serial alloc = some
      { seat := { w.seat with selection_data_source := source, selection_serial := serial },
        sources := w.sources,
        offers := (presented_offer w source alloc).toList ++ w.offers,
        destroy_listeners := selection_listeners w source alloc,
        serial := w.serial,
        trace := w.trace ++ previous_cancel w ++ selection_events w source alloc ++
          [Event.selection_signal] } := by
  unfold wl_seat_set_selection
  rw [if_neg hc]
  have hnew2 : ∀ s, source = some s → ∃ src, w.source s = some src := by
    intro s hs; subst hs; exact live_some w s hnew
  have hold2 : ∀ p, w.seat.selection_data_source = some p → ∃ src, w.source p = some src := by
    intro p hp; rw [hp] at hold; exact live_some w p hold
  have hoff : ∀ (w0 : World) (s target : wl_resource) (src : wl_data_source),
      w.source s = some src → w0.sources = w.sources →
      wl_data_source_send_offer w0 s target alloc =
        match alloc with
        | some id => some ({ w0 with
            offers := { resource := new_offer target id, source := some s } :: w0.offers,
            destroy_listeners := w0.destroy_listeners ++
              [(s, wl_listener.source_destroy_listener (new_offer target id))],
            trace := w0.trace ++ presentation target id src.mime_types },
            some (new_offer target id))
        | none => some (w0, none) := by
    intro w0 s target src h1 h2
    cases alloc with
    | none => rfl
    | some id =>
      exact wl_data_source_send_offer_some w0 s target id src
        (by unfold World.source at h1 ⊢; rw [h2]; exact h1)
  rcases hs : w.seat.selection_data_source with _ | p
  · rcases source with _ | s
    · rcases hk : keyboard_focus w.seat.keyboard with _ | f
      · simp [hs, hk, World.emit, previous_cancel, selection_events, selection_listeners,
          presented_offer, selection_target]
      · rcases hf : find_data_device w.seat.drag_data_device_list
            (wl_resource_get_client f) with _ | d
        · simp [hs, hk, hf, World.emit, previous_cancel, selection_events,
            selection_listeners, presented_offer, selection_target]
        · simp [hs, hk, hf, World.emit, previous_cancel, selection_events,
            selection_listeners, presented_offer, selection_target]
    · obtain ⟨src, hsrc⟩ := hnew2 s rfl
      have hr := source_resource_eq w s src hsrc
      have hsrc2 := hsrc
      simp only [World.source] at hsrc2
      rcases hk : keyboard_focus w.seat.keyboard with _ | f
      · simp [hs, hk, World.emit, previous_cancel, selection_events, selection_listeners,
          presented_offer, selection_target, World.source, hsrc2, hr,
          wl_resource_add_destroy_listener]
      · rcases hf : find_data_device w.seat.drag_data_device_list
            (wl_resource_get_client f) with _ | d
        · simp [hs, hk, hf, World.emit, previous_cancel, selection_events,
            selection_listeners, presented_offer, selection_target, World.source, hsrc2, hr,
            wl_resource_add_destroy_listener]
        · simp only [Option.pure_def, Option.bind_eq_bind, Option.some_bind, hk, hf]
          rw [hoff _ s d.resource src hsrc ?_]
          swap
          · rfl
          cases alloc with
          | none =>
            simp [hs, hk, hf, World.emit, previous_cancel, selection_events,
              selection_listeners, presented_offer, selection_target, World.source, hsrc2, hr,
              wl_resource_add_destroy_listener]
          | some id =>
            simp [hs, hk, hf, World.emit, previous_cancel, selection_events,
              selection_listeners, presented_offer, selection_target, World.source, hsrc2, hr,
              wl_resource_add_destroy_listener]
  · obtain ⟨old, hold3⟩ := hold2 p hs
    have hold4 := hold3
    simp only [World.source] at hold4
    rcases source with _ | s
    · rcases hk : keyboard_focus w.seat.keyboard with _ | f
      · simp [hs, hk, World.emit, previous_cancel, selection_events, selection_listeners,
          presented_offer, selection_target, World.source, hold4, source_cancel_eq,
          wl_list_remove]
      · rcases hf : find_data_device w.seat.drag_data_device_list
            (wl_resource_get_client f) with _ | d
        · simp [hs, hk, hf, World.emit, previous_cancel, selection_events,
            selection_listeners, presented_offer, selection_target, World.source, hold4,
            source_cancel_eq, wl_list_remove]
        · simp [hs, hk, hf, World.emit, previous_cancel, selection_events,
            selection_listeners, presented_offer, selection_target, World.source, hold4,
            source_cancel_eq, wl_list_remove]
    · obtain ⟨src, hsrc⟩ := hnew2 s rfl
      have hr := source_resource_eq w s src hsrc
      have hsrc2 := hsrc
      simp only [World.source] at hsrc2
      rcases hk : keyboard_focus w.seat.keyboard with _ | f
      · simp [hs, hk, World.emit, previous_cancel, selection_events, selection_listeners,
          presented_offer, selection_target, World.source, hsrc2, hr, hold4,
          source_cancel_eq, wl_list_remove, wl_resource_add_destroy_listener]
      · rcases hf : find_data_device w.seat.drag_data_device_list
            (wl_resource_get_client f) with _ | d
        · simp [hs, hk, hf, World.emit, previous_cancel, selection_events,
            selection_listeners, presented_offer, selection_target, World.source, hsrc2, hr,
            hold4, source_cancel_eq, wl_list_remove, wl_resource_add_destroy_listener]
        · simp only [Option.pure_def, Option.bind_eq_bind, Option.some_bind, hk, hf, hold3,
            source_cancel_eq, wl_list_remove, World.emit]
          rw [hoff _ s d.resource src hsrc ?_]
          swap
          · rfl
          cases alloc with
          | none =>
            simp [hs, hk, hf, World.emit, previous_cancel, selection_events,
              selection_listeners, presented_offer, selection_target, World.source, hsrc2, hr,
              hold4, wl_resource_add_destroy_listener]
          | some id =>
            simp [hs, hk, hf, World.emit, previous_cancel, selection_events,
              selection_listeners, presented_offer, selection_target, World.source, hsrc2, hr,
              hold4, wl_resource_add_destroy_listener]

theorem race_rule_iff (w : World) (serial : Nat) :
    (w.seat.selection_data_source.isSome ∧
        uint32_sub w.seat.selection_serial serial < UINT32_MAX / 2) ↔
      (w.seat.selection_data_source ≠ none ∧
        ((w.seat.selection_serial : Int) - (serial : Int)) % 4294967296 < 2147483647) := by
  have hsub := uint32_sub_eq w.seat.selection_serial serial
  have hmax : UINT32_MAX / 2 = 2147483647 := by decide
  rw [hmax, Option.isSome_iff_ne_none]
  constructor
  · rintro ⟨h1, h2⟩
    exact ⟨h1, by omega⟩
  · rintro ⟨h1, h2⟩
    exact ⟨h1, by omega⟩

theorem set_selection_reject (w : World) (source : Option wl_resource) (serial : Nat)
    (alloc : Option Nat)
    (hc : w.seat.selection_data_source.isSome ∧
      uint32_sub w.seat.selection_serial serial < UINT32_MAX / 2) :
    wl_seat_set_selection w source serial alloc = some w := by
  unfold wl_seat_set_selection
  rw [if_pos hc]

theorem set_selection_dichotomy (w : World) (source : Option wl_resource)
    (serial : Nat) (alloc : Option Nat)
    (hold : w.live w.seat.selection_data_source = true)
    (hnew : w.live source = true) :
    (w.seat.selection_data_source ≠ none ∧
        ((w.seat.selection_serial : Int) - (serial : Int)) % 4294967296 < 2147483647) ∨
      ∃ w', wl_seat_set_selection w source serial alloc = some w' ∧ w' ≠ w ∧
        w'.seat.selection_data_source = source ∧
        w'.seat.selection_serial = serial := by
  by_cases hc : w.seat.selection_data_source.isSome ∧
      uint32_sub w.seat.selection_serial serial < UINT32_MAX / 2
  · exact Or.inl ((race_rule_iff w serial).1 hc)
  · have hacc := set_selection_accept w source serial alloc hc hold hnew
    refine Or.inr ⟨_, hacc, ?_, rfl, rfl⟩
    intro heq
    have ht := congrArg World.trace heq
    simp at ht

theorem find_map_update (l : List wl_data_source) (p : wl_resource)
    (f : wl_data_source → wl_data_source) (src : wl_data_source)
    (hf : ∀ s, (f s).resource = s.resource)
    (h : l.find? (fun s => decide (s.resource = p)) = some src) :
    (l.map (fun s => if s.resource = p then f s else s)).find?
      (fun s => decide (s.resource = p)) = some (f src) := by
  induction l with
  | nil => simp at h
  | cons a l ih =>
    by_cases ha : a.resource = p
    · have : a = src := by simpa [List.find?, ha] using h
      subst this
      simp [List.find?, ha, hf]
    · have h2 : l.find? (fun s => decide (s.resource = p)) = some src := by
        simpa [List.find?, ha] using h
      simp [List.find?, ha, ih h2]

theorem data_source_offer_ok (w : World) (r : wl_resource) (t : String)
    (src : wl_data_source) (h : w.source r = some src) :
    data_source_offer w r t true true =
        some (w.update_source r (fun s => { s with mime_types := s.mime_types ++ [some t] })) ∧
      (w.update_source r (fun s => { s with mime_types := s.mime_types ++ [some t] })).source r =
        some { src with mime_types := src.mime_types ++ [some t] } := by
  constructor
  · simp [data_source_offer, h]
  · unfold World.source at h ⊢
    exact find_map_update w.sources r _ src (fun _ => rfl) h

theorem offer_types_ok (w : World) (r : wl_resource) (ts : List String)
    (src : wl_data_source) (h : w.source r = some src) :
    ∃ w', offer_types w r ts = some w' ∧
      w'.source r = some { src with mime_types := src.mime_types ++ ts.map some } ∧
      w'.trace = w.trace ∧ w'.offers = w.offers := by
  induction ts generalizing w src with
  | nil => exact ⟨w, rfl, by simpa using h, rfl, rfl⟩
  | cons t ts ih =>
    obtain ⟨h1, h2⟩ := data_source_offer_ok w r t src h
    obtain ⟨w', h3, h4, h5, h6⟩ := ih _ _ h2
    refine ⟨w', ?_, ?_, ?_, ?_⟩
    · simp [offer_types, h1, h3]
    · simpa using h4
    · rw [h5]; rfl
    · rw [h6]; rfl

theorem drag_grab_focus_null (w : World) (x y : Int) (alloc : Option Nat) :
    drag_grab_focus w none x y alloc = some
      (match w.seat.drag_focus_device with
        | some device =>
          { wl_list_remove (w.emit (Event.data_device_leave device.resource))
              wl_listener.drag_focus_listener with
            seat := { w.seat with drag_focus_device := none, drag_focus := none } }
        | none => w) := by
  unfold drag_grab_focus
  cases w.seat.drag_focus_device <;> rfl

theorem end_drag_grab_spec (w : World) :
    ∃ w', data_device_end_drag_grab w = some w' ∧
      w'.trace = w.trace ++ end_drag_events w ∧
      w'.seat.drag_data_source = none ∧ w'.seat.drag_client = none ∧
      w'.seat.drag_focus_device = none ∧ w'.seat.drag_surface = none ∧
      w'.seat.pointer.grab = grab_slot.default_grab ∧
      (w.seat.drag_focus_device ≠ none → w'.seat.drag_focus = none) ∧
      (w.seat.drag_focus_device = none → w'.seat.drag_focus = w.seat.drag_focus) ∧
      w'.offers = w.offers ∧ w'.sources = w.sources ∧ w'.serial = w.serial ∧
      w'.seat.selection_data_source = w.seat.selection_data_source ∧
      w'.seat.selection_serial = w.seat.selection_serial ∧
      w'.seat.keyboard = w.seat.keyboard ∧
      w'.seat.drag_data_device_list = w.seat.drag_data_device_list := by
  unfold data_device_end_drag_grab
  simp only [drag_grab_focus_null, Option.pure_def, Option.bind_eq_bind, Option.some_bind]
  rcases hs : w.seat.drag_surface with _ | icon <;>
    rcases hd : w.seat.drag_focus_device with _ | d <;>
    simp [hs, hd, end_drag_events, wl_pointer_end_grab, World.emit, wl_list_remove]

theorem drag_grab_button_spec (w : World) (time button state_w : Nat) :
    ∃ w', drag_grab_button w time button state_w = some w' ∧
      (ends_gesture w state_w →
        w'.trace = w.trace ++ drop_events w button state_w ++ end_drag_events w ∧
        w'.seat.drag_data_source = none ∧ w'.seat.drag_client = none ∧
        w'.seat.drag_focus_device = none ∧ w'.seat.drag_surface = none ∧
        w'.seat.pointer.grab = grab_slot.default_grab ∧
        (w.seat.drag_focus_device ≠ none → w'.seat.drag_focus = none) ∧
        (w.seat.drag_focus_device = none → w'.seat.drag_focus = w.seat.drag_focus)) ∧
      (¬ ends_gesture w state_w →
        w' = { w with trace := w.trace ++ drop_events w button state_w }) := by
  have hdrop : (match w.seat.drag_focus_device with
      | some device =>
        if w.seat.pointer.grab_button = button ∧
            state_w = WL_POINTER_BUTTON_STATE_RELEASED then
          w.emit (Event.data_device_drop device.resource)
        else w
      | none => w) = { w with trace := w.trace ++ drop_events w button state_w } := by
    unfold drop_events
    rcases w.seat.drag_focus_device with _ | d
    · simp
    · by_cases hb : w.seat.pointer.grab_button = button ∧
          state_w = WL_POINTER_BUTTON_STATE_RELEASED
      · simp [hb, World.emit]
      · simp only [if_neg hb]; simp
  unfold drag_grab_button
  simp only [hdrop]
  by_cases he : ends_gesture w state_w
  · have he2 : w.seat.pointer.button_count = 0 ∧
        state_w = WL_POINTER_BUTTON_STATE_RELEASED := he
    rw [if_pos he2]
    rcases hsrc : w.seat.drag_data_source with _ | src
    · obtain ⟨w', h1, h2, h3, h4, h5, h6, h7, h8, h9, _⟩ := end_drag_grab_spec
        ({ w with trace := w.trace ++ drop_events w button state_w } : World)
      refine ⟨w', by simpa using h1, fun _ => ⟨?_, h3, h4, h5, h6, h7, h8, h9⟩,
        fun hn => absurd he hn⟩
      rw [h2]
      simp [end_drag_events]
    · obtain ⟨w', h1, h2, h3, h4, h5, h6, h7, h8, h9, _⟩ := end_drag_grab_spec
        (wl_list_remove ({ w with trace := w.trace ++ drop_events w button state_w } : World)
          wl_listener.drag_data_source_listener)
      refine ⟨w', by simpa using h1, fun _ => ⟨?_, h3, h4, h5, h6, h7, h8, h9⟩,
        fun hn => absurd he hn⟩
      rw [h2]
      simp [end_drag_events, wl_list_remove]
  · have he2 : ¬ (w.seat.pointer.button_count = 0 ∧
        state_w = WL_POINTER_BUTTON_STATE_RELEASED) := he
    exact ⟨_, if_neg he2, fun h => absurd h he, fun _ => rfl⟩

theorem drop_events_no_end_grab (w : World) (button state_w : Nat) :
    Event.pointer_end_grab ∉ drop_events w button state_w := by
  unfold drop_events
  rcases w.seat.drag_focus_device with _ | d
  · simp
  · by_cases hb : w.seat.pointer.grab_button = button ∧
        state_w = WL_POINTER_BUTTON_STATE_RELEASED
    · simp [hb]
    · simp only [if_neg hb]; simp

theorem end_drag_events_no_drop (w : World) :
    ∀ e ∈ end_drag_events w, e.is_drop = false := by
  unfold end_drag_events
  rcases w.seat.drag_focus_device with _ | d <;>
    rcases w.seat.drag_surface with _ | icon <;>
    simp [Event.is_drop]

theorem null_source_resource (ls : List wl_listener) (o : wl_data_offer) :
    (null_source ls o).resource = o.resource := by
  unfold null_source
  split <;> rfl

theorem null_source_cons (l : wl_listener) (ls : List wl_listener) (o : wl_data_offer) :
    null_source ls (null_source [l] o) = null_source (l :: ls) o := by
  unfold null_source
  by_cases h1 : wl_listener.source_destroy_listener o.resource = l
  · simp [h1]
  · by_cases h2 : wl_listener.source_destroy_listener o.resource ∈ ls
    · simp [h1, h2]
    · simp [h1, h2]

theorem end_drag_grab_heap (w : World) :
    ∃ w', data_device_end_drag_grab w = some w' ∧ w'.offers = w.offers ∧
      w'.sources = w.sources := by
  obtain ⟨w', h1, _, _, _, _, _, _, _, _, h2, h3, _⟩ := end_drag_grab_spec w
  exact ⟨w', h1, h2, h3⟩

theorem notify_heap (w : World) (l : wl_listener) :
    ∃ w1, notify w l = some w1 ∧ w1.offers = w.offers.map (null_source [l]) ∧
      w1.sources = w.sources := by
  have hid : ∀ l2 : wl_listener, (∀ r, l2 ≠ wl_listener.source_destroy_listener r) →
      w.offers.map (null_source [l2]) = w.offers := by
    intro l2 hl2
    conv_rhs => rw [← List.map_id w.offers]
    apply List.map_congr_left
    intro o _
    unfold null_source
    rw [if_neg]
    · rfl
    · simp only [List.mem_singleton]
      exact fun h => hl2 _ h.symm
  cases l with
  | source_destroy_listener r =>
    refine ⟨_, rfl, ?_, rfl⟩
    simp only [destroy_offer_data_source, World.update_offer]
    apply List.map_congr_left
    intro o _
    unfold null_source
    by_cases h : o.resource = r
    · simp [h]
    · simp [h]
  | drag_focus_listener =>
    exact ⟨_, rfl, (hid _ (fun r h => by cases h)).symm, rfl⟩
  | drag_data_source_listener =>
    obtain ⟨w', h1, h2, h3⟩ := end_drag_grab_heap w
    exact ⟨w', h1, by rw [h2, hid _ (fun r h => by cases h)], h3⟩
  | drag_icon_listener =>
    exact ⟨_, rfl, (hid _ (fun r h => by cases h)).symm, rfl⟩
  | selection_data_source_listener =>
    refine ⟨_, rfl, ?_, ?_⟩
    · rw [hid _ (fun r h => by cases h)]
      unfold destroy_selection_data_source
      simp only [World.emit]
      split <;> [split; skip] <;> rfl
    · unfold destroy_selection_data_source
      simp only [World.emit]
      split <;> [split; skip] <;> rfl

theorem emit_destroy_heap (ls : List wl_listener) (w : World) :
    ∃ w1, wl_signal_emit_destroy w ls = some w1 ∧
      w1.offers = w.offers.map (null_source ls) ∧ w1.sources = w.sources := by
  induction ls generalizing w with
  | nil =>
    refine ⟨w, rfl, ?_, rfl⟩
    conv_lhs => rw [← List.map_id w.offers]
    apply List.map_congr_left
    intro o _
    simp [null_source]
  | cons l ls ih =>
    obtain ⟨wa, h1, h2, h3⟩ := notify_heap w l
    obtain ⟨w1, h4, h5, h6⟩ := ih wa
    refine ⟨w1, ?_, ?_, by rw [h6, h3]⟩
    · simp [wl_signal_emit_destroy, h1, h4]
    · rw [h5, h2, List.map_map]
      apply List.map_congr_left
      intro o _
      exact null_source_cons l ls o

theorem find_null_source (ls : List wl_listener) (l : List wl_data_offer)
    (o : wl_data_offer) (ho : o ∈ l)
    (hl : wl_listener.source_destroy_listener o.resource ∈ ls) :
    ∃ o2, (l.map (null_source ls)).find? (fun x => decide (x.resource = o.resource)) =
        some o2 ∧ o2.source = none := by
  induction l with
  | nil => simp at ho
  | cons a l ih =>
    by_cases ha : a.resource = o.resource
    · refine ⟨null_source ls a, ?_, ?_⟩
      · simp [List.find?, null_source_resource, ha]
      · unfold null_source
        rw [ha, if_pos hl]
    · have ho2 : o ∈ l := by
        rcases List.mem_cons.1 ho with h | h
        · exact absurd (by rw [h]) ha
        · exact h
      obtain ⟨o2, h1, h2⟩ := ih ho2
      exact ⟨o2, by simp [List.find?, null_source_resource, ha, h1], h2⟩

theorem send_offer_links (w : World) (p target : wl_resource) (id : Nat)
    (src : wl_data_source) (h : w.source p = some src) (hl : offers_linked w p) :
    ∃ w1, wl_data_source_send_offer w p target (some id) =
        some (w1, some (new_offer target id)) ∧
      { resource := new_offer target id, source := some p } ∈ w1.offers ∧
      offers_linked w1 p ∧ w1.source p = some src := by
  refine ⟨_, wl_data_source_send_offer_some w p target id src h, by simp, ?_, h⟩
  intro o ho hs
  simp only [List.mem_cons] at ho
  rcases ho with ho | ho
  · subst ho
    simp
  · simp only [List.mem_append]
    exact Or.inl (hl o ho hs)

/-! ## Selection: the race rule (C1, C2) and the accepted claim (C3) -/

/-- C1: for every seat state with valid source pointers, every source and
every serial, wl_seat_set_selection rejects the claim (returns with the state
untouched) if and only if a selection source is held and
(selection_serial - serial) mod 2^32 < UINT32_MAX / 2 = 2147483647; in every
other case the claim is accepted: the call returns a changed state whose
selection_data_source is the given source and whose selection_serial is the
given serial. -/
theorem C1_set_selection_race_rule (w : World) (source : Option wl_resource)
    (serial : Nat) (alloc : Option Nat)
    (hold : w.live w.seat.selection_data_source = true)
    (hnew : w.live source = true) :
    UINT32_MAX / 2 = 2147483647 ∧
    (wl_seat_set_selection w source serial alloc = some w ↔
      (w.seat.selection_data_source ≠ none ∧
        ((w.seat.selection_serial : Int) - (serial : Int)) % 4294967296 < 2147483647)) ∧
    ((w.seat.selection_data_source ≠ none ∧
        ((w.seat.selection_serial : Int) - (serial : Int)) % 4294967296 < 2147483647) ∨
      ∃ w', wl_seat_set_selection w source serial alloc = some w' ∧ w' ≠ w ∧
        w'.seat.selection_data_source = source ∧
        w'.seat.selection_serial = serial) := by
  refine ⟨by decide, ?_⟩
  by_cases hc : w.seat.selection_data_source.isSome ∧
      uint32_sub w.seat.selection_serial serial < UINT32_MAX / 2
  · have hc2 := (race_rule_iff w serial).1 hc
    exact ⟨⟨fun _ => hc2, fun _ => set_selection_reject w source serial alloc hc⟩,
      Or.inl hc2⟩
  · have hc2 : ¬ (w.seat.selection_data_source ≠ none ∧
        ((w.seat.selection_serial : Int) - (serial : Int)) % 4294967296 < 2147483647) :=
      fun h => hc ((race_rule_iff w serial).2 h)
    have hacc := set_selection_accept w source serial alloc hc hold hnew
    have hne : ∀ w', wl_seat_set_selection w source serial alloc = some w' → w' ≠ w := by
      intro w' hw' heq
      rw [hacc] at hw'
      have ht := congrArg World.trace (Option.some.inj hw')
      rw [heq] at ht
      simp at ht
    refine ⟨⟨fun h => absurd rfl (hne w h), fun h => absurd h hc2⟩, Or.inr ?_⟩
    exact ⟨_, hacc, hne _ hacc, rfl, rfl⟩

/-- C1, exercised: holding serial 100, a claim with serial 50 is rejected,
and a claim with serial 101 is accepted. -/
theorem C1_set_selection_race_rule_witness :
    wl_seat_set_selection world_sel (some src_b.resource) 50 (some 40) = some world_sel ∧
    ∃ w', wl_seat_set_selection world_sel (some src_b.resource) 101 (some 40) = some w' ∧
      w' ≠ world_sel ∧ w'.seat.selection_data_source = some src_b.resource ∧
      w'.seat.selection_serial = 101 :=
  ⟨(C1_set_selection_race_rule world_sel (some src_b.resource) 50 (some 40)
      (by decide) (by decide)).2.1.2 ⟨by decide, by decide⟩,
   (C1_set_selection_race_rule world_sel (some src_b.resource) 101 (some 40)
      (by decide) (by decide)).2.2.resolve_left (by decide)⟩

/-- C2: a rejected selection claim is a silent no-op: whenever a selection is
held and the serial is not newer, wl_seat_set_selection returns the state it
was given: same seat (selection source, selection_serial), same registered
destruction observers, same heap, and a trace with nothing added (no cancel,
no data-offer or selection event, no selection-changed notification, no
error). -/
theorem C2_rejected_claim_is_silent_noop (w : World) (source : Option wl_resource)
    (serial : Nat) (alloc : Option Nat)
    (hheld : w.seat.selection_data_source ≠ none)
    (hstale : ((w.seat.selection_serial : Int) - (serial : Int)) % 4294967296
      < 2147483647) :
    ∃ w', wl_seat_set_selection w source serial alloc = some w' ∧ w' = w ∧
      w'.seat.selection_data_source = w.seat.selection_data_source ∧
      w'.seat.selection_serial = w.seat.selection_serial ∧
      w'.destroy_listeners = w.destroy_listeners ∧
      w'.trace = w.trace :=
  ⟨w, set_selection_reject w source serial alloc
    ((race_rule_iff w serial).2 ⟨hheld, hstale⟩), rfl, rfl, rfl, rfl, rfl⟩

/-- C2, exercised: holding serial 100, the claim with serial 100 itself
changes nothing. -/
theorem C2_rejected_claim_is_silent_noop_witness :
    ∃ w', wl_seat_set_selection world_sel none 100 none = some w' ∧ w' = world_sel ∧
      w'.seat.selection_data_source = world_sel.seat.selection_data_source ∧
      w'.seat.selection_serial = world_sel.seat.selection_serial ∧
      w'.destroy_listeners = world_sel.destroy_listeners ∧
      w'.trace = world_sel.trace :=
  C2_rejected_claim_is_silent_noop world_sel none 100 none (by decide) (by decide)

/-- C3, as stated, fails when the allocation of the offer fails: the claim
with serial 101 for `src_b` is accepted, client 3 has the keyboard focus and
the device `dev_c`, the source is present, yet no offer is presented and the
one selection event carries no offer. -/
theorem C3_counterexample :
    selection_target world_sel.seat = some dev_c ∧
    (wl_seat_set_selection world_sel (some src_b.resource) 101 none).map World.trace =
      some [Event.data_source_cancelled src_a.resource,
        Event.data_device_selection dev_c.resource none,
        Event.selection_signal] ∧
    ¬ ∃ id,
      (wl_seat_set_selection world_sel (some src_b.resource) 101 none).map World.trace =
        some (world_sel.trace ++
          [Event.data_source_cancelled src_a.resource] ++
          (presentation dev_c.resource id src_b.mime_types ++
            [Event.data_device_selection dev_c.resource
              (some (new_offer dev_c.resource id))]) ++
          [Event.selection_signal]) := by
  have h1 : (wl_seat_set_selection world_sel (some src_b.resource) 101 none).map
      World.trace = some [Event.data_source_cancelled src_a.resource,
        Event.data_device_selection dev_c.resource none,
        Event.selection_signal] := by decide
  refine ⟨by decide, h1, ?_⟩
  rintro ⟨id, h⟩
  rw [h1] at h
  have hl := congrArg List.length (Option.some.inj h)
  simp [presentation, world_sel, src_b] at hl

/-- C3, amended: for every accepted wl_seat_set_selection the trace grows by
exactly, in this order: one cancel call on the previously held source if
there was one; the events to the data device D of the keyboard-focused client
if there is one (with a source and an allocated offer: the presentation of
the new offer, then one selection event carrying it; without a source, or
when the allocation of the offer fails: one selection event carrying no
offer; without keyboard, focused client or device, see
`selection_target_none_iff`: nothing); and exactly one selection-changed
notification.  The selection listener is registered on the new source if it
is present, and not registered by the call if it is absent. -/
theorem C3_accepted_selection_trace (w : World) (source : Option wl_resource)
    (serial : Nat) (alloc : Option Nat)
    (hacc : ¬ (w.seat.selection_data_source ≠ none ∧
      ((w.seat.selection_serial : Int) - (serial : Int)) % 4294967296 < 2147483647))
    (hold : w.live w.seat.selection_data_source = true)
    (hnew : w.live source = true) :
    ∃ w', wl_seat_set_selection w source serial alloc = some w' ∧
      w'.trace = w.trace ++ previous_cancel w ++ selection_events w source alloc ++
        [Event.selection_signal] ∧
      (∀ old, w.seat.selection_data_source = some old →
        ∃ src, w.source old = some src ∧ previous_cancel w = [cancel_call src]) ∧
      (w.seat.selection_data_source = none → previous_cancel w = []) ∧
      (selection_target w.seat = none → selection_events w source alloc = []) ∧
      (∀ d, selection_target w.seat = some d → source = none →
        selection_events w source alloc = [Event.data_device_selection d.resource none]) ∧
      (∀ d s, selection_target w.seat = some d → source = some s → alloc = none →
        selection_events w source alloc = [Event.data_device_selection d.resource none]) ∧
      (∀ d s id, selection_target w.seat = some d → source = some s → alloc = some id →
        ∃ src, w.source s = some src ∧
          selection_events w source alloc =
            Event.data_device_data_offer d.resource (new_offer d.resource id) ::
              src.mime_types.map (Event.data_offer_offer (new_offer d.resource id)) ++
            [Event.data_device_selection d.resource (some (new_offer d.resource id))]) ∧
      (∀ s, source = some s →
        (s, wl_listener.selection_data_source_listener) ∈ w'.destroy_listeners) ∧
      (source = none → ∀ r,
        (r, wl_listener.selection_data_source_listener) ∈ w'.destroy_listeners →
        w.seat.selection_data_source = none ∧
        (r, wl_listener.selection_data_source_listener) ∈ w.destroy_listeners) := by
  have hc : ¬ (w.seat.selection_data_source.isSome ∧
      uint32_sub w.seat.selection_serial serial < UINT32_MAX / 2) :=
    fun h => hacc ((race_rule_iff w serial).1 h)
  refine ⟨_, set_selection_accept w source serial alloc hc hold hnew, rfl, ?_, ?_, ?_, ?_,
    ?_, ?_, ?_, ?_⟩
  · intro old ho
    rw [ho] at hold
    obtain ⟨src, hsrc⟩ := live_some w old hold
    exact ⟨src, hsrc, by simp [previous_cancel, ho, hsrc]⟩
  · intro ho
    simp [previous_cancel, ho]
  · intro ht
    simp [selection_events, ht]
  · intro d ht hs
    simp [selection_events, ht, hs]
  · intro d s ht hs ha
    simp [selection_events, ht, hs, ha]
  · intro d s id ht hs ha
    subst hs
    obtain ⟨src, hsrc⟩ := live_some w s hnew
    exact ⟨src, hsrc, by simp [selection_events, ht, ha, hsrc, presentation]⟩
  · intro s hs
    simp [selection_listeners, hs]
  · intro hs r hr
    subst hs
    rcases ho : w.seat.selection_data_source with _ | old
    · refine ⟨rfl, ?_⟩
      simpa [selection_listeners, ho, presented_offer] using hr
    · exfalso
      simp [selection_listeners, ho, presented_offer] at hr

/-- C3, exercised: holding `src_a` with serial 100, the claim of `src_b` with
serial 101 is accepted; the trace is the cancel of `src_a`, the presentation
of the new offer to `dev_c`, the selection event carrying it and the
notification. -/
theorem C3_accepted_selection_trace_witness :
    ∃ w', wl_seat_set_selection world_sel (some src_b.resource) 101 (some 40) = some w' ∧
      w'.trace = [Event.data_source_cancelled src_a.resource,
        Event.data_device_data_offer dev_c.resource (new_offer dev_c.resource 40),
        Event.data_offer_offer (new_offer dev_c.resource 40) (some "c"),
        Event.data_device_selection dev_c.resource (some (new_offer dev_c.resource 40)),
        Event.selection_signal] :=
  match C3_accepted_selection_trace world_sel (some src_b.resource) 101 (some 40)
    (by decide) (by decide) (by decide) with
  | ⟨w', h1, h2, _⟩ => ⟨w', h1, h2.trans (by decide)⟩

/-! ## Sources and offers (C4, C5, C6) -/

/-- C4, as stated, fails when the allocation of the offer fails: after two
successful data_source_offer calls on a new source, a wl_data_source_send_offer
whose `malloc` returns NULL emits no data-offer and no offer-type event and
returns no offer. -/
theorem C4_counterexample :
    ∃ w1, offer_types (create_data_source world_sel 1 { client := 1, object_id := 2 } 11 true)
        { client := 1, object_id := 11 } ["a", "b"] = some w1 ∧
      (w1.source { client := 1, object_id := 11 }).map wl_data_source.mime_types =
        some [some "a", some "b"] ∧
      wl_data_source_send_offer w1 { client := 1, object_id := 11 } dev_c.resource none =
        some (w1, none) :=
  ⟨_, rfl, by decide, rfl⟩

/-- C4, amended: after any sequence of successful data_source_offer calls with
types t1..tn (duplicates allowed) the mime-type sequence of the source is its
previous sequence followed by t1..tn (exactly t1..tn for a source that had
none); every later wl_data_source_send_offer whose offer allocation succeeds
emits exactly one data-offer event naming the new offer followed by one
offer-type event per type, in insertion order, and types offered afterwards
add no event and leave the presented offer as it is; when the allocation
fails, it emits nothing and returns no offer. -/
theorem C4_presented_offer_snapshot (w : World) (r : wl_resource)
    (src : wl_data_source) (ts us : List String) (target : wl_resource)
    (h : w.source r = some src) :
    ∃ w1 src1, offer_types w r ts = some w1 ∧ w1.source r = some src1 ∧
      src1.mime_types = src.mime_types ++ ts.map some ∧
      (src.mime_types = [] → src1.mime_types = ts.map some) ∧
      w1.trace = w.trace ∧
      (∀ id, ∃ w2, wl_data_source_send_offer w1 r target (some id) =
            some (w2, some (new_offer target id)) ∧
          w2.trace = w1.trace ++
            Event.data_device_data_offer target (new_offer target id) ::
              (src.mime_types ++ ts.map some).map
                (Event.data_offer_offer (new_offer target id)) ∧
          w2.offers = { resource := new_offer target id, source := some r } :: w1.offers ∧
          ∃ w3, offer_types w2 r us = some w3 ∧ w3.trace = w2.trace ∧
            w3.offers = w2.offers) ∧
      wl_data_source_send_offer w1 r target none = some (w1, none) := by
  obtain ⟨w1, h1, h2, h3, _⟩ := offer_types_ok w r ts src h
  refine ⟨w1, _, h1, h2, rfl, ?_, h3, ?_, rfl⟩
  · intro he
    simp [he]
  · intro id
    have hs := wl_data_source_send_offer_some w1 r target id _ h2
    refine ⟨_, hs, rfl, rfl, ?_⟩
    have h4 : World.source
        { w1 with
          offers := { resource := new_offer target id, source := some r } :: w1.offers,
          destroy_listeners := w1.destroy_listeners ++
            [(r, wl_listener.source_destroy_listener (new_offer target id))],
          trace := w1.trace ++ presentation target id
            ({ src with mime_types := src.mime_types ++ ts.map some }).mime_types } r =
        some { src with mime_types := src.mime_types ++ ts.map some } := h2
    obtain ⟨w3, h5, _, h7, h8⟩ := offer_types_ok _ r us _ h4
    exact ⟨w3, h5, h7, h8⟩

/-- C4, exercised: a new source that is offered "a", "b", "a" advertises
exactly these three types, in this order, on a presented offer. -/
theorem C4_presented_offer_snapshot_witness :
    ∃ w1 src1,
      offer_types (create_data_source world_sel 1 { client := 1, object_id := 2 } 11 true)
        { client := 1, object_id := 11 } ["a", "b", "a"] = some w1 ∧
      w1.source { client := 1, object_id := 11 } = some src1 ∧
      src1.mime_types = [some "a", some "b", some "a"] ∧
      ∃ w2, wl_data_source_send_offer w1 { client := 1, object_id := 11 } dev_c.resource
          (some 40) = some (w2, some (new_offer dev_c.resource 40)) ∧
        w2.trace = w1.trace ++
          [Event.data_device_data_offer dev_c.resource (new_offer dev_c.resource 40),
           Event.data_offer_offer (new_offer dev_c.resource 40) (some "a"),
           Event.data_offer_offer (new_offer dev_c.resource 40) (some "b"),
           Event.data_offer_offer (new_offer dev_c.resource 40) (some "a")] :=
  match C4_presented_offer_snapshot
    (create_data_source world_sel 1 { client := 1, object_id := 2 } 11 true)
    { client := 1, object_id := 11 }
    { resource := { client := 1, object_id := 11 },
      accept := capability.client_source, send := capability.client_source,
      cancel := capability.client_source, mime_types := [] }
    ["a", "b", "a"] [] dev_c.resource (by decide) with
  | ⟨w1, src1, h1, h2, _, h4, _, h6, _⟩ =>
    ⟨w1, src1, h1, h2, h4 rfl,
      match h6 40 with
      | ⟨w2, h7, h8, _⟩ => ⟨w2, h7, h8⟩⟩

/-- C5: when a live source is destroyed, every offer that wl_data_source_send_offer
created for it (its source points to the source and its listener is registered
on it, see `send_offer_links`) gets its source pointer nulled by
destroy_offer_data_source while all offers stay alive; afterwards no offer
points to the destroyed source, and for each of those offers data_offer_accept
does nothing (no accept call), data_offer_receive only closes the descriptor
(no send call), and destroy_data_offer only releases the offer: the listener
registrations are left alone. -/
theorem C5_source_destruction_nulls_offers (w : World) (p : wl_resource)
    (src : wl_data_source) (hsrc : w.source p = some src)
    (hlinked : offers_linked w p) :
    ∃ w', wl_resource_destroy_source w p = some w' ∧
      w'.source p = none ∧
      w'.offers.map (fun o => o.resource) = w.offers.map (fun o => o.resource) ∧
      (∀ o2 ∈ w'.offers, o2.source ≠ some p) ∧
      ∀ o ∈ w.offers, o.source = some p →
        ∃ o2, w'.offer o.resource = some o2 ∧ o2.source = none ∧
          notify w (wl_listener.source_destroy_listener o.resource) =
            some (destroy_offer_data_source w o.resource) ∧
          (∀ serial mime_type,
            data_offer_accept w' o.resource serial mime_type = some w') ∧
          (∀ mime_type fd,
            data_offer_receive w' o.resource mime_type fd = some (w'.emit (Event.close fd))) ∧
          destroy_data_offer w' o.resource = some { w' with
            offers := w'.offers.filter (fun x => decide (x.resource ≠ o.resource)) } := by
  obtain ⟨w1, h1, h2, h3⟩ := emit_destroy_heap
    ((w.destroy_listeners.filter (fun e => decide (e.1 = p))).map Prod.snd) w
  have hmem : ∀ o ∈ w.offers, o.source = some p →
      wl_listener.source_destroy_listener o.resource ∈
        (w.destroy_listeners.filter (fun e => decide (e.1 = p))).map Prod.snd := by
    intro o ho hs
    simp only [List.mem_map, List.mem_filter]
    exact ⟨(p, wl_listener.source_destroy_listener o.resource),
      ⟨hlinked o ho hs, by simp⟩, rfl⟩
  have hres0 : wl_resource_destroy_source w p = some
      { (destroy_data_source w1 p) with
        destroy_listeners := List.filter (fun e => decide (e.1 ≠ p))
          (destroy_data_source w1 p).destroy_listeners } := by
    simp [wl_resource_destroy_source, hsrc, h1]
  obtain ⟨W, hres, hWo, hWs⟩ : ∃ W, wl_resource_destroy_source w p = some W ∧
      W.offers = w1.offers ∧
      W.sources = w1.sources.filter (fun s => decide (s.resource ≠ p)) :=
    ⟨_, hres0, rfl, rfl⟩
  refine ⟨W, hres, ?_, ?_, ?_, ?_⟩
  · simp [World.source, hWs, List.find?_eq_none]
  · rw [hWo, h2, List.map_map]
    apply List.map_congr_left
    intro o _
    exact null_source_resource _ o
  · intro o2 ho2
    rw [hWo, h2, List.mem_map] at ho2
    obtain ⟨o, ho, rfl⟩ := ho2
    unfold null_source
    by_cases hs : o.source = some p
    · rw [if_pos (hmem o ho hs)]
      simp
    · split
      · simp
      · exact hs
  · intro o ho hs
    obtain ⟨o2, h4, h5⟩ := find_null_source _ w.offers o ho (hmem o ho hs)
    have hoff : W.offer o.resource = some o2 := by
      unfold World.offer
      rw [hWo, h2]
      exact h4
    refine ⟨o2, hoff, h5, rfl, ?_, ?_, ?_⟩
    · intro serial mime_type
      simp [data_offer_accept, hoff, h5]
    · intro mime_type fd
      simp [data_offer_receive, hoff, h5]
    · simp [destroy_data_offer, hoff, h5]

/-- C5, exercised: `src_a` is presented twice to `dev_c`; after the destruction
of `src_a` both offers are still there with a null source, and a receive
request on the first one only closes the descriptor. -/
theorem C5_source_destruction_nulls_offers_witness :
    ((wl_data_source_send_offer world_sel src_a.resource dev_c.resource (some 33)).bind
      (fun r => wl_data_source_send_offer r.1 src_a.resource dev_c.resource (some 34))) =
      some (world_presented, some { client := 3, object_id := 34 }) ∧
    ∃ w', wl_resource_destroy_source world_presented src_a.resource = some w' ∧
      w'.offers.map (fun o => o.resource) =
        [{ client := 3, object_id := 34 }, { client := 3, object_id := 33 }] ∧
      (∀ o2 ∈ w'.offers, o2.source ≠ some src_a.resource) ∧
      data_offer_receive w' { client := 3, object_id := 33 } "a" 5 =
        some (w'.emit (Event.close 5)) :=
  ⟨by decide,
   match C5_source_destruction_nulls_offers world_presented src_a.resource src_a (by decide)
     (by unfold offers_linked; decide) with
   | ⟨w', h1, _, h3, h4, h5⟩ =>
     match h5 { resource := { client := 3, object_id := 33 }, source := some src_a.resource }
       (by decide) rfl with
     | ⟨_, _, _, _, _, h9, _⟩ => ⟨w', h1, h3, h4, h9 "a" 5⟩⟩

/-- C6: for every live offer (with a valid source pointer), mime type and
descriptor, data_offer_receive calls the send capability of the source if and
only if the source pointer of the offer is not null.  Without a source the
only thing it does is close the descriptor, once; with a live client source
(client_source_send) it emits exactly one send(mime_type, fd) event to the
source and then closes the descriptor, once. -/
theorem C6_receive_forwards_or_closes (w : World) (resource : wl_resource)
    (mime_type : String) (fd : Int) (offer : wl_data_offer)
    (hoffer : w.offer resource = some offer)
    (hlive : w.live offer.source = true) :
    ∃ w' emitted, data_offer_receive w resource mime_type fd = some w' ∧
      w' = { w with trace := w.trace ++ emitted } ∧
      ((∃ e ∈ emitted, e.is_send_call = true) ↔ offer.source ≠ none) ∧
      (offer.source = none → emitted = [Event.close fd]) ∧
      (∀ p, offer.source = some p → ∃ src, w.source p = some src ∧
        w' = source_send w src mime_type fd ∧
        (src.send = capability.client_source →
          emitted = [Event.data_source_send src.resource mime_type fd, Event.close fd] ∧
          emitted.count (Event.close fd) = 1)) := by
  rcases hs : offer.source with _ | p
  · refine ⟨_, [Event.close fd], ?_, rfl, ?_, fun _ => rfl, fun p hp => by simp at hp⟩
    · simp [data_offer_receive, hoffer, hs, World.emit]
    · simp [Event.is_send_call]
  · rw [hs] at hlive
    obtain ⟨src, hsrc⟩ := live_some w p hlive
    rcases hcap : src.send with _ | tag
    · refine ⟨_, [Event.data_source_send src.resource mime_type fd, Event.close fd], ?_, rfl,
        ?_, fun h => by simp at h, fun q hq => ⟨src, ?_, ?_, fun _ => ⟨rfl, ?_⟩⟩⟩
      · simp [data_offer_receive, hoffer, hs, hsrc, source_send, hcap, client_source_send,
          World.emit]
      · simp [Event.is_send_call]
      · cases hq; exact hsrc
      · simp [source_send, hcap, client_source_send, World.emit]
      · simp [List.count_cons]
    · refine ⟨_, [Event.foreign_send tag src.resource mime_type fd], ?_, rfl,
        ?_, fun h => by simp at h, fun q hq => ⟨src, ?_, ?_,
          fun h => by first | cases h | (rw [hcap] at h; cases h)⟩⟩
      · simp [data_offer_receive, hoffer, hs, hsrc, source_send, hcap, World.emit]
      · simp [Event.is_send_call]
      · cases hq; exact hsrc
      · simp [source_send, hcap, World.emit]

/-- C6, exercised: on the offer whose source `src_a` is live the receive
request gives the send event and then the close; on the offer whose source is
gone it gives the close alone. -/
theorem C6_receive_forwards_or_closes_witness :
    (∃ w', data_offer_receive world_offers { client := 3, object_id := 33 } "a" 5 = some w' ∧
      w'.trace = [Event.data_source_send src_a.resource "a" 5, Event.close 5]) ∧
    (∃ w', data_offer_receive world_offers { client := 3, object_id := 34 } "a" 5 = some w' ∧
      w'.trace = [Event.close 5]) :=
  ⟨match C6_receive_forwards_or_closes world_offers { client := 3, object_id := 33 } "a" 5
      { resource := { client := 3, object_id := 33 }, source := some src_a.resource }
      (by decide) (by decide) with
    | ⟨w', _, h1, h2, _, _, h5⟩ =>
      match h5 src_a.resource rfl with
      | ⟨src, h6, _, h8⟩ =>
        have hsrc : src = src_a := Option.some.inj (h6.symm.trans (by decide))
        ⟨w', h1, by rw [h2, (h8 (by rw [hsrc]; rfl)).1, hsrc]; rfl⟩,
   match C6_receive_forwards_or_closes world_offers { client := 3, object_id := 34 } "a" 5
      { resource := { client := 3, object_id := 34 }, source := none }
      (by decide) (by decide) with
    | ⟨w', _, h1, h2, _, h4, _⟩ => ⟨w', h1, by rw [h2, h4 rfl]; rfl⟩⟩

/-! ## Selection on keyboard focus and on source destruction (C7, C8) -/

/-- C7, as stated, fails when the allocation of the offer fails: a selection
is held, client 3 has the keyboard focus and the device `dev_c`, yet
wl_data_device_set_keyboard_focus presents no offer and emits one selection
event that carries no offer. -/
theorem C7_counterexample :
    world_sel.seat.selection_data_source = some src_a.resource ∧
    selection_target world_sel.seat = some dev_c ∧
    (wl_data_device_set_keyboard_focus world_sel none).map
      (fun w => (w.trace, w.offers)) =
      some ([Event.data_device_selection dev_c.resource none], []) := by
  decide

/-- C7, amended: when a selection source is held, the keyboard has a focused
client and that client has a data device D, wl_data_device_set_keyboard_focus
with a successful offer allocation presents exactly one new offer to D
(advertising the current mime types of the source) and then emits exactly one
selection event to D carrying that offer; when the allocation of the offer
fails it emits one selection event to D carrying no offer.  In both cases the
seat (the selection state) is unchanged.  Without a keyboard, a focused
client, a device for that client or a held selection it does nothing. -/
theorem C7_keyboard_focus_selection (w : World) (alloc : Option Nat)
    (hheld : w.live w.seat.selection_data_source = true) :
    ∃ w', wl_data_device_set_keyboard_focus w alloc = some w' ∧
      w'.seat = w.seat ∧ w'.sources = w.sources ∧
      (w.seat.keyboard = none → w' = w) ∧
      (∀ k, w.seat.keyboard = some k → k.focus_resource = none → w' = w) ∧
      (∀ k f, w.seat.keyboard = some k → k.focus_resource = some f →
        find_data_device w.seat.drag_data_device_list (wl_resource_get_client f) = none →
        w' = w) ∧
      (w.seat.selection_data_source = none → w' = w) ∧
      (∀ k f d s, w.seat.keyboard = some k → k.focus_resource = some f →
        find_data_device w.seat.drag_data_device_list (wl_resource_get_client f) = some d →
        w.seat.selection_data_source = some s →
        ∃ src, w.source s = some src ∧
          (∀ id, alloc = some id →
            w'.trace = w.trace ++
              Event.data_device_data_offer d.resource (new_offer d.resource id) ::
                src.mime_types.map (Event.data_offer_offer (new_offer d.resource id)) ++
              [Event.data_device_selection d.resource (some (new_offer d.resource id))] ∧
            w'.offers =
              { resource := new_offer d.resource id, source := some s } :: w.offers) ∧
          (alloc = none →
            w'.trace = w.trace ++ [Event.data_device_selection d.resource none] ∧
            w'.offers = w.offers)) := by
  unfold wl_data_device_set_keyboard_focus
  rcases hk : w.seat.keyboard with _ | k
  · refine ⟨w, rfl, rfl, rfl, fun _ => rfl, fun k2 h => (by cases h), fun k2 _ h => (by cases h),
      fun _ => rfl, fun k2 _ _ _ h => by cases h⟩
  rcases hf : k.focus_resource with _ | f
  · refine ⟨w, by simp only [hf], rfl, rfl, fun _ => rfl, fun _ _ _ => rfl,
      fun _ _ _ _ _ => rfl, fun _ => rfl, ?_⟩
    intro k2 f2 d2 s2 h1 h2
    cases h1
    rw [hf] at h2
    cases h2
  rcases hd : find_data_device w.seat.drag_data_device_list (wl_resource_get_client f)
    with _ | d
  · refine ⟨w, by simp only [hf, hd], rfl, rfl, fun _ => rfl, fun _ _ _ => rfl,
      fun _ _ _ _ _ => rfl, fun _ => rfl, ?_⟩
    intro k2 f2 d2 s2 h1 h2 h3
    cases h1
    rw [hf] at h2
    cases h2
    rw [hd] at h3
    cases h3
  rcases hs : w.seat.selection_data_source with _ | s
  · refine ⟨w, by simp only [hf, hd], rfl, rfl, fun _ => rfl, fun _ _ _ => rfl,
      fun _ _ _ _ _ => rfl, fun _ => rfl, ?_⟩
    intro k2 f2 d2 s2 _ _ _ h4
    cases h4
  rw [hs] at hheld
  obtain ⟨src, hsrc⟩ := live_some w s hheld
  cases alloc with
  | none =>
    refine ⟨w.emit (Event.data_device_selection d.resource none), by simp only [hf, hd]; rfl,
      rfl, rfl, fun h => (by cases h), ?_, ?_, fun h => (by cases h), ?_⟩
    · intro k2 h1 h2
      cases h1
      rw [hf] at h2
      cases h2
    · intro k2 f2 h1 h2 h3
      cases h1
      rw [hf] at h2
      cases h2
      rw [hd] at h3
      cases h3
    · intro k2 f2 d2 s2 h1 h2 h3 h4
      cases h1
      rw [hf] at h2
      cases h2
      rw [hd] at h3
      cases h3
      cases h4
      exact ⟨src, hsrc, fun id h => (by cases h), fun _ => ⟨rfl, rfl⟩⟩
  | some id =>
    simp only [hf, hd, wl_data_source_send_offer_some w s d.resource id src hsrc,
      Option.pure_def, Option.bind_eq_bind, Option.some_bind]
    refine ⟨_, rfl, rfl, rfl, fun h => (by cases h), ?_, ?_, fun h => (by cases h), ?_⟩
    · intro k2 h1 h2
      cases h1
      rw [hf] at h2
      cases h2
    · intro k2 f2 h1 h2 h3
      cases h1
      rw [hf] at h2
      cases h2
      rw [hd] at h3
      cases h3
    · intro k2 f2 d2 s2 h1 h2 h3 h4
      cases h1
      rw [hf] at h2
      cases h2
      rw [hd] at h3
      cases h3
      cases h4
      refine ⟨src, hsrc, fun id2 h => ?_, fun h => by cases h⟩
      cases h
      exact ⟨by simp [World.emit, presentation], rfl⟩

/-- C7, exercised: in `world_sel` a keyboard focus change presents one new
offer of `src_a` (types "a" and "b") to `dev_c`, then the selection event. -/
theorem C7_keyboard_focus_selection_witness :
    ∃ w', wl_data_device_set_keyboard_focus world_sel (some 41) = some w' ∧
      w'.seat = world_sel.seat ∧
      w'.trace = [Event.data_device_data_offer dev_c.resource (new_offer dev_c.resource 41),
        Event.data_offer_offer (new_offer dev_c.resource 41) (some "a"),
        Event.data_offer_offer (new_offer dev_c.resource 41) (some "b"),
        Event.data_device_selection dev_c.resource (some (new_offer dev_c.resource 41))] :=
  match C7_keyboard_focus_selection world_sel (some 41) (by decide) with
  | ⟨w', h1, h2, _, _, _, _, _, h8⟩ =>
    match h8 { focus_resource := some { client := 3, object_id := 32 } }
      { client := 3, object_id := 32 } dev_c src_a.resource rfl rfl (by decide) rfl with
    | ⟨src, h9, h10, _⟩ =>
      have hsrc : src = src_a := Option.some.inj (h9.symm.trans (by decide))
      ⟨w', h1, h2, by rw [(h10 41 rfl).1, hsrc]; rfl⟩

/-- C8: the listener destroy_selection_data_source (run when the held
selection source is destroyed) leaves selection_data_source absent, emits one
selection event carrying no offer to the data device of the keyboard-focused
client if there is such a device (and none otherwise), and then exactly one
selection-changed notification; afterwards wl_seat_set_selection accepts a
claim with any serial, whatever the stored selection_serial is. -/
theorem C8_selection_source_destroyed (w : World) (source : Option wl_resource)
    (serial : Nat) (alloc : Option Nat) (hnew : w.live source = true) :
    notify w wl_listener.selection_data_source_listener =
      some (destroy_selection_data_source w) ∧
    (destroy_selection_data_source w).seat.selection_data_source = none ∧
    (destroy_selection_data_source w).seat.selection_serial = w.seat.selection_serial ∧
    (∀ d, selection_target w.seat = some d →
      (destroy_selection_data_source w).trace = w.trace ++
        [Event.data_device_selection d.resource none, Event.selection_signal]) ∧
    (selection_target w.seat = none →
      (destroy_selection_data_source w).trace = w.trace ++ [Event.selection_signal]) ∧
    ∃ w2, wl_seat_set_selection (destroy_selection_data_source w) source serial alloc =
        some w2 ∧
      w2 ≠ destroy_selection_data_source w ∧
      w2.seat.selection_data_source = source ∧ w2.seat.selection_serial = serial := by
  have hsel : (destroy_selection_data_source w).seat.selection_data_source = none := by
    unfold destroy_selection_data_source
    simp only [World.emit]
    split <;> [split; skip] <;> rfl
  have hsrcs : (destroy_selection_data_source w).sources = w.sources := by
    unfold destroy_selection_data_source
    simp only [World.emit]
    split <;> [split; skip] <;> rfl
  refine ⟨rfl, hsel, ?_, ?_, ?_, ?_⟩
  · unfold destroy_selection_data_source
    simp only [World.emit]
    split <;> [split; skip] <;> rfl
  · intro d hd
    unfold selection_target at hd
    unfold destroy_selection_data_source
    rcases hk : keyboard_focus w.seat.keyboard with _ | f
    · simp [hk] at hd
    · simp only [hk] at hd
      simp [hk, hd, World.emit]
  · intro hd
    unfold selection_target at hd
    unfold destroy_selection_data_source
    rcases hk : keyboard_focus w.seat.keyboard with _ | f
    · simp [hk, World.emit]
    · simp only [hk] at hd
      simp [hk, hd, World.emit]
  · have hlive : (destroy_selection_data_source w).live source = true := by
      unfold World.live World.source at hnew ⊢
      rw [hsrcs]
      exact hnew
    have hold : (destroy_selection_data_source w).live
        (destroy_selection_data_source w).seat.selection_data_source = true := by
      rw [hsel]; rfl
    have h := set_selection_dichotomy (destroy_selection_data_source w) source serial alloc hold hlive
    rcases h with h | h
    · rw [hsel] at h
      exact absurd rfl h.1
    · exact h

/-- C8, exercised: after the held source of `world_sel` died, a claim with
serial 50, older than the stored serial 100, is accepted. -/
theorem C8_selection_source_destroyed_witness :
    (destroy_selection_data_source world_sel).trace =
      [Event.data_device_selection dev_c.resource none, Event.selection_signal] ∧
    ∃ w2, wl_seat_set_selection (destroy_selection_data_source world_sel)
        (some src_b.resource) 50 none = some w2 ∧
      w2.seat.selection_data_source = some src_b.resource ∧ w2.seat.selection_serial = 50 :=
  match C8_selection_source_destroyed world_sel (some src_b.resource) 50 none (by decide) with
  | ⟨_, _, _, h4, _, w2, h6, _, h8, h9⟩ => ⟨h4 dev_c (by decide), w2, h6, h8, h9⟩

/-! ## The drag grab: button events (C9, C10) -/

/-- C9, as stated, fails in the state left by the destruction of the focused
data device during the drag (the listener destroy_drag_focus nulls
drag_focus_device only): no device is focused, the focused surface is still
recorded; the release of the last button ends the gesture, and the focused
surface is still recorded afterwards. -/
theorem C9_counterexample :
    wl_resource_destroy_device world_drag dev_c = some world_drag_unbound ∧
    world_drag_unbound.seat.drag_focus_device = none ∧
    world_drag_unbound.seat.drag_focus = some surf_c ∧
    world_drag_unbound.seat.pointer.button_count = 0 ∧
    (drag_grab_button world_drag_unbound 0 272 WL_POINTER_BUTTON_STATE_RELEASED).map
      (fun w => (w.seat.drag_focus, w.seat.pointer.grab, w.trace)) =
      some (some surf_c, grab_slot.default_grab,
        [Event.drag_icon_signal none, Event.pointer_end_grab]) := by
  refine ⟨by decide, by decide, by decide, by decide, by decide⟩

/-- C9, amended: drag_grab_button ends the gesture (ends the pointer grab) if
and only if the held-button count is 0 and the new state is released,
whatever the button and the focus.  When it ends the gesture, afterwards
drag_data_source, drag_client, drag_focus_device and the drag icon surface are
absent, the focused surface is absent if a device was focused or no surface
was recorded before the call, the pointer grab was ended exactly once,
exactly one leave event was emitted if a device was focused and none
otherwise, and the icon signal was emitted, with an empty payload, iff an icon
surface was recorded.  When it does not end the gesture, the seat is
unchanged. -/
theorem C9_button_release_ends_drag (w : World) (time button state_w : Nat) :
    ∃ w' emitted, drag_grab_button w time button state_w = some w' ∧
      w'.trace = w.trace ++ emitted ∧
      emitted = drop_events w button state_w ++
        (if w.seat.pointer.button_count = 0 ∧ state_w = WL_POINTER_BUTTON_STATE_RELEASED
          then end_drag_events w else []) ∧
      (Event.pointer_end_grab ∈ emitted ↔
        (w.seat.pointer.button_count = 0 ∧ state_w = WL_POINTER_BUTTON_STATE_RELEASED)) ∧
      ((w.seat.pointer.button_count = 0 ∧ state_w = WL_POINTER_BUTTON_STATE_RELEASED) →
        w'.seat.drag_data_source = none ∧ w'.seat.drag_client = none ∧
        w'.seat.drag_focus_device = none ∧ w'.seat.drag_surface = none ∧
        ((w.seat.drag_focus_device ≠ none ∨ w.seat.drag_focus = none) →
          w'.seat.drag_focus = none) ∧
        w'.seat.pointer.grab = grab_slot.default_grab ∧
        emitted.count Event.pointer_end_grab = 1 ∧
        emitted.countP Event.is_leave = (if w.seat.drag_focus_device = none then 0 else 1) ∧
        (∀ d, w.seat.drag_focus_device = some d →
          emitted.count (Event.data_device_leave d.resource) = 1) ∧
        emitted.countP Event.is_icon_signal = (if w.seat.drag_surface = none then 0 else 1) ∧
        emitted.count (Event.drag_icon_signal none) =
          (if w.seat.drag_surface = none then 0 else 1)) ∧
      (¬ (w.seat.pointer.button_count = 0 ∧ state_w = WL_POINTER_BUTTON_STATE_RELEASED) →
        w'.seat = w.seat ∧ w'.destroy_listeners = w.destroy_listeners) := by
  obtain ⟨w', h1, h2, h3⟩ := drag_grab_button_spec w time button state_w
  by_cases he : ends_gesture w state_w
  · obtain ⟨h4, h5, h6, h7, h8, h9, h10, h11⟩ := h2 he
    refine ⟨w', drop_events w button state_w ++ end_drag_events w, h1,
      by rw [h4, List.append_assoc], by rw [if_pos (show _ ∧ _ from he)],
      ⟨fun _ => he, fun _ => by simp [end_drag_events]⟩,
      fun _ => ⟨h5, h6, h7, h8, ?_, h9, ?_, ?_, ?_, ?_, ?_⟩, fun hn => absurd he hn⟩
    · rintro (hd | hf)
      · exact h10 hd
      · by_cases hd : w.seat.drag_focus_device = none
        · rw [h11 hd, hf]
        · exact h10 hd
    all_goals
      unfold drop_events end_drag_events
      rcases w.seat.drag_focus_device with _ | d <;>
        rcases w.seat.drag_surface with _ | icon <;>
        by_cases hb : w.seat.pointer.grab_button = button ∧
          state_w = WL_POINTER_BUTTON_STATE_RELEASED <;>
        simp [hb, Event.is_leave, Event.is_icon_signal, List.count_cons, List.countP_cons]
  · have h4 := h3 he
    refine ⟨w', drop_events w button state_w, h1, by rw [h4], by rw [if_neg (show ¬ (_ ∧ _) from he)]; simp,
      ⟨?_, fun h => absurd h he⟩,
      fun h => absurd h he, fun _ => by rw [h4]; exact ⟨rfl, rfl⟩⟩
    intro hmem
    exact absurd hmem (drop_events_no_end_grab w button state_w)

/-- C9, exercised: in `world_drag` the release of the last button ends the
gesture: drop and the end sequence are emitted and the drag state is
cleared. -/
theorem C9_button_release_ends_drag_witness :
    ∃ w', drag_grab_button world_drag 0 272 WL_POINTER_BUTTON_STATE_RELEASED = some w' ∧
      w'.trace = [Event.data_device_drop dev_c.resource, Event.drag_icon_signal none,
        Event.data_device_leave dev_c.resource, Event.pointer_end_grab] ∧
      w'.seat.drag_data_source = none ∧ w'.seat.drag_client = none ∧
      w'.seat.drag_focus_device = none ∧ w'.seat.drag_surface = none ∧
      w'.seat.drag_focus = none :=
  match C9_button_release_ends_drag world_drag 0 272 WL_POINTER_BUTTON_STATE_RELEASED with
  | ⟨w', _, h1, h2, h3, _, h4, _⟩ =>
    match h4 ⟨rfl, rfl⟩ with
    | ⟨h5, h6, h7, h8, h9, _⟩ =>
      ⟨w', h1, (h2.trans (congrArg _ h3)).trans (by decide),
        h5, h6, h7, h8, h9 (Or.inl (by decide))⟩

/-- C10: for every drag state and every button event, drag_grab_button emits a
drop event if and only if a device is focused, the button is the
grab-initiating button of the pointer and the new state is released; then the
drop is the first event of the call, goes to the focused device, and no other
drop is emitted, so that it precedes the leave event of the same call when
the call also ends the gesture. -/
theorem C10_drop_event (w : World) (time button state_w : Nat) :
    ∃ w' emitted, drag_grab_button w time button state_w = some w' ∧
      w'.trace = w.trace ++ emitted ∧
      ((∃ e ∈ emitted, e.is_drop = true) ↔
        (w.seat.drag_focus_device ≠ none ∧ w.seat.pointer.grab_button = button ∧
          state_w = WL_POINTER_BUTTON_STATE_RELEASED)) ∧
      (∀ d, w.seat.drag_focus_device = some d → w.seat.pointer.grab_button = button →
        state_w = WL_POINTER_BUTTON_STATE_RELEASED →
        ∃ rest, emitted = Event.data_device_drop d.resource :: rest ∧
          (∀ e ∈ rest, e.is_drop = false) ∧
          (w.seat.pointer.button_count = 0 → Event.data_device_leave d.resource ∈ rest)) := by
  obtain ⟨w', h1, h2, h3⟩ := drag_grab_button_spec w time button state_w
  have hnodrop := end_drag_events_no_drop w
  have hrest : ∃ rest, w'.trace = w.trace ++ (drop_events w button state_w ++ rest) ∧
      (∀ e ∈ rest, e.is_drop = false) ∧
      (ends_gesture w state_w → rest = end_drag_events w) := by
    by_cases he : ends_gesture w state_w
    · exact ⟨end_drag_events w, by rw [(h2 he).1, List.append_assoc], hnodrop, fun _ => rfl⟩
    · exact ⟨[], by rw [h3 he]; simp, by simp, fun h => absurd h he⟩
  obtain ⟨rest, hr1, hr2, hr3⟩ := hrest
  refine ⟨w', drop_events w button state_w ++ rest, h1, hr1, ?_, ?_⟩
  · unfold drop_events
    rcases hd : w.seat.drag_focus_device with _ | d
    · simp only [List.nil_append, ne_eq, not_true_eq_false, false_and, iff_false]
      rintro ⟨e, he1, he2⟩
      rw [hr2 e he1] at he2
      exact Bool.false_ne_true he2
    · by_cases hb : w.seat.pointer.grab_button = button ∧
          state_w = WL_POINTER_BUTTON_STATE_RELEASED
      · simp [hb, Event.is_drop]
      · simp only [if_neg hb, List.nil_append]
        constructor
        · rintro ⟨e, he1, he2⟩
          rw [hr2 e he1] at he2
          exact absurd he2 Bool.false_ne_true
        · rintro ⟨_, hb2⟩
          exact absurd hb2 hb
  · intro d hd hb hs
    refine ⟨rest, by simp [drop_events, hd, hb, hs], hr2, fun hc => ?_⟩
    rw [hr3 ⟨hc, hs⟩]
    simp [end_drag_events, hd]

/-- C10, exercised: in `world_drag` the release of the grab button sends one
drop to the focused device `dev_c`, before the leave event. -/
theorem C10_drop_event_witness :
    ∃ w' emitted,
      drag_grab_button world_drag 0 272 WL_POINTER_BUTTON_STATE_RELEASED = some w' ∧
      w'.trace = world_drag.trace ++ emitted ∧
      ∃ rest, emitted = Event.data_device_drop dev_c.resource :: rest ∧
        (∀ e ∈ rest, e.is_drop = false) ∧ Event.data_device_leave dev_c.resource ∈ rest :=
  match C10_drop_event world_drag 0 272 WL_POINTER_BUTTON_STATE_RELEASED with
  | ⟨w', emitted, h1, h2, _, h4⟩ =>
    match h4 dev_c rfl rfl rfl with
    | ⟨rest, h5, h6, h7⟩ => ⟨w', emitted, h1, h2, rest, h5, h6, h7 rfl⟩

/-! ## The drag grab: focus and source destruction (C11, C12) -/

theorem drag_unfocus_eq (w : World) :
    drag_unfocus w =
      { seat := { w.seat with
          drag_focus_device := none,
          drag_focus := (match w.seat.drag_focus_device with
            | some _ => none
            | none => w.seat.drag_focus) },
        sources := w.sources,
        offers := w.offers,
        destroy_listeners := (match w.seat.drag_focus_device with
          | some _ => w.destroy_listeners.filter
              (fun e => decide (e.2 ≠ wl_listener.drag_focus_listener))
          | none => w.destroy_listeners),
        serial := w.serial,
        trace := w.trace ++ leave_events w } := by
  unfold drag_unfocus leave_events
  rcases hd : w.seat.drag_focus_device with _ | d
  · simp [← hd]
  · simp [wl_list_remove, World.emit]

theorem drag_grab_focus_eq (w : World) (s : wl_surface) (x y : Int) (alloc : Option Nat) :
    drag_grab_focus w (some s) x y alloc =
      if w.seat.drag_data_source = none ∧
          some (wl_resource_get_client s.resource) ≠ w.seat.drag_client then
        some (drag_unfocus w)
      else
        match find_data_device w.seat.drag_data_device_list
            (wl_resource_get_client s.resource) with
        | none => some (drag_unfocus w)
        | some device =>
          (match w.seat.drag_data_source with
            | some source =>
              wl_data_source_send_offer (wl_display_next_serial (drag_unfocus w)).1 source
                device.resource alloc
            | none => some ((wl_display_next_serial (drag_unfocus w)).1, none)).map
            (fun (r : World × Option wl_resource) =>
              focus_enter r.1 ((w.serial + 1) % 4294967296) s device x y r.2) := by
  rcases hd : w.seat.drag_focus_device with _ | d
  · simp only [drag_grab_focus, drag_unfocus, hd]
    split_ifs with hc
    · rfl
    · rcases find_data_device w.seat.drag_data_device_list
          (wl_resource_get_client s.resource) with _ | device
      · rfl
      · simp only [wl_display_next_serial]
        rcases w.seat.drag_data_source with _ | p
        · rfl
        · simp only [Option.bind_eq_bind, Option.pure_def]
          rcases wl_data_source_send_offer _ p device.resource alloc with _ | r
          · rfl
          · rfl
  · simp only [drag_grab_focus, drag_unfocus, hd, wl_list_remove, World.emit]
    split_ifs with hc
    · rfl
    · rcases find_data_device w.seat.drag_data_device_list
          (wl_resource_get_client s.resource) with _ | device
      · rfl
      · simp only [wl_display_next_serial]
        rcases w.seat.drag_data_source with _ | p
        · rfl
        · simp only [Option.bind_eq_bind, Option.pure_def]
          rcases wl_data_source_send_offer _ p device.resource alloc with _ | r
          · rfl
          · rfl

/-- C11: for a drag with no data source, drag_grab_focus on a surface owned by
a client other than drag_client only runs its first block (the leave of a
previous focus): it emits no enter event, creates no offer, allocates no
serial and leaves no device focused; on a surface owned by drag_client, whose
client has a data device, it emits, after that first block, exactly one event:
the enter event to that device, carrying no offer, and it creates no offer. -/
theorem C11_focus_without_source (w : World) (s : wl_surface) (x y : Int)
    (alloc : Option Nat) (hsrc : w.seat.drag_data_source = none) :
    (some (wl_resource_get_client s.resource) ≠ w.seat.drag_client →
      ∃ w', drag_grab_focus w (some s) x y alloc = some w' ∧
        w'.trace = w.trace ++ leave_events w ∧
        (∀ e ∈ leave_events w, e.is_leave = true) ∧
        w'.offers = w.offers ∧ w'.serial = w.serial ∧
        w'.seat.drag_focus_device = none) ∧
    (∀ device, some (wl_resource_get_client s.resource) = w.seat.drag_client →
      find_data_device w.seat.drag_data_device_list
        (wl_resource_get_client s.resource) = some device →
      ∃ w', drag_grab_focus w (some s) x y alloc = some w' ∧
        w'.trace = w.trace ++ leave_events w ++
          [Event.data_device_enter device.resource ((w.serial + 1) % 4294967296)
            s.resource x y none] ∧
        w'.offers = w.offers ∧
        w'.seat.drag_focus_device = some device ∧ w'.seat.drag_focus = some s) := by
  constructor
  · intro hc
    refine ⟨drag_unfocus w, ?_, ?_, ?_, ?_, ?_, ?_⟩
    · rw [drag_grab_focus_eq, if_pos ⟨hsrc, hc⟩]
    · rw [drag_unfocus_eq]
    · unfold leave_events
      cases w.seat.drag_focus_device <;> simp [Event.is_leave]
    · rw [drag_unfocus_eq]
    · rw [drag_unfocus_eq]
    · rw [drag_unfocus_eq]
  · intro device hc hf
    refine ⟨focus_enter (wl_display_next_serial (drag_unfocus w)).1
      ((w.serial + 1) % 4294967296) s device x y none, ?_, ?_, ?_, rfl, rfl⟩
    · rw [drag_grab_focus_eq, if_neg (fun h => h.2 hc), hf, hsrc]
      rfl
    · simp [focus_enter, wl_display_next_serial, drag_unfocus_eq]
    · simp [focus_enter, wl_display_next_serial, drag_unfocus_eq]

/-- C11, exercised on the drag without source of client 1: the surface of
client 3 is ignored; a surface of client 1 gets the enter event without
offer. -/
theorem C11_focus_without_source_witness :
    (∃ w', drag_grab_focus world_dragging_bare (some surf_c) 5 6 none = some w' ∧
      w'.trace = [] ∧ w'.seat.drag_focus_device = none) ∧
    (∃ w', drag_grab_focus world_dragging_bare
        (some { resource := { client := 1, object_id := 14 } }) 5 6 none = some w' ∧
      w'.trace = [Event.data_device_enter { client := 1, object_id := 13 } 9
        { client := 1, object_id := 14 } 5 6 none]) :=
  ⟨match (C11_focus_without_source world_dragging_bare surf_c 5 6 none rfl).1
      (by decide) with
    | ⟨w', h1, h2, _, _, _, h6⟩ => ⟨w', h1, h2, h6⟩,
   match (C11_focus_without_source world_dragging_bare
      { resource := { client := 1, object_id := 14 } } 5 6 none rfl).2
      { resource := { client := 1, object_id := 13 } } (by decide) (by decide) with
    | ⟨w', h1, h2, _⟩ => ⟨w', h1, h2⟩⟩

theorem end_drag_grab_seat (w : World) :
    ∃ w', data_device_end_drag_grab w = some w' ∧
      w'.seat = end_drag_seat w.seat ∧
      w'.trace = w.trace ++ end_drag_events w ∧
      w'.offers = w.offers ∧ w'.sources = w.sources ∧ w'.serial = w.serial ∧
      w'.destroy_listeners = end_drag_listeners w := by
  unfold data_device_end_drag_grab
  simp only [drag_grab_focus_null, Option.pure_def, Option.bind_eq_bind, Option.some_bind]
  rcases hs : w.seat.drag_surface with _ | icon <;>
    rcases hd : w.seat.drag_focus_device with _ | d <;>
    simp [hs, hd, end_drag_events, end_drag_seat, wl_pointer_end_grab, World.emit,
      wl_list_remove, end_drag_listeners]

theorem drag_grab_button_end (w : World) (time button state_w : Nat)
    (he : ends_gesture w state_w) :
    ∃ w', drag_grab_button w time button state_w = some w' ∧
      w'.seat = end_drag_seat w.seat ∧
      w'.trace = w.trace ++ drop_events w button state_w ++ end_drag_events w ∧
      w'.offers = w.offers ∧ w'.sources = w.sources ∧ w'.serial = w.serial ∧
      w'.destroy_listeners = (match w.seat.drag_data_source with
        | some _ => (end_drag_listeners w).filter
            (fun e => decide (e.2 ≠ wl_listener.drag_data_source_listener))
        | none => end_drag_listeners w) := by
  have hdrop : (match w.seat.drag_focus_device with
      | some device =>
        if w.seat.pointer.grab_button = button ∧
            state_w = WL_POINTER_BUTTON_STATE_RELEASED then
          w.emit (Event.data_device_drop device.resource)
        else w
      | none => w) = { w with trace := w.trace ++ drop_events w button state_w } := by
    unfold drop_events
    rcases w.seat.drag_focus_device with _ | d
    · simp
    · by_cases hb : w.seat.pointer.grab_button = button ∧
          state_w = WL_POINTER_BUTTON_STATE_RELEASED
      · simp [hb, World.emit]
      · simp only [if_neg hb]; simp
  have he2 : w.seat.pointer.button_count = 0 ∧
      state_w = WL_POINTER_BUTTON_STATE_RELEASED := he
  unfold drag_grab_button
  simp only [hdrop]
  rw [if_pos he2]
  rcases hsrc : w.seat.drag_data_source with _ | src
  · obtain ⟨w', h1, h2, h3, h4, h5, h6, h7⟩ := end_drag_grab_seat
      ({ w with trace := w.trace ++ drop_events w button state_w } : World)
    refine ⟨w', by simpa using h1, h2, ?_, h4, h5, h6, h7⟩
    rw [h3]
    simp [end_drag_events]
  · obtain ⟨w', h1, h2, h3, h4, h5, h6, h7⟩ := end_drag_grab_seat
      (wl_list_remove ({ w with trace := w.trace ++ drop_events w button state_w } : World)
        wl_listener.drag_data_source_listener)
    refine ⟨w', by simpa using h1, h2, ?_, h4, h5, h6, ?_⟩
    · rw [h3]
      simp [end_drag_events, wl_list_remove]
    · rw [h7]
      unfold end_drag_listeners
      rcases hs : w.seat.drag_surface with _ | icon <;>
        rcases hd : w.seat.drag_focus_device with _ | d <;>
        simp [hs, hd, wl_list_remove, List.filter_filter, Bool.and_comm, Bool.and_left_comm]

/-- C12: for every drag state that has a data source, the listener
destroy_data_device_source, which runs when the source is destroyed, produces
the seat and the events (icon signal, leave, end of the grab) of the end
sequence of drag_grab_button on a release with held-button count 0: the
button handler only emits its drop event first.  The handler does not read
the button count: with any count it ends the drag, and the two seats agree up
to that count. -/
theorem C12_source_destruction_ends_drag (w : World) (time button : Nat)
    (src : wl_resource) (hsrc : w.seat.drag_data_source = some src) :
    notify w wl_listener.drag_data_source_listener = destroy_data_device_source w ∧
    ∃ wd wb, destroy_data_device_source w = some wd ∧
      drag_grab_button
        { w with seat := { w.seat with pointer := { w.seat.pointer with button_count := 0 } } }
        time button WL_POINTER_BUTTON_STATE_RELEASED = some wb ∧
      wd.trace = w.trace ++ end_drag_events w ∧
      wb.trace = w.trace ++ drop_events w button WL_POINTER_BUTTON_STATE_RELEASED ++
        end_drag_events w ∧
      wd.seat = { wb.seat with
        pointer := { wb.seat.pointer with button_count := w.seat.pointer.button_count } } ∧
      (w.seat.pointer.button_count = 0 → wd.seat = wb.seat) ∧
      wd.seat.drag_data_source = none ∧ wd.seat.drag_client = none ∧
      wd.seat.drag_focus_device = none ∧ wd.seat.drag_surface = none ∧
      wd.seat.pointer.grab = grab_slot.default_grab ∧
      wd.offers = wb.offers ∧ wd.sources = wb.sources ∧ wd.serial = wb.serial ∧
      wb.destroy_listeners = wd.destroy_listeners.filter
        (fun e => decide (e.2 ≠ wl_listener.drag_data_source_listener)) := by
  refine ⟨rfl, ?_⟩
  obtain ⟨wd, hd1, hd2, hd3, hd4, hd5, hd6, hd7⟩ := end_drag_grab_seat w
  obtain ⟨wb, hb1, hb2, hb3, hb4, hb5, hb6, hb7⟩ := drag_grab_button_end
    { w with seat := { w.seat with pointer := { w.seat.pointer with button_count := 0 } } }
    time button WL_POINTER_BUTTON_STATE_RELEASED ⟨rfl, rfl⟩
  refine ⟨wd, wb, hd1, hb1, hd3, ?_, ?_, ?_, ?_, ?_, ?_, ?_, ?_, ?_, ?_, ?_, ?_⟩
  · rw [hb3]
    rfl
  · rw [hd2, hb2]
    simp [end_drag_seat]
  · intro h0
    rw [hd2, hb2]
    simp [end_drag_seat, ← h0]
  · rw [hd2]; rfl
  · rw [hd2]; rfl
  · rw [hd2]; rfl
  · rw [hd2]; rfl
  · rw [hd2]; rfl
  · rw [hd4, hb4]
  · rw [hd5, hb5]
  · rw [hd6, hb6]
  · rw [hb7, hd7]
    simp only [hsrc]
    rfl

/-- C12, exercised on `world_drag`, a drag of `src_a` with an icon and the
device `dev_c` focused: the handler emits the icon signal, the leave and the
end of the grab, and clears the drag state. -/
theorem C12_source_destruction_ends_drag_witness :
    ∃ wd wb, destroy_data_device_source world_drag = some wd ∧
      drag_grab_button world_drag 0 272 WL_POINTER_BUTTON_STATE_RELEASED = some wb ∧
      wd.seat = wb.seat ∧
      wd.trace = [Event.drag_icon_signal none, Event.data_device_leave dev_c.resource,
        Event.pointer_end_grab] ∧
      wb.trace = Event.data_device_drop dev_c.resource :: wd.trace :=
  match C12_source_destruction_ends_drag world_drag 0 272 src_a.resource rfl with
  | ⟨_, wd, wb, h1, h2, h3, h4, _, h6, _⟩ =>
    ⟨wd, wb, h1, h2, h6 rfl, h3.trans (by decide), by rw [h4, h3]; rfl⟩

/-! ## Reachable states: the drag focus and the order of the drag events (C13, C14, C15) -/

theorem entered_append (t es : List Event) (r : wl_resource) :
    entered (t ++ es) r = es.foldl (fun b e => track b r e) (entered t r) := by
  unfold entered
  rw [List.foldl_append]

theorem track_not_drag (b : Bool) (r : wl_resource) (e : Event) (h : e.is_drag = false) :
    track b r e = b := by
  cases e <;> simp_all [track, Event.is_drag]

theorem foldl_track_quiet (es : List Event) (r : wl_resource) (b : Bool)
    (h : ∀ e ∈ es, e.is_drag = false) :
    es.foldl (fun b e => track b r e) b = b := by
  induction es generalizing b with
  | nil => rfl
  | cons e es ih =>
    simp only [List.foldl_cons]
    rw [track_not_drag b r e (h e (List.mem_cons_self _ _))]
    exact ih b (fun e he => h e (List.mem_cons_of_mem _ he))

theorem entered_quiet (t es : List Event) (r : wl_resource)
    (h : ∀ e ∈ es, e.is_drag = false) : entered (t ++ es) r = entered t r := by
  rw [entered_append, foldl_track_quiet es r _ h]

theorem entered_snoc (t : List Event) (e : Event) (r : wl_resource) :
    entered (t ++ [e]) r = track (entered t r) r e := by
  rw [entered_append]
  rfl

theorem focus_target_not_drag (e : Event) (h : e.is_drag = false) :
    e.focus_target = none := by
  cases e <;> simp_all [Event.focus_target, Event.is_drag]

theorem replay_ok_nil : replay_ok [] := by
  intro p e q r h
  simp at h

theorem replay_ok_snoc (t : List Event) (e : Event) (ht : replay_ok t)
    (he : ∀ r, e.focus_target = some r → entered t r = true) : replay_ok (t ++ [e]) := by
  intro p e2 q r h hr
  rcases List.eq_nil_or_concat q with hq | ⟨q2, x, hq⟩
  · subst hq
    have h2 := List.append_inj' h (by simp)
    obtain ⟨h3, h4⟩ := h2
    subst h3
    simp at h4
    subst h4
    exact he r hr
  · subst hq
    have h5 : t ++ [e] = (p ++ e2 :: q2) ++ [x] := by
      rw [h]; simp
    have h6 := List.append_inj' h5 (by simp)
    exact ht p e2 q2 r h6.1 hr

theorem replay_ok_quiet (t es : List Event) (ht : replay_ok t)
    (h : ∀ e ∈ es, e.is_drag = false) : replay_ok (t ++ es) := by
  induction es using List.reverseRecOn with
  | nil => simpa using ht
  | append_singleton es e ih =>
    rw [← List.append_assoc]
    apply replay_ok_snoc
    · exact ih (fun x hx => h x (List.mem_append_left _ hx))
    · intro r hr
      rw [focus_target_not_drag e (h e (by simp))] at hr
      cases hr

theorem entered_enter_open (p : List Event) (r : wl_resource) (h : entered p r = true) :
    enter_open p r := by
  induction p using List.reverseRecOn with
  | nil => simp [entered] at h
  | append_singleton p e ih =>
    rw [entered_snoc] at h
    by_cases hent : ∃ serial surface x y offer,
        e = Event.data_device_enter r serial surface x y offer
    · obtain ⟨serial, surface, x, y, offer, rfl⟩ := hent
      exact ⟨p, [], serial, surface, x, y, offer, rfl, by simp⟩
    · have hleave : e ≠ Event.data_device_leave r := by
        intro hl
        subst hl
        simp [track] at h
      have hprev : entered p r = true := by
        cases e with
        | data_device_enter device serial surface x y offer =>
          by_cases hd : device = r
          · exact absurd ⟨serial, surface, x, y, offer, by rw [hd]⟩ hent
          · simpa [track, hd] using h
        | data_device_leave device =>
          by_cases hd : device = r
          · exact absurd (by rw [hd]) hleave
          · simpa [track, hd] using h
        | _ => simpa [track] using h
      obtain ⟨p1, p2, serial, surface, x, y, offer, hp, hn⟩ := ih hprev
      refine ⟨p1, p2 ++ [e], serial, surface, x, y, offer, by rw [hp]; simp, ?_⟩
      simp only [List.mem_append, List.mem_singleton, not_or]
      exact ⟨hn, fun h2 => hleave h2.symm⟩

theorem replay_ok_causal (t : List Event) (h : replay_ok t) : causal t :=
  fun p e q r hp hr => entered_enter_open p r (h p e q r hp hr)

theorem quiet_refl (w : World) : Quiet w w :=
  ⟨rfl, rfl, rfl, fun _ h => h, [], by simp, by simp⟩

theorem quiet_trans {w1 w2 w3 : World} (h12 : Quiet w1 w2) (h23 : Quiet w2 w3) :
    Quiet w1 w3 := by
  obtain ⟨a1, a2, a3, a4, es, a5, a6⟩ := h12
  obtain ⟨b1, b2, b3, b4, fs, b5, b6⟩ := h23
  refine ⟨b1.trans a1, b2.trans a2, b3.trans a3, fun r h => b4 r (a4 r h), es ++ fs, ?_, ?_⟩
  · rw [b5, a5, List.append_assoc]
  · intro e he
    rcases List.mem_append.1 he with h | h
    · exact a6 e h
    · exact b6 e h

theorem quiet_emit (w : World) (e : Event) (h : e.is_drag = false) : Quiet w (w.emit e) :=
  ⟨rfl, rfl, rfl, fun _ h => h, [e], rfl, by simpa using h⟩

theorem quiet_add_listener (w : World) (r : wl_resource) (l : wl_listener) :
    Quiet w (wl_resource_add_destroy_listener w r l) :=
  ⟨rfl, rfl, rfl, fun _ h => List.mem_append_left _ h, [], by simp [wl_resource_add_destroy_listener],
    by simp⟩

theorem quiet_list_remove (w : World) (l : wl_listener)
    (hl : l ≠ wl_listener.drag_focus_listener) : Quiet w (wl_list_remove w l) := by
  refine ⟨rfl, rfl, rfl, fun r h => ?_, [], by simp [wl_list_remove], by simp⟩
  simp only [wl_list_remove, List.mem_filter]
  exact ⟨h, by simpa using fun h2 => hl h2.symm⟩

theorem quiet_of_eq (w w' : World) (es : List Event)
    (h1 : w'.seat.drag_focus_device = w.seat.drag_focus_device)
    (h2 : w'.seat.drag_focus = w.seat.drag_focus)
    (h3 : w'.seat.drag_data_device_list = w.seat.drag_data_device_list)
    (h4 : ∀ r, (r, wl_listener.drag_focus_listener) ∈ w.destroy_listeners →
      (r, wl_listener.drag_focus_listener) ∈ w'.destroy_listeners)
    (h5 : w'.trace = w.trace ++ es) (h6 : ∀ e ∈ es, e.is_drag = false) : Quiet w w' :=
  ⟨h1, h2, h3, h4, es, h5, h6⟩

theorem inv_idle (w : World) (h : idle w) : Inv w := by
  obtain ⟨h1, _, _, _, _, h6, h7⟩ := h
  refine ⟨h6, fun d hd => ?_, ?_⟩
  · rw [h1] at hd
    cases hd
  · rw [h7]
    exact replay_ok_nil

theorem inv_quiet (w w' : World) (hi : Inv w) (hq : Quiet w w') : Inv w' := by
  obtain ⟨a1, a2, a3, a4, es, a5, a6⟩ := hq
  refine ⟨by rw [a3]; exact hi.nodup, fun d hd => ?_, ?_⟩
  · rw [a1] at hd
    obtain ⟨b1, b2, b3, b4⟩ := hi.focus d hd
    refine ⟨by rw [a3]; exact b1, a4 _ b2, by rw [a2]; exact b3, ?_⟩
    rw [a5, entered_quiet _ _ _ a6]
    exact b4
  · rw [a5]
    exact replay_ok_quiet _ _ hi.trace a6

theorem inv_unfocused (w' : World) (h1 : w'.seat.drag_focus_device = none)
    (h2 : w'.seat.drag_data_device_list.Nodup) (h3 : replay_ok w'.trace) : Inv w' :=
  ⟨h2, fun d hd => (by rw [h1] at hd; cases hd), h3⟩

theorem send_offer_quiet (w w3 : World) (p target : wl_resource) (alloc : Option Nat)
    (offer : Option wl_resource)
    (h : wl_data_source_send_offer w p target alloc = some (w3, offer)) :
    Quiet w w3 ∧ w3.seat = w.seat ∧ w3.sources = w.sources := by
  cases alloc with
  | none =>
    simp only [wl_data_source_send_offer, Option.some.injEq, Prod.mk.injEq] at h
    rw [← h.1]
    exact ⟨quiet_refl w, rfl, rfl⟩
  | some id =>
    rcases hsrc : w.source p with _ | src
    · simp [wl_data_source_send_offer, hsrc] at h
    · rw [wl_data_source_send_offer_some w p target id src hsrc] at h
      simp only [Option.some.injEq, Prod.mk.injEq] at h
      rw [← h.1]
      refine ⟨quiet_of_eq _ _ (presentation target id src.mime_types) rfl rfl rfl
        (fun r hr => List.mem_append_left _ hr) rfl ?_, rfl, rfl⟩
      intro e he
      simp only [presentation, List.mem_cons, List.mem_map] at he
      rcases he with he | ⟨t, _, he⟩
      · rw [he]; rfl
      · rw [← he]; rfl

theorem create_data_source_quiet (w : World) (client : Nat) (mgr : wl_resource) (id : Nat)
    (ok : Bool) : Quiet w (create_data_source w client mgr id ok) := by
  cases ok
  · exact quiet_emit w _ rfl
  · exact ⟨rfl, rfl, rfl, fun _ h => h, [], by simp [create_data_source], by simp⟩

theorem data_source_offer_quiet (w w' : World) (r : wl_resource) (t : String)
    (a s : Bool) (h : data_source_offer w r t a s = some w') : Quiet w w' := by
  unfold data_source_offer at h
  rcases hsrc : w.source r with _ | src
  · simp [hsrc] at h
  · cases a <;> cases s <;>
      simp only [hsrc, Option.bind_eq_bind, Option.some_bind, Option.pure_def, if_true,
        Bool.false_eq_true, if_false, Option.some.injEq] at h <;>
      subst h
    · exact quiet_emit w _ rfl
    · exact quiet_emit w _ rfl
    · exact quiet_of_eq _ _ [Event.post_no_memory r] rfl rfl rfl (fun _ h => h) rfl
        (by simp [Event.is_drag])
    · exact quiet_of_eq _ _ [] rfl rfl rfl (fun _ h => h) (by simp [World.update_source])
        (by simp)

theorem offer_accept_quiet (w w' : World) (r : wl_resource) (serial : Nat) (m : String)
    (h : data_offer_accept w r serial m = some w') : Quiet w w' := by
  unfold data_offer_accept at h
  rcases ho : w.offer r with _ | o
  · simp [ho] at h
  · rcases hs : o.source with _ | p
    · simp [ho, hs] at h
      subst h
      exact quiet_refl w
    · rcases hsrc : w.source p with _ | src
      · simp [ho, hs, hsrc] at h
      · simp [ho, hs, hsrc] at h
        subst h
        unfold source_accept client_source_accept
        split <;> exact quiet_emit w _ rfl

theorem offer_receive_quiet (w w' : World) (r : wl_resource) (m : String) (fd : Int)
    (h : data_offer_receive w r m fd = some w') : Quiet w w' := by
  unfold data_offer_receive at h
  rcases ho : w.offer r with _ | o
  · simp [ho] at h
  · rcases hs : o.source with _ | p
    · simp [ho, hs] at h
      subst h
      exact quiet_emit w _ rfl
    · rcases hsrc : w.source p with _ | src
      · simp [ho, hs, hsrc] at h
      · simp [ho, hs, hsrc] at h
        subst h
        unfold source_send client_source_send
        split
        · exact quiet_trans (quiet_emit w (Event.data_source_send src.resource m fd) rfl)
            (quiet_emit _ (Event.close fd) rfl)
        · exact quiet_emit w _ rfl

theorem destroy_offer_quiet (w w' : World) (r : wl_resource)
    (h : destroy_data_offer w r = some w') : Quiet w w' := by
  unfold destroy_data_offer at h
  rcases ho : w.offer r with _ | o
  · simp [ho] at h
  · simp only [ho, Option.bind_eq_bind, Option.some_bind, Option.pure_def,
      Option.some.injEq] at h
    subst h
    by_cases hs : o.source.isSome = true
    · rw [if_pos hs]
      obtain ⟨a1, a2, a3, a4, es, a5, a6⟩ := quiet_list_remove w
        (wl_listener.source_destroy_listener r) (by simp)
      exact ⟨a1, a2, a3, a4, es, a5, a6⟩
    · rw [if_neg hs]
      exact ⟨rfl, rfl, rfl, fun _ h => h, [], by simp, by simp⟩

theorem previous_cancel_quiet (w : World) : ∀ e ∈ previous_cancel w, e.is_drag = false := by
  unfold previous_cancel
  split
  · split
    · intro e he
      simp only [List.mem_singleton] at he
      subst he
      unfold cancel_call
      split <;> rfl
    · simp
  · simp

theorem selection_events_quiet (w : World) (source : Option wl_resource)
    (alloc : Option Nat) : ∀ e ∈ selection_events w source alloc, e.is_drag = false := by
  unfold selection_events
  split
  · simp
  · split
    · simp [Event.is_drag]
    · split
      · intro e he
        simp only [presentation, List.mem_append, List.mem_cons, List.mem_map,
          List.mem_singleton] at he
        rcases he with (he | ⟨t, _, he⟩) | he
        · rw [he]; rfl
        · rw [← he]; rfl
        · rcases he with he | he
          · rw [he]; rfl
          · simp at he
      · simp [Event.is_drag]

theorem set_selection_quiet (w w' : World) (source : Option wl_resource) (serial : Nat)
    (alloc : Option Nat) (hold : w.live w.seat.selection_data_source = true)
    (hnew : w.live source = true)
    (h : wl_seat_set_selection w source serial alloc = some w') : Quiet w w' := by
  by_cases hc : w.seat.selection_data_source.isSome ∧
      uint32_sub w.seat.selection_serial serial < UINT32_MAX / 2
  · rw [set_selection_reject w source serial alloc hc] at h
    cases h
    exact quiet_refl w
  · rw [set_selection_accept w source serial alloc hc hold hnew] at h
    simp only [Option.some.injEq] at h
    subst h
    refine quiet_of_eq _ _ (previous_cancel w ++ selection_events w source alloc ++
      [Event.selection_signal]) rfl rfl rfl ?_ (by simp) ?_
    · intro r hr
      simp only [selection_listeners, List.mem_append]
      refine Or.inl (Or.inl ?_)
      rcases w.seat.selection_data_source with _ | p
      · exact hr
      · simp only [List.mem_filter]
        exact ⟨hr, by simp⟩
    · intro e he
      simp only [List.mem_append, List.mem_singleton] at he
      rcases he with (he | he) | he
      · exact previous_cancel_quiet w e he
      · exact selection_events_quiet w source alloc e he
      · rw [he]; rfl

theorem keyboard_focus_quiet (w w' : World) (alloc : Option Nat)
    (h : wl_data_device_set_keyboard_focus w alloc = some w') : Quiet w w' := by
  unfold wl_data_device_set_keyboard_focus at h
  rcases hk : w.seat.keyboard with _ | k
  · simp only [hk, Option.some.injEq] at h
    subst h
    exact quiet_refl w
  rcases hf : k.focus_resource with _ | f
  · simp only [hk, hf, Option.some.injEq] at h
    subst h
    exact quiet_refl w
  rcases hd : find_data_device w.seat.drag_data_device_list (wl_resource_get_client f)
    with _ | d
  · simp only [hk, hf, hd, Option.some.injEq] at h
    subst h
    exact quiet_refl w
  rcases hs : w.seat.selection_data_source with _ | s
  · simp only [hk, hf, hd, hs, Option.some.injEq] at h
    subst h
    exact quiet_refl w
  simp only [hk, hf, hd, hs, Option.bind_eq_bind, Option.pure_def] at h
  rcases hso : wl_data_source_send_offer w s d.resource alloc with _ | r
  · simp [hso] at h
  · obtain ⟨w3, offer⟩ := r
    simp only [hso, Option.some_bind, Option.some.injEq] at h
    subst h
    exact quiet_trans (send_offer_quiet w w3 s d.resource alloc offer hso).1
      (quiet_emit w3 (Event.data_device_selection d.resource offer) rfl)

theorem start_drag_quiet (w w' : World) (client : Nat) (source : Option wl_resource)
    (icon : Option wl_surface)
    (h : data_device_start_drag w client source icon = some w') : Quiet w w' := by
  unfold data_device_start_drag at h
  rcases source with _ | r
  · rcases icon with _ | i
    · simp only [Option.bind_eq_bind, Option.pure_def, Option.some_bind,
        Option.some.injEq] at h
      subst h
      exact quiet_of_eq _ _ [Event.pointer_set_focus none (wl_fixed_from_int 0)
        (wl_fixed_from_int 0), Event.pointer_start_grab] rfl rfl rfl (fun _ h => h)
        (by simp [wl_pointer_start_grab, wl_pointer_set_focus, World.emit])
        (by simp [Event.is_drag])
    · simp only [Option.bind_eq_bind, Option.pure_def, Option.some_bind,
        Option.some.injEq] at h
      subst h
      exact quiet_of_eq _ _ [Event.drag_icon_signal (some i.resource),
        Event.pointer_set_focus none (wl_fixed_from_int 0) (wl_fixed_from_int 0),
        Event.pointer_start_grab] rfl rfl rfl
        (fun _ h => by
          simp only [wl_pointer_start_grab, wl_pointer_set_focus, World.emit,
            wl_resource_add_destroy_listener, List.mem_append]
          exact Or.inl h)
        (by simp [wl_pointer_start_grab, wl_pointer_set_focus, World.emit,
          wl_resource_add_destroy_listener])
        (by simp [Event.is_drag])
  · rcases hsrc : World.source
        { w with seat := { w.seat with
            drag_grab := { w.seat.drag_grab with drag_interface := true },
            drag_client := some client,
            drag_data_source := none } } r with _ | src
    · simp [hsrc] at h
    · rcases icon with _ | i
      · simp only [hsrc, Option.bind_eq_bind, Option.pure_def, Option.some_bind,
          Option.some.injEq] at h
        subst h
        exact quiet_of_eq _ _ [Event.pointer_set_focus none (wl_fixed_from_int 0)
          (wl_fixed_from_int 0), Event.pointer_start_grab] rfl rfl rfl
          (fun _ h => by
            simp only [wl_pointer_start_grab, wl_pointer_set_focus, World.emit,
              wl_resource_add_destroy_listener, List.mem_append]
            exact Or.inl h)
          (by simp [wl_pointer_start_grab, wl_pointer_set_focus, World.emit,
            wl_resource_add_destroy_listener])
          (by simp [Event.is_drag])
      · simp only [hsrc, Option.bind_eq_bind, Option.pure_def, Option.some_bind,
          Option.some.injEq] at h
        subst h
        exact quiet_of_eq _ _ [Event.drag_icon_signal (some i.resource),
          Event.pointer_set_focus none (wl_fixed_from_int 0) (wl_fixed_from_int 0),
          Event.pointer_start_grab] rfl rfl rfl
          (fun _ h => by
            simp only [wl_pointer_start_grab, wl_pointer_set_focus, World.emit,
              wl_resource_add_destroy_listener, List.mem_append]
            exact Or.inl (Or.inl h))
          (by simp [wl_pointer_start_grab, wl_pointer_set_focus, World.emit,
            wl_resource_add_destroy_listener])
          (by simp [Event.is_drag])

theorem inv_get_data_device (w : World) (client : Nat) (mgr : wl_resource) (id : Nat)
    (ok : Bool) (hi : Inv w)
    (fresh : ({ resource := { client := client, object_id := id } } : wl_data_device) ∉
      w.seat.drag_data_device_list) :
    Inv (get_data_device w client mgr id ok) := by
  cases ok
  · exact inv_quiet _ _ hi (quiet_emit w _ rfl)
  · refine ⟨List.nodup_cons.2 ⟨fresh, hi.nodup⟩, fun d hd => ?_, hi.trace⟩
    obtain ⟨b1, b2, b3, b4⟩ := hi.focus d hd
    exact ⟨List.mem_cons_of_mem _ b1, b2, b3, b4⟩

theorem replay_drop_end (w : World) (button state_w : Nat) (hi : Inv w) :
    replay_ok (w.trace ++ drop_events w button state_w) ∧
    replay_ok (w.trace ++ drop_events w button state_w ++ end_drag_events w) ∧
    replay_ok (w.trace ++ end_drag_events w) ∧
    replay_ok (w.trace ++ leave_events w) ∧
    ∀ d, w.seat.drag_focus_device = some d →
      entered (w.trace ++ drop_events w button state_w) d.resource = true := by
  have ht := hi.trace
  have hicon : ∀ t : List Event, replay_ok t →
      replay_ok (t ++ (match w.seat.drag_surface with
        | some _ => [Event.drag_icon_signal none]
        | none => [])) := by
    intro t h
    apply replay_ok_quiet _ _ h
    intro e he
    split at he
    · simp only [List.mem_singleton] at he
      rw [he]; rfl
    · simp at he
  have hicon_e : ∀ (t : List Event) (r : wl_resource),
      entered (t ++ (match w.seat.drag_surface with
        | some _ => [Event.drag_icon_signal none]
        | none => [])) r = entered t r := by
    intro t r
    apply entered_quiet
    intro e he
    split at he
    · simp only [List.mem_singleton] at he
      rw [he]; rfl
    · simp at he
  rcases hd : w.seat.drag_focus_device with _ | d
  · have h1 : drop_events w button state_w = [] := by simp [drop_events, hd]
    have h2 : end_drag_events w = (match w.seat.drag_surface with
        | some _ => [Event.drag_icon_signal none]
        | none => []) ++ [Event.pointer_end_grab] := by simp [end_drag_events, hd]
    have h3 : leave_events w = [] := by simp [leave_events, hd]
    rw [h1, h2, h3]
    simp only [List.append_nil]
    have h4 : replay_ok (w.trace ++ ((match w.seat.drag_surface with
        | some _ => [Event.drag_icon_signal none]
        | none => []) ++ [Event.pointer_end_grab])) := by
      rw [← List.append_assoc]
      exact replay_ok_snoc _ _ (hicon _ ht) (fun r hr => by cases hr)
    exact ⟨ht, h4, h4, ht, fun d hd2 => by cases hd2⟩
  · obtain ⟨_, _, _, hent⟩ := hi.focus d hd
    have h3 : leave_events w = [Event.data_device_leave d.resource] := by
      simp [leave_events, hd]
    have h2 : end_drag_events w = (match w.seat.drag_surface with
        | some _ => [Event.drag_icon_signal none]
        | none => []) ++ [Event.data_device_leave d.resource] ++
        [Event.pointer_end_grab] := by simp [end_drag_events, hd]
    have hend : ∀ t : List Event, replay_ok t → entered t d.resource = true →
        replay_ok (t ++ end_drag_events w) := by
      intro t h1 h4
      rw [h2, ← List.append_assoc, ← List.append_assoc]
      refine replay_ok_snoc _ _ (replay_ok_snoc _ _ (hicon t h1) ?_) (fun r hr => by cases hr)
      intro r hr
      simp only [Event.focus_target, Option.some.injEq] at hr
      subst hr
      rw [hicon_e]
      exact h4
    have hdrop : replay_ok (w.trace ++ drop_events w button state_w) ∧
        entered (w.trace ++ drop_events w button state_w) d.resource = true := by
      unfold drop_events
      simp only [hd]
      split
      · refine ⟨replay_ok_snoc _ _ ht ?_, ?_⟩
        · intro r hr
          simp only [Event.focus_target, Option.some.injEq] at hr
          subst hr
          exact hent
        · rw [entered_snoc]
          simpa [track] using hent
      · simpa using ⟨ht, hent⟩
    refine ⟨hdrop.1, hend _ hdrop.1 hdrop.2, hend _ ht hent, ?_, ?_⟩
    · rw [h3]
      refine replay_ok_snoc _ _ ht ?_
      intro r hr
      simp only [Event.focus_target, Option.some.injEq] at hr
      subst hr
      exact hent
    · intro d2 hd2
      cases hd2
      exact hdrop.2

theorem inv_motion (w : World) (time : Nat) (x y : Int) (hi : Inv w) :
    Inv (drag_grab_motion w time x y) := by
  unfold drag_grab_motion
  rcases hd : w.seat.drag_focus_device with _ | d
  · exact hi
  · obtain ⟨b1, b2, b3, b4⟩ := hi.focus d hd
    have hent : ∀ r, entered (w.trace ++ [Event.data_device_motion d.resource time x y]) r =
        entered w.trace r := by
      intro r
      rw [entered_snoc]
      rfl
    refine ⟨hi.nodup, fun d2 hd2 => ?_, ?_⟩
    · obtain ⟨c1, c2, c3, c4⟩ := hi.focus d2 hd2
      refine ⟨c1, c2, c3, ?_⟩
      simp only [World.emit]
      rw [hent]
      exact c4
    · refine replay_ok_snoc _ _ hi.trace ?_
      intro r hr
      simp only [Event.focus_target, Option.some.injEq] at hr
      subst hr
      exact b4

theorem end_drag_seat_fields (seat : wl_seat) :
    (end_drag_seat seat).drag_focus_device = none ∧
    (end_drag_seat seat).drag_data_device_list = seat.drag_data_device_list :=
  ⟨rfl, rfl⟩

theorem inv_button (w w' : World) (time button state_w : Nat) (hi : Inv w)
    (h : drag_grab_button w time button state_w = some w') : Inv w' := by
  obtain ⟨r1, r2, _, _, r5⟩ := replay_drop_end w button state_w hi
  by_cases he : ends_gesture w state_w
  · obtain ⟨w2, h1, h2, h3, _⟩ := drag_grab_button_end w time button state_w he
    rw [h1] at h
    cases h
    refine inv_unfocused _ (by rw [h2]; rfl) (by rw [h2]; exact hi.nodup) ?_
    rw [h3]
    exact r2
  · obtain ⟨w2, h1, _, h3⟩ := drag_grab_button_spec w time button state_w
    rw [h1] at h
    cases h
    rw [h3 he]
    refine ⟨hi.nodup, fun d hd => ?_, r1⟩
    obtain ⟨c1, c2, c3, _⟩ := hi.focus d hd
    exact ⟨c1, c2, c3, r5 d hd⟩

theorem find_data_device_some (list : List wl_data_device) (client : Nat)
    (device : wl_data_device) (h : find_data_device list client = some device) :
    device ∈ list ∧ wl_resource_get_client device.resource = client := by
  unfold find_data_device at h
  refine ⟨List.mem_of_find?_eq_some h, ?_⟩
  simpa using List.find?_some h

theorem inv_drag_unfocus (w : World) (hi : Inv w) :
    Inv (drag_unfocus w) ∧ (drag_unfocus w).seat.drag_focus_device = none ∧
    (drag_unfocus w).seat.drag_data_device_list = w.seat.drag_data_device_list := by
  obtain ⟨_, _, _, r4, _⟩ := replay_drop_end w 0 0 hi
  rw [drag_unfocus_eq]
  exact ⟨inv_unfocused _ rfl hi.nodup r4, rfl, rfl⟩

theorem inv_focus_enter (w : World) (serial : Nat) (s : wl_surface) (device : wl_data_device)
    (x y : Int) (offer : Option wl_resource) (hi : Inv w)
    (hmem : device ∈ w.seat.drag_data_device_list)
    (hc : wl_resource_get_client device.resource = wl_resource_get_client s.resource) :
    Inv (focus_enter w serial s device x y offer) := by
  refine ⟨hi.nodup, fun d hd => ?_, ?_⟩
  · simp only [focus_enter, Option.some.injEq] at hd
    subst hd
    refine ⟨hmem, ?_, ⟨s, rfl, hc⟩, ?_⟩
    · simp [focus_enter]
    · simp only [focus_enter]
      rw [entered_snoc]
      simp [track]
  · exact replay_ok_snoc _ _ hi.trace (fun r hr => by cases hr)

theorem inv_focus (w w' : World) (surface : Option wl_surface) (x y : Int)
    (alloc : Option Nat) (hi : Inv w)
    (h : drag_grab_focus w surface x y alloc = some w') : Inv w' := by
  obtain ⟨u1, u2, u3⟩ := inv_drag_unfocus w hi
  cases surface with
  | none =>
    rw [drag_grab_focus_null] at h
    cases h
    exact u1
  | some s =>
    rw [drag_grab_focus_eq] at h
    split_ifs at h with hc
    · cases h
      exact u1
    · rcases hf : find_data_device w.seat.drag_data_device_list
          (wl_resource_get_client s.resource) with _ | device
      · rw [hf] at h
        cases h
        exact u1
      · rw [hf] at h
        obtain ⟨m1, m2⟩ := find_data_device_some _ _ _ hf
        have hq0 : Quiet (drag_unfocus w) (wl_display_next_serial (drag_unfocus w)).1 :=
          quiet_of_eq _ _ [] rfl rfl rfl (fun _ hr => hr) (by simp [wl_display_next_serial])
            (by simp)
        have h0 : (wl_display_next_serial (drag_unfocus w)).1.seat = (drag_unfocus w).seat := rfl
        simp only [Option.map_eq_some', Prod.exists] at h
        obtain ⟨w3, offer, h1, h2⟩ := h
        have h3 : Quiet (wl_display_next_serial (drag_unfocus w)).1 w3 ∧
            w3.seat = (wl_display_next_serial (drag_unfocus w)).1.seat := by
          rcases hs : w.seat.drag_data_source with _ | p
          · rw [hs] at h1
            simp only [Option.some.injEq, Prod.mk.injEq] at h1
            rw [← h1.1]
            exact ⟨quiet_refl _, rfl⟩
          · rw [hs] at h1
            obtain ⟨q1, q2, _⟩ := send_offer_quiet _ _ _ _ _ _ h1
            exact ⟨q1, q2⟩
        have hi3 : Inv w3 := inv_quiet _ _ (inv_quiet _ _ u1 hq0) h3.1
        rw [← h2]
        refine inv_focus_enter w3 _ s device x y offer hi3 ?_ m2
        rw [h3.2, h0, u3]
        exact m1

theorem quiet_targets (w w' : World) (h : Quiet w w') : Targets w w' := by
  obtain ⟨_, _, _, _, es, a5, a6⟩ := h
  refine ⟨es, a5, fun e he r hr => ?_⟩
  rw [focus_target_not_drag e (a6 e he)] at hr
  cases hr

theorem quiet_fading (w w' : World) (h : Quiet w w') : Fading w w' :=
  ⟨h.2.2.1, Or.inl h.1, Or.inl h.2.1, quiet_targets w w' h⟩

theorem targets_refl (w : World) : Targets w w :=
  ⟨[], by simp, by simp⟩

theorem fading_trans (a b c : World) (h1 : Fading a b) (h2 : Fading b c) : Fading a c := by
  obtain ⟨a1, a2, a3, es, a4, a5⟩ := h1
  obtain ⟨b1, b2, b3, fs, b4, b5⟩ := h2
  refine ⟨by rw [b1, a1], ?_, ?_, es ++ fs, by rw [b4, a4, List.append_assoc], ?_⟩
  · rcases b2 with b2 | b2
    · rw [b2]; exact a2
    · exact Or.inr b2
  · rcases b3 with b3 | b3
    · rw [b3]; exact a3
    · exact Or.inr b3
  · intro e he r hr
    rcases List.mem_append.1 he with he | he
    · exact a5 e he r hr
    · obtain ⟨d, hd, hdr⟩ := b5 e he r hr
      rcases a2 with a2 | a2
      · exact ⟨d, by rw [← a2]; exact hd, hdr⟩
      · rw [a2] at hd
        cases hd

theorem end_drag_targets (w : World) (button state_w : Nat) :
    (∀ e ∈ drop_events w button state_w, ∀ r, e.focus_target = some r →
      ∃ d, w.seat.drag_focus_device = some d ∧ d.resource = r) ∧
    (∀ e ∈ end_drag_events w, ∀ r, e.focus_target = some r →
      ∃ d, w.seat.drag_focus_device = some d ∧ d.resource = r) ∧
    (∀ e ∈ leave_events w, ∀ r, e.focus_target = some r →
      ∃ d, w.seat.drag_focus_device = some d ∧ d.resource = r) := by
  rcases hd : w.seat.drag_focus_device with _ | d
  · refine ⟨?_, ?_, ?_⟩
    · simp [drop_events, hd]
    · intro e he r hr
      rcases hs : w.seat.drag_surface with _ | icon <;>
        simp [end_drag_events, hd, hs] at he
      · subst he; cases hr
      · rcases he with he | he <;> subst he <;> cases hr
    · simp [leave_events, hd]
  · refine ⟨?_, ?_, ?_⟩
    · intro e he r hr
      unfold drop_events at he
      simp only [hd] at he
      split at he
      · simp only [List.mem_singleton] at he
        subst he
        simp only [Event.focus_target, Option.some.injEq] at hr
        exact ⟨d, rfl, hr⟩
      · simp at he
    · intro e he r hr
      rcases hs : w.seat.drag_surface with _ | icon <;>
        simp [end_drag_events, hd, hs] at he
      · rcases he with he | he <;> subst he
        · simp only [Event.focus_target, Option.some.injEq] at hr
          exact ⟨d, rfl, hr⟩
        · cases hr
      · rcases he with he | he | he <;> subst he
        · cases hr
        · simp only [Event.focus_target, Option.some.injEq] at hr
          exact ⟨d, rfl, hr⟩
        · cases hr
    · intro e he r hr
      simp only [leave_events, hd, List.mem_singleton] at he
      subst he
      simp only [Event.focus_target, Option.some.injEq] at hr
      exact ⟨d, rfl, hr⟩

theorem end_drag_seat_focus (seat : wl_seat) :
    (end_drag_seat seat).drag_focus = seat.drag_focus ∨
    (end_drag_seat seat).drag_focus = none := by
  unfold end_drag_seat
  rcases seat.drag_focus_device with _ | d
  · exact Or.inl rfl
  · exact Or.inr rfl

theorem notify_inv (w w' : World) (l : wl_listener) (hi : Inv w)
    (h : notify w l = some w') :
    Inv w' ∧ Fading w w' ∧
    (l = wl_listener.drag_focus_listener → w'.seat.drag_focus_device = none) := by
  cases l with
  | source_destroy_listener offer =>
    simp only [notify, Option.some.injEq] at h
    subst h
    have hq : Quiet w (destroy_offer_data_source w offer) :=
      quiet_of_eq _ _ [] rfl rfl rfl (fun _ hr => hr) (by simp [destroy_offer_data_source,
        World.update_offer]) (by simp)
    exact ⟨inv_quiet _ _ hi hq, quiet_fading _ _ hq, fun hl => by cases hl⟩
  | drag_focus_listener =>
    simp only [notify, Option.some.injEq] at h
    subst h
    exact ⟨inv_unfocused _ rfl hi.nodup hi.trace,
      ⟨rfl, Or.inr rfl, Or.inl rfl, targets_refl w⟩, fun _ => rfl⟩
  | drag_data_source_listener =>
    simp only [notify, destroy_data_device_source] at h
    obtain ⟨w2, h1, h2, h3, _⟩ := end_drag_grab_seat w
    rw [h1] at h
    cases h
    obtain ⟨_, _, r3, _, _⟩ := replay_drop_end w 0 0 hi
    refine ⟨inv_unfocused _ (by rw [h2]; rfl) (by rw [h2]; exact hi.nodup)
      (by rw [h3]; exact r3), ⟨by rw [h2]; rfl, Or.inr (by rw [h2]; rfl), ?_,
        end_drag_events w, h3, (end_drag_targets w 0 0).2.1⟩, fun hl => by cases hl⟩
    rw [h2]
    exact end_drag_seat_focus w.seat
  | drag_icon_listener =>
    simp only [notify, Option.some.injEq] at h
    subst h
    have hq : Quiet w (destroy_data_device_icon w) :=
      quiet_of_eq _ _ [] rfl rfl rfl (fun _ hr => hr) (by simp [destroy_data_device_icon])
        (by simp)
    exact ⟨inv_quiet _ _ hi hq, quiet_fading _ _ hq, fun hl => by cases hl⟩
  | selection_data_source_listener =>
    simp only [notify, Option.some.injEq] at h
    subst h
    have hq : Quiet w (destroy_selection_data_source w) := by
      refine quiet_of_eq _ _ ((match keyboard_focus w.seat.keyboard with
        | some focus =>
          match find_data_device w.seat.drag_data_device_list
              (wl_resource_get_client focus) with
          | some data_device => [Event.data_device_selection data_device.resource none]
          | none => []
        | none => []) ++ [Event.selection_signal]) ?_ ?_ ?_ ?_ ?_ ?_
      · unfold destroy_selection_data_source
        simp only
        split <;> [split; skip] <;> rfl
      · unfold destroy_selection_data_source
        simp only
        split <;> [split; skip] <;> rfl
      · unfold destroy_selection_data_source
        simp only
        split <;> [split; skip] <;> rfl
      · intro r hr
        unfold destroy_selection_data_source
        simp only
        split <;> [split; skip] <;> exact hr
      · unfold destroy_selection_data_source
        simp only
        split <;> [split; skip] <;> simp [World.emit]
      · intro e he
        simp only [List.mem_append, List.mem_singleton] at he
        rcases he with he | he
        · split at he
          · split at he
            · simp only [List.mem_singleton] at he
              subst he; rfl
            · simp at he
          · simp at he
        · subst he; rfl
    exact ⟨inv_quiet _ _ hi hq, quiet_fading _ _ hq, fun hl => by cases hl⟩

theorem fading_refl (w : World) : Fading w w :=
  ⟨rfl, Or.inl rfl, Or.inl rfl, targets_refl w⟩

theorem emit_destroy_inv (ls : List wl_listener) :
    ∀ (w w' : World), Inv w → wl_signal_emit_destroy w ls = some w' →
      Inv w' ∧ Fading w w' ∧
      (wl_listener.drag_focus_listener ∈ ls → w'.seat.drag_focus_device = none) := by
  induction ls with
  | nil =>
    intro w w' hi h
    simp only [wl_signal_emit_destroy, Option.some.injEq] at h
    subst h
    exact ⟨hi, fading_refl w, fun hl => by cases hl⟩
  | cons l ls ih =>
    intro w w' hi h
    simp only [wl_signal_emit_destroy, Option.bind_eq_some] at h
    obtain ⟨w1, h1, h2⟩ := h
    obtain ⟨i1, f1, n1⟩ := notify_inv w w1 l hi h1
    obtain ⟨i2, f2, n2⟩ := ih w1 w' i1 h2
    refine ⟨i2, fading_trans _ _ _ f1 f2, fun hl => ?_⟩
    rcases List.mem_cons.1 hl with hl | hl
    · have h3 := n1 hl.symm
      rcases f2.2.1 with h4 | h4
      · rw [h4]; exact h3
      · exact h4
    · exact n2 hl

theorem fired_listeners_mem (w : World) (r : wl_resource) (l : wl_listener)
    (h : (r, l) ∈ w.destroy_listeners) :
    l ∈ (w.destroy_listeners.filter (fun e => decide (e.1 = r))).map Prod.snd := by
  simp only [List.mem_map, List.mem_filter, decide_eq_true_eq]
  exact ⟨(r, l), ⟨h, rfl⟩, rfl⟩

theorem destroy_keeps_focus (w w1 : World) (r : wl_resource) (hi : Inv w)
    (h : wl_signal_emit_destroy w
      ((w.destroy_listeners.filter (fun e => decide (e.1 = r))).map Prod.snd) = some w1) :
    Inv w1 ∧ Fading w w1 ∧ ∀ d, w1.seat.drag_focus_device = some d → d.resource ≠ r := by
  obtain ⟨i1, f1, n1⟩ := emit_destroy_inv _ w w1 hi h
  refine ⟨i1, f1, fun d hd hr => ?_⟩
  rcases f1.2.1 with h2 | h2
  · rw [h2] at hd
    obtain ⟨_, b2, _, _⟩ := hi.focus d hd
    rw [hr] at b2
    have h3 := n1 (fired_listeners_mem w r _ b2)
    rw [h2, hd] at h3
    cases h3
  · rw [h2] at hd
    cases hd

theorem destroy_source_inv (w w' : World) (resource : wl_resource) (hi : Inv w)
    (h : wl_resource_destroy_source w resource = some w') : Inv w' ∧ Fading w w' := by
  simp only [wl_resource_destroy_source, Option.bind_eq_bind, Option.bind_eq_some,
    Option.pure_def, Option.some.injEq] at h
  obtain ⟨_, _, w1, h1, h2⟩ := h
  obtain ⟨i1, f1, n1⟩ := destroy_keeps_focus w w1 resource hi h1
  subst h2
  refine ⟨⟨i1.nodup, fun d hd => ?_, i1.trace⟩, ?_⟩
  · obtain ⟨b1, b2, b3, b4⟩ := i1.focus d hd
    refine ⟨b1, ?_, b3, b4⟩
    simp only [destroy_data_source, List.mem_filter, decide_eq_true_eq]
    exact ⟨b2, n1 d hd⟩
  · exact f1

theorem destroy_device_inv (w w' : World) (device : wl_data_device) (hi : Inv w)
    (h : wl_resource_destroy_device w device = some w') :
    Inv w' ∧ Targets w w' ∧
    w'.seat.drag_data_device_list = w.seat.drag_data_device_list.erase device ∧
    device ∉ w'.seat.drag_data_device_list ∧
    w'.seat.drag_focus_device ≠ some device := by
  simp only [wl_resource_destroy_device, Option.bind_eq_bind, Option.bind_eq_some,
    Option.pure_def, Option.some.injEq] at h
  obtain ⟨w1, h1, h2⟩ := h
  obtain ⟨i1, f1, n1⟩ := destroy_keeps_focus w w1 device.resource hi h1
  subst h2
  have hne : ∀ d, w1.seat.drag_focus_device = some d → d ≠ device :=
    fun d hd he => n1 d hd (by rw [he])
  refine ⟨⟨?_, fun d hd => ?_, i1.trace⟩, f1.2.2.2, ?_, ?_, ?_⟩
  · exact i1.nodup.erase device
  · obtain ⟨b1, b2, b3, b4⟩ := i1.focus d hd
    refine ⟨?_, ?_, b3, b4⟩
    · exact (List.mem_erase_of_ne (hne d hd)).2 b1
    · simp only [unbind_data_device, List.mem_filter, decide_eq_true_eq]
      exact ⟨b2, n1 d hd⟩
  · simp only [unbind_data_device]
    rw [f1.1]
  · simp only [unbind_data_device]
    exact fun hm => (List.Nodup.mem_erase_iff i1.nodup).1 hm |>.1 rfl
  · intro hd
    exact hne device hd rfl

theorem targets_append (w a b : World) (es : List Event) (h1 : Targets w a)
    (h2 : b.trace = a.trace ++ es) (h3 : ∀ e ∈ es, e.focus_target = none) :
    Targets w b := by
  obtain ⟨fs, a1, a2⟩ := h1
  refine ⟨fs ++ es, by rw [h2, a1, List.append_assoc], fun e he r hr => ?_⟩
  rcases List.mem_append.1 he with he | he
  · exact a2 e he r hr
  · rw [h3 e he] at hr
    cases hr

theorem targets_quiet (w a b : World) (h1 : Targets w a) (h2 : Quiet a b) : Targets w b := by
  obtain ⟨_, _, _, _, es, a5, a6⟩ := h2
  exact targets_append w a b es h1 a5 (fun e he => focus_target_not_drag e (a6 e he))

theorem drag_unfocus_targets (w : World) : Targets w (drag_unfocus w) := by
  rw [drag_unfocus_eq]
  exact ⟨leave_events w, rfl, (end_drag_targets w 0 0).2.2⟩

theorem focus_targets (w w' : World) (surface : Option wl_surface) (x y : Int)
    (alloc : Option Nat) (h : drag_grab_focus w surface x y alloc = some w') :
    Targets w w' := by
  have u1 := drag_unfocus_targets w
  cases surface with
  | none =>
    rw [drag_grab_focus_null] at h
    cases h
    exact u1
  | some s =>
    rw [drag_grab_focus_eq] at h
    split_ifs at h with hc
    · cases h
      exact u1
    · rcases hf : find_data_device w.seat.drag_data_device_list
          (wl_resource_get_client s.resource) with _ | device
      · rw [hf] at h
        cases h
        exact u1
      · rw [hf] at h
        have hq0 : Quiet (drag_unfocus w) (wl_display_next_serial (drag_unfocus w)).1 :=
          quiet_of_eq _ _ [] rfl rfl rfl (fun _ hr => hr) (by simp [wl_display_next_serial])
            (by simp)
        simp only [Option.map_eq_some', Prod.exists] at h
        obtain ⟨w3, offer, h1, h2⟩ := h
        have h3 : Quiet (wl_display_next_serial (drag_unfocus w)).1 w3 := by
          rcases hs : w.seat.drag_data_source with _ | p
          · rw [hs] at h1
            simp only [Option.some.injEq, Prod.mk.injEq] at h1
            rw [← h1.1]
            exact quiet_refl _
          · rw [hs] at h1
            exact (send_offer_quiet _ _ _ _ _ _ h1).1
        rw [← h2]
        refine targets_append w w3 _ _ (targets_quiet _ _ _ (targets_quiet _ _ _ u1 hq0) h3)
          rfl ?_
        intro e he
        simp only [List.mem_singleton] at he
        subst he
        rfl

theorem motion_targets (w : World) (time : Nat) (x y : Int) :
    Targets w (drag_grab_motion w time x y) := by
  unfold drag_grab_motion
  rcases hd : w.seat.drag_focus_device with _ | d
  · exact targets_refl w
  · refine ⟨[Event.data_device_motion d.resource time x y], rfl, fun e he r hr => ?_⟩
    simp only [List.mem_singleton] at he
    subst he
    simp only [Event.focus_target, Option.some.injEq] at hr
    exact ⟨d, hd, hr⟩

theorem button_targets (w w' : World) (time button state_w : Nat)
    (h : drag_grab_button w time button state_w = some w') : Targets w w' := by
  obtain ⟨t1, t2, _⟩ := end_drag_targets w button state_w
  by_cases he : ends_gesture w state_w
  · obtain ⟨w2, h1, _, h3, _⟩ := drag_grab_button_end w time button state_w he
    rw [h1] at h
    cases h
    refine ⟨drop_events w button state_w ++ end_drag_events w,
      by rw [h3, List.append_assoc], fun e hm r hr => ?_⟩
    rcases List.mem_append.1 hm with hm | hm
    · exact t1 e hm r hr
    · exact t2 e hm r hr
  · obtain ⟨w2, h1, _, h3⟩ := drag_grab_button_spec w time button state_w
    rw [h1] at h
    cases h
    rw [h3 he]
    exact ⟨drop_events w button state_w, rfl, t1⟩

theorem step_inv (w w' : World) (hi : Inv w) (hs : Step w w') : Inv w' ∧ Targets w w' := by
  cases hs with
  | get_data_device client manager id alloc_ok fresh =>
    refine ⟨inv_get_data_device w client manager id alloc_ok hi fresh, ?_⟩
    cases alloc_ok
    · exact quiet_targets _ _ (quiet_emit w _ rfl)
    · exact ⟨[], by simp [get_data_device], by simp⟩
  | create_data_source client manager id alloc_ok =>
    have hq := create_data_source_quiet w client manager id alloc_ok
    exact ⟨inv_quiet _ _ hi hq, quiet_targets _ _ hq⟩
  | data_source_offer _ resource type array_ok strdup_ok h =>
    have hq := data_source_offer_quiet w w' resource type array_ok strdup_ok h
    exact ⟨inv_quiet _ _ hi hq, quiet_targets _ _ hq⟩
  | start_drag _ client source icon h =>
    have hq := start_drag_quiet w w' client source icon h
    exact ⟨inv_quiet _ _ hi hq, quiet_targets _ _ hq⟩
  | focus _ surface x y alloc h =>
    exact ⟨inv_focus w w' surface x y alloc hi h, focus_targets w w' surface x y alloc h⟩
  | motion time x y =>
    exact ⟨inv_motion w time x y hi, motion_targets w time x y⟩
  | button _ time button state_w h =>
    exact ⟨inv_button w w' time button state_w hi h, button_targets w w' time button state_w h⟩
  | notify _ l h =>
    obtain ⟨i1, f1, _⟩ := notify_inv w w' l hi h
    exact ⟨i1, f1.2.2.2⟩
  | destroy_source _ resource h =>
    obtain ⟨i1, f1⟩ := destroy_source_inv w w' resource hi h
    exact ⟨i1, f1.2.2.2⟩
  | destroy_device _ device hmem h =>
    obtain ⟨i1, t1, _⟩ := destroy_device_inv w w' device hi h
    exact ⟨i1, t1⟩
  | set_selection _ source serial alloc hold hnew h =>
    have hq := set_selection_quiet w w' source serial alloc hold hnew h
    exact ⟨inv_quiet _ _ hi hq, quiet_targets _ _ hq⟩
  | keyboard_focus _ alloc hold h =>
    have hq := keyboard_focus_quiet w w' alloc h
    exact ⟨inv_quiet _ _ hi hq, quiet_targets _ _ hq⟩
  | offer_accept _ resource serial mime_type h =>
    have hq := offer_accept_quiet w w' resource serial mime_type h
    exact ⟨inv_quiet _ _ hi hq, quiet_targets _ _ hq⟩
  | offer_receive _ resource mime_type fd h =>
    have hq := offer_receive_quiet w w' resource mime_type fd h
    exact ⟨inv_quiet _ _ hi hq, quiet_targets _ _ hq⟩
  | destroy_offer _ resource h =>
    have hq := destroy_offer_quiet w w' resource h
    exact ⟨inv_quiet _ _ hi hq, quiet_targets _ _ hq⟩
  | input pointer keyboard =>
    have hq : Quiet w { w with seat := { w.seat with pointer := pointer, keyboard := keyboard } } :=
      quiet_of_eq _ _ [] rfl rfl rfl (fun _ hr => hr) (by simp) (by simp)
    exact ⟨inv_quiet _ _ hi hq, quiet_targets _ _ hq⟩

theorem inv_reachable (w : World) (h : Reachable w) : Inv w := by
  induction h with
  | init w h => exact inv_idle w h
  | step w w' _ hs ih => exact (step_inv w w' ih hs).1

theorem idle_world_ready : idle world_ready :=
  ⟨rfl, rfl, rfl, rfl, rfl, by decide, rfl⟩

theorem start_world_ready :
    data_device_start_drag world_ready 3 none none = some world_started := rfl

theorem focus_world_started :
    drag_grab_focus world_started (some surf_c) 0 0 none = some world_focused := by decide

theorem destroy_world_focused :
    wl_resource_destroy_device world_focused dev_c = some world_stale := by decide

theorem motion_world_focused : drag_grab_motion world_focused 5 1 2 = world_moved := rfl

theorem button_world_moved :
    drag_grab_button { world_moved with seat := { world_moved.seat with
      pointer := { world_moved.seat.pointer with button_count := 0 } } } 6 272
      WL_POINTER_BUTTON_STATE_RELEASED = some world_dropped := by decide

theorem reachable_world_focused : Reachable world_focused :=
  Reachable.step world_started world_focused
    (Reachable.step world_ready world_started (Reachable.init world_ready idle_world_ready)
      (Step.start_drag world_ready world_started 3 none none start_world_ready))
    (Step.focus world_started world_focused (some surf_c) 0 0 none focus_world_started)

theorem reachable_world_stale : Reachable world_stale :=
  Reachable.step world_focused world_stale reachable_world_focused
    (Step.destroy_device world_focused world_stale dev_c (by decide) destroy_world_focused)

theorem reachable_world_moved : Reachable world_moved :=
  Reachable.step world_focused world_moved reachable_world_focused
    (Step.motion world_focused 5 1 2)

theorem reachable_world_dropped : Reachable world_dropped :=
  Reachable.step _ world_dropped
    (Reachable.step world_moved _ reachable_world_moved
      (Step.input world_moved { world_moved.seat.pointer with button_count := 0 } none))
    (Step.button _ world_dropped 6 272 WL_POINTER_BUTTON_STATE_RELEASED button_world_moved)

theorem notify_total (w : World) (l : wl_listener) : ∃ w', notify w l = some w' := by
  cases l with
  | source_destroy_listener offer => exact ⟨_, rfl⟩
  | drag_focus_listener => exact ⟨_, rfl⟩
  | drag_data_source_listener =>
    obtain ⟨w2, h1, _⟩ := end_drag_grab_seat w
    exact ⟨w2, h1⟩
  | drag_icon_listener => exact ⟨_, rfl⟩
  | selection_data_source_listener => exact ⟨_, rfl⟩

theorem emit_destroy_total (ls : List wl_listener) :
    ∀ w : World, ∃ w', wl_signal_emit_destroy w ls = some w' := by
  induction ls with
  | nil => exact fun w => ⟨w, rfl⟩
  | cons l ls ih =>
    intro w
    obtain ⟨w1, h1⟩ := notify_total w l
    obtain ⟨w2, h2⟩ := ih w1
    exact ⟨w2, by simp [wl_signal_emit_destroy, h1, h2]⟩

theorem destroy_device_total (w : World) (device : wl_data_device) :
    ∃ w', wl_resource_destroy_device w device = some w' := by
  obtain ⟨w1, h1⟩ := emit_destroy_total
    ((w.destroy_listeners.filter (fun e => decide (e.1 = device.resource))).map Prod.snd) w
  simp only [wl_resource_destroy_device, Option.bind_eq_bind, Option.pure_def, h1,
    Option.some_bind]
  exact ⟨_, rfl⟩

/-- C13, as the specification states it, fails: from the idle world
`world_ready`, data_device_start_drag, drag_grab_focus on the surface
`surf_c` and the destruction of the focused data device `dev_c` (whose
destruction observer destroy_drag_focus clears only drag_focus_device) lead to
a state in which drag_focus_device is null while the focused surface
seat->drag_focus is still `surf_c`. -/
theorem C13_counterexample :
    idle world_ready ∧
    data_device_start_drag world_ready 3 none none = some world_started ∧
    drag_grab_focus world_started (some surf_c) 0 0 none = some world_focused ∧
    world_focused.seat.drag_focus_device = some dev_c ∧
    wl_resource_destroy_device world_focused dev_c = some world_stale ∧
    Reachable world_stale ∧
    world_stale.seat.drag_focus_device = none ∧
    world_stale.seat.drag_focus = some surf_c ∧
    ¬ (world_stale.seat.drag_focus_device ≠ none ↔ world_stale.seat.drag_focus ≠ none) :=
  ⟨idle_world_ready, start_world_ready, focus_world_started, rfl, destroy_world_focused,
    reachable_world_stale, rfl, rfl, by decide⟩

/-- C13, amended: in every state reachable from an idle seat, a non-null
drag_focus_device comes with a non-null focused surface (seat->drag_focus);
only this direction of the equivalence is an invariant. -/
theorem C13_focus_device_implies_surface (w : World) (h : Reachable w) :
    w.seat.drag_focus_device ≠ none → w.seat.drag_focus ≠ none := by
  intro hd
  rcases hdev : w.seat.drag_focus_device with _ | d
  · exact absurd hdev hd
  · obtain ⟨_, _, ⟨s, hs, _⟩, _⟩ := (inv_reachable w h).focus d hdev
    rw [hs]
    exact Option.some_ne_none s

theorem C13_focus_device_implies_surface_witness :
    Reachable world_focused ∧ world_focused.seat.drag_focus_device ≠ none ∧
    world_focused.seat.drag_focus ≠ none :=
  ⟨reachable_world_focused, by decide,
    C13_focus_device_implies_surface world_focused reachable_world_focused (by decide)⟩

/-- C14: in every state reachable from an idle seat, a non-null
drag_focus_device is a member of the data-device collection of the seat and
its client is the client of the focused surface; the destruction of a data
device completes, and afterwards that device is neither in the collection nor
the drag_focus_device; and every motion, drop and leave event that a step adds
to the trace is sent to the resource of a device that is in the collection
when the step starts. -/
theorem C14_focus_device_bound (w : World) (h : Reachable w) :
    (∀ d, w.seat.drag_focus_device = some d →
      d ∈ w.seat.drag_data_device_list ∧
      ∃ s, w.seat.drag_focus = some s ∧
        wl_resource_get_client d.resource = wl_resource_get_client s.resource) ∧
    (∀ d0, ∃ w', wl_resource_destroy_device w d0 = some w' ∧
      d0 ∉ w'.seat.drag_data_device_list ∧ w'.seat.drag_focus_device ≠ some d0) ∧
    (∀ w', Step w w' → ∃ es, w'.trace = w.trace ++ es ∧
      ∀ e ∈ es, ∀ r, e.focus_target = some r →
        ∃ d ∈ w.seat.drag_data_device_list, d.resource = r) := by
  have hi := inv_reachable w h
  refine ⟨fun d hd => ?_, fun d0 => ?_, fun w' hs => ?_⟩
  · obtain ⟨b1, _, b3, _⟩ := hi.focus d hd
    exact ⟨b1, b3⟩
  · obtain ⟨w', h1⟩ := destroy_device_total w d0
    obtain ⟨_, _, _, h4, h5⟩ := destroy_device_inv w w' d0 hi h1
    exact ⟨w', h1, h4, h5⟩
  · obtain ⟨es, h1, h2⟩ := (step_inv w w' hi hs).2
    refine ⟨es, h1, fun e he r hr => ?_⟩
    obtain ⟨d, hd, hdr⟩ := h2 e he r hr
    exact ⟨d, (hi.focus d hd).1, hdr⟩

theorem C14_focus_device_bound_witness :
    Reachable world_focused ∧
    dev_c ∈ world_focused.seat.drag_data_device_list ∧
    ∃ s, world_focused.seat.drag_focus = some s ∧
      wl_resource_get_client dev_c.resource = wl_resource_get_client s.resource :=
  ⟨reachable_world_focused,
    (C14_focus_device_bound world_focused reachable_world_focused).1 dev_c rfl⟩

/-- C15: in every state reachable from an idle seat, every motion, drop and
leave event of the trace is preceded by an enter event sent to the same device
with no leave to it in between; the current drag_focus_device has such an
enter event open in the trace; and the motion, drop and leave events a step
adds to the trace are sent to the device that is the drag_focus_device when
the step starts. -/
theorem C15_enter_precedes (w : World) (h : Reachable w) :
    causal w.trace ∧
    (∀ d, w.seat.drag_focus_device = some d → enter_open w.trace d.resource) ∧
    (∀ w', Step w w' → Targets w w') := by
  have hi := inv_reachable w h
  refine ⟨replay_ok_causal _ hi.trace, fun d hd => ?_, fun w' hs => (step_inv w w' hi hs).2⟩
  exact entered_enter_open _ _ (hi.focus d hd).2.2.2

theorem C15_enter_precedes_witness :
    Reachable world_dropped ∧
    world_dropped.trace = [Event.pointer_set_focus none 0 0, Event.pointer_start_grab,
      Event.data_device_enter dev_c.resource 1 surf_c.resource 0 0 none,
      Event.data_device_motion dev_c.resource 5 1 2,
      Event.data_device_drop dev_c.resource,
      Event.data_device_leave dev_c.resource, Event.pointer_end_grab] ∧
    causal world_dropped.trace :=
  ⟨reachable_world_dropped, rfl, (C15_enter_precedes world_dropped reachable_world_dropped).1⟩

/-! ## The device requests and the presentation order (C16, C17) -/

/-- C16, as stated, fails for an absent source: in `world_sel` (selection
`src_a` held with serial 100, client 3 focused with device `dev_c`) the serial
101 passes the race rule, and wl_seat_set_selection would clear the
selection; the request handler data_device_set_selection returns at once
instead: the selection is still held, nothing is cancelled, no selection event
is sent. -/
theorem C16_counterexample :
    data_device_set_selection world_sel none 101 none = some world_sel ∧
    world_sel.seat.selection_data_source = some src_a.resource ∧
    (wl_seat_set_selection world_sel none 101 none).map
      (fun w => (w.seat.selection_data_source, w.trace)) =
      some (none, [Event.data_source_cancelled src_a.resource,
        Event.data_device_selection dev_c.resource none, Event.selection_signal]) := by
  decide

/-- C16, amended: data_device_set_selection delegates to wl_seat_set_selection
with the seat of the device, the given source and the given serial whenever a
source is given; with an absent source it returns at once, whatever the
serial: the state is unchanged (the held selection is not cleared) and nothing
is emitted. -/
theorem C16_device_set_selection (w : World) (serial : Nat) (alloc : Option Nat) :
    (∀ r src, w.source r = some src →
      data_device_set_selection w (some r) serial alloc =
        wl_seat_set_selection w (some r) serial alloc) ∧
    data_device_set_selection w none serial alloc = some w := by
  refine ⟨?_, rfl⟩
  intro r src h
  have hr := source_resource_eq w r src h
  simp [data_device_set_selection, h, hr]

/-- C16, exercised: in `world_sel` the request with `src_b` and serial 101 is
the claim wl_seat_set_selection gets. -/
theorem C16_device_set_selection_witness :
    data_device_set_selection world_sel (some src_b.resource) 101 (some 40) =
      wl_seat_set_selection world_sel (some src_b.resource) 101 (some 40) :=
  (C16_device_set_selection world_sel 101 (some 40)).1 src_b.resource src_b (by decide)

theorem drag_grab_focus_offer (w : World) (s : wl_surface) (x y : Int) (alloc : Option Nat)
    (p : wl_resource) (src : wl_data_source) (device : wl_data_device)
    (hp : w.seat.drag_data_source = some p) (hsrc : w.source p = some src)
    (hf : find_data_device w.seat.drag_data_device_list
      (wl_resource_get_client s.resource) = some device) :
    ∃ w', drag_grab_focus w (some s) x y alloc = some w' ∧
      w'.seat = { w.seat with
        drag_focus := some s, drag_focus_device := some device,
        drag_grab := { w.seat.drag_grab with focus := some s } } ∧
      w'.serial = (w.serial + 1) % 4294967296 ∧
      w'.sources = w.sources ∧
      (∀ id, alloc = some id →
        w'.trace = w.trace ++ leave_events w ++
          presentation device.resource id src.mime_types ++
          [Event.data_device_enter device.resource ((w.serial + 1) % 4294967296)
            s.resource x y (some (new_offer device.resource id))] ∧
        w'.offers =
          { resource := new_offer device.resource id, source := some p } :: w.offers) ∧
      (alloc = none →
        w'.trace = w.trace ++ leave_events w ++
          [Event.data_device_enter device.resource ((w.serial + 1) % 4294967296)
            s.resource x y none] ∧
        w'.offers = w.offers) := by
  have hne : ¬ (w.seat.drag_data_source = none ∧
      some (wl_resource_get_client s.resource) ≠ w.seat.drag_client) := by
    rw [hp]
    exact fun h => absurd h.1 (by simp)
  have hsrc2 : (wl_display_next_serial (drag_unfocus w)).1.source p = some src := by
    unfold World.source at hsrc ⊢
    rw [drag_unfocus_eq]
    exact hsrc
  rw [drag_grab_focus_eq, if_neg hne, hf]
  simp only [hp]
  cases alloc with
  | none =>
    refine ⟨_, rfl, ?_, ?_, ?_, fun id h => (by cases h), fun _ => ⟨?_, ?_⟩⟩ <;>
      simp [wl_data_source_send_offer, focus_enter, wl_display_next_serial, drag_unfocus_eq,
        hp]
  | some id =>
    rw [wl_data_source_send_offer_some _ p device.resource id src hsrc2]
    refine ⟨_, rfl, ?_, ?_, ?_, fun id2 h => ?_, fun h => by cases h⟩
    · simp [focus_enter, wl_display_next_serial, drag_unfocus_eq, hp]
    · simp [focus_enter, wl_display_next_serial, drag_unfocus_eq]
    · simp [focus_enter, wl_display_next_serial, drag_unfocus_eq]
    · cases h
      constructor <;>
        simp [focus_enter, wl_display_next_serial, drag_unfocus_eq]

/-- C17, as stated, fails: when the drag of `src_text` (types "text/plain",
"text/html") gains focus on the surface `surf_c` of client 3, the device
`dev_c` receives the data-offer event, then the two offer-type events, and
the enter event last: the enter event does not precede the offer-type
events. -/
theorem C17_counterexample :
    (drag_grab_focus world_dragging (some surf_c) 5 6 (some 33)).map World.trace =
      some [Event.data_device_data_offer dev_c.resource (new_offer dev_c.resource 33),
        Event.data_offer_offer (new_offer dev_c.resource 33) (some "text/plain"),
        Event.data_offer_offer (new_offer dev_c.resource 33) (some "text/html"),
        Event.data_device_enter dev_c.resource 9 surf_c.resource 5 6
          (some (new_offer dev_c.resource 33))] ∧
    (drag_grab_focus world_dragging (some surf_c) 5 6 (some 33)).map World.trace ≠
      some [Event.data_device_enter dev_c.resource 9 surf_c.resource 5 6
          (some (new_offer dev_c.resource 33)),
        Event.data_offer_offer (new_offer dev_c.resource 33) (some "text/plain"),
        Event.data_offer_offer (new_offer dev_c.resource 33) (some "text/html")] := by
  decide

/-- C17, amended: when a drag whose source has the mime types t1..tn gains
focus on a surface of a client B that has a data device, and the offer is
allocated, B's device receives, after the leave of a previous focus, the
data-offer event naming the new offer, then the n offer-type events for t1..tn
in order, and then the enter event (serial, surface, x, y, new offer): the
enter event follows the offer-type events of the offer it carries.  When the
allocation of the offer fails, B's device receives the enter event alone,
carrying no offer. -/
theorem C17_enter_follows_offer_types (w : World) (s : wl_surface) (x y : Int)
    (alloc : Option Nat) (p : wl_resource) (src : wl_data_source)
    (device : wl_data_device)
    (hp : w.seat.drag_data_source = some p) (hsrc : w.source p = some src)
    (hf : find_data_device w.seat.drag_data_device_list
      (wl_resource_get_client s.resource) = some device) :
    ∃ w', drag_grab_focus w (some s) x y alloc = some w' ∧
      w'.seat.drag_focus_device = some device ∧ w'.seat.drag_focus = some s ∧
      (∀ id, alloc = some id →
        w'.trace = w.trace ++ leave_events w ++
          (Event.data_device_data_offer device.resource (new_offer device.resource id) ::
            src.mime_types.map (Event.data_offer_offer (new_offer device.resource id))) ++
          [Event.data_device_enter device.resource ((w.serial + 1) % 4294967296)
            s.resource x y (some (new_offer device.resource id))]) ∧
      (alloc = none →
        w'.trace = w.trace ++ leave_events w ++
          [Event.data_device_enter device.resource ((w.serial + 1) % 4294967296)
            s.resource x y none]) := by
  obtain ⟨w', h1, h2, _, _, h5, h6⟩ := drag_grab_focus_offer w s x y alloc p src device hp hsrc hf
  refine ⟨w', h1, by rw [h2], by rw [h2], fun id h => (h5 id h).1, fun h => (h6 h).1⟩

/-- C17, exercised with the types "text/plain" and "text/html". -/
theorem C17_enter_follows_offer_types_witness :
    ∃ w', drag_grab_focus world_dragging (some surf_c) 5 6 (some 33) = some w' ∧
      w'.trace =
        [Event.data_device_data_offer dev_c.resource (new_offer dev_c.resource 33),
          Event.data_offer_offer (new_offer dev_c.resource 33) (some "text/plain"),
          Event.data_offer_offer (new_offer dev_c.resource 33) (some "text/html"),
          Event.data_device_enter dev_c.resource 9 surf_c.resource 5 6
            (some (new_offer dev_c.resource 33))] :=
  match C17_enter_follows_offer_types world_dragging surf_c 5 6 (some 33) src_text.resource
    src_text dev_c rfl (by decide) (by decide) with
  | ⟨w', h1, _, _, h4, _⟩ => ⟨w', h1, (h4 33 rfl).trans (by decide)⟩

/-! ## Serial wraparound in the race rule (C18, C19) -/

/-- C18, as stated, fails: holding `src_a` with selection_serial = 100, the
claim of `src_b` with serial 4294967200 is rejected, because
(100 - 4294967200) mod 2^32 = 196 < 2147483647: the state is returned
unchanged, the selection source is still `src_a` and selection_serial is
still 100. -/
theorem C18_counterexample :
    world_sel.seat.selection_serial = 100 ∧
    uint32_sub 100 4294967200 = 196 ∧
    wl_seat_set_selection world_sel (some src_b.resource) 4294967200 (some 40) =
      some world_sel ∧
    world_sel.seat.selection_data_source ≠ some src_b.resource := by
  decide

/-- C18, amended: with a selection held at selection_serial = 100,
wl_seat_set_selection with serial 4294967200 is rejected: the difference
(100 - 4294967200) mod 2^32 is 196, below UINT32_MAX / 2, and the call returns
the state unchanged (same selection source, selection_serial = 100, nothing
emitted). -/
theorem C18_wrapped_serial_rejected (w : World) (source : Option wl_resource)
    (alloc : Option Nat) (hheld : w.seat.selection_data_source ≠ none)
    (hserial : w.seat.selection_serial = 100) :
    uint32_sub w.seat.selection_serial 4294967200 = 196 ∧
    wl_seat_set_selection w source 4294967200 alloc = some w := by
  refine ⟨by rw [hserial]; decide, ?_⟩
  apply set_selection_reject
  refine ⟨by simpa [Option.isSome_iff_ne_none] using hheld, ?_⟩
  rw [hserial]
  decide

/-- C18, exercised on `world_sel`, which holds `src_a` with serial 100. -/
theorem C18_wrapped_serial_rejected_witness :
    uint32_sub world_sel.seat.selection_serial 4294967200 = 196 ∧
    wl_seat_set_selection world_sel none 4294967200 none = some world_sel :=
  C18_wrapped_serial_rejected world_sel none none (by decide) rfl

/-- C19: the race rule is a wraparound-safe test for a strictly newer serial.
With a selection held at serial S, a claim with serial (S + k) mod 2^32 is
accepted for every k with 1 <= k <= 2^31, also when S + k overflows 32 bits,
and a claim with serial (S - k) mod 2^32 is rejected for every k with
0 <= k <= 2^31 - 2, in particular the claim that repeats S. -/
theorem C19_race_rule_wraparound (w : World) (source : Option wl_resource)
    (alloc : Option Nat) (k : Nat)
    (hheld : w.seat.selection_data_source ≠ none)
    (hold : w.live w.seat.selection_data_source = true)
    (hnew : w.live source = true) :
    (1 ≤ k → k ≤ 2147483648 →
      ∃ w', wl_seat_set_selection w source
          ((w.seat.selection_serial + k) % 4294967296) alloc = some w' ∧
        w' ≠ w ∧ w'.seat.selection_data_source = source ∧
        w'.seat.selection_serial = (w.seat.selection_serial + k) % 4294967296) ∧
    (k ≤ 2147483646 →
      wl_seat_set_selection w source
        ((w.seat.selection_serial + 4294967296 - k) % 4294967296) alloc = some w) := by
  constructor
  · intro h1 h2
    rcases set_selection_dichotomy w source
      ((w.seat.selection_serial + k) % 4294967296) alloc hold hnew with h | h
    · exfalso
      have := h.2
      omega
    · exact h
  · intro h1
    apply set_selection_reject
    refine ⟨by simpa [Option.isSome_iff_ne_none] using hheld, ?_⟩
    have hmax : UINT32_MAX / 2 = 2147483647 := by decide
    rw [hmax]
    unfold uint32_sub
    omega

/-- C19, exercised: holding serial 4294967295, the claim with serial 0 (k = 1,
overflowing) is accepted and the claim repeating 4294967295 (k = 0) is
rejected. -/
theorem C19_race_rule_wraparound_witness :
    (∃ w', wl_seat_set_selection
        { world_sel with seat := { seat_sel with selection_serial := 4294967295 } }
        (some src_b.resource) 0 none = some w' ∧
      w'.seat.selection_data_source = some src_b.resource ∧
      w'.seat.selection_serial = 0) ∧
    wl_seat_set_selection
        { world_sel with seat := { seat_sel with selection_serial := 4294967295 } }
        (some src_b.resource) 4294967295 none =
      some { world_sel with seat := { seat_sel with selection_serial := 4294967295 } } :=
  ⟨match (C19_race_rule_wraparound
      { world_sel with seat := { seat_sel with selection_serial := 4294967295 } }
      (some src_b.resource) none 1 (by decide) (by decide) (by decide)).1
      (by decide) (by decide) with
    | ⟨w', h1, _, h3, h4⟩ => ⟨w', h1, h3, h4⟩,
   (C19_race_rule_wraparound
      { world_sel with seat := { seat_sel with selection_serial := 4294967295 } }
      (some src_b.resource) none 0 (by decide) (by decide) (by decide)).2 (by decide)⟩

/-! ## The device collection (C20) -/

/-- C20, as stated, fails when the allocation of the device fails:
get_data_device posts the no-memory error and adds no entry. -/
theorem C20_counterexample :
    (get_data_device world_sel 3 { client := 3, object_id := 1 } 35 false).seat.drag_data_device_list =
      world_sel.seat.drag_data_device_list ∧
    (get_data_device world_sel 3 { client := 3, object_id := 1 } 35 false).trace =
      [Event.post_no_memory { client := 3, object_id := 1 }] := by
  decide

/-- C20, amended: get_data_device adds exactly one new entry, at the head and
without any dedup check, whenever the allocation of the device succeeds (when
it fails it adds nothing and posts the no-memory error), so that two requests
by the same client leave two entries; find_data_device returns an entry of the
collection owned by the client whenever there is one and none exactly when
there is none; unbind_data_device removes exactly one occurrence of the
unbound entry and keeps every other entry, so that the lookup still succeeds
while another entry of the client remains. -/
theorem C20_device_collection (w : World) (client : Nat) (mgr : wl_resource)
    (id id2 : Nat) (d : wl_data_device) :
    (get_data_device w client mgr id true).seat.drag_data_device_list =
      { resource := { client := client, object_id := id } } ::
        w.seat.drag_data_device_list ∧
    (get_data_device (get_data_device w client mgr id true) client mgr id2 true
      ).seat.drag_data_device_list =
      { resource := { client := client, object_id := id2 } } ::
        { resource := { client := client, object_id := id } } ::
          w.seat.drag_data_device_list ∧
    get_data_device w client mgr id false = w.emit (Event.post_no_memory mgr) ∧
    (∀ found, find_data_device w.seat.drag_data_device_list client = some found →
      found ∈ w.seat.drag_data_device_list ∧
        wl_resource_get_client found.resource = client) ∧
    ((∃ e ∈ w.seat.drag_data_device_list, wl_resource_get_client e.resource = client) →
      ∃ found, find_data_device w.seat.drag_data_device_list client = some found) ∧
    (find_data_device w.seat.drag_data_device_list client = none ↔
      ∀ e ∈ w.seat.drag_data_device_list, wl_resource_get_client e.resource ≠ client) ∧
    (unbind_data_device w d).seat.drag_data_device_list =
      w.seat.drag_data_device_list.erase d ∧
    (d ∈ w.seat.drag_data_device_list →
      List.Perm w.seat.drag_data_device_list
        (d :: (unbind_data_device w d).seat.drag_data_device_list)) ∧
    (∀ e ∈ w.seat.drag_data_device_list, e ≠ d →
      e ∈ (unbind_data_device w d).seat.drag_data_device_list ∧
      ∃ found, find_data_device (unbind_data_device w d).seat.drag_data_device_list
        (wl_resource_get_client e.resource) = some found) := by
  refine ⟨rfl, rfl, rfl, ?_, ?_, ?_, rfl, ?_, ?_⟩
  · intro found h
    unfold find_data_device at h
    exact ⟨List.mem_of_find?_eq_some h, by simpa using List.find?_some h⟩
  · rintro ⟨e, he, hc⟩
    rcases h : find_data_device w.seat.drag_data_device_list client with _ | found
    · exfalso
      unfold find_data_device at h
      rw [List.find?_eq_none] at h
      exact h e he (by simpa using hc)
    · exact ⟨found, rfl⟩
  · unfold find_data_device
    rw [List.find?_eq_none]
    simp
  · intro hd
    exact List.perm_cons_erase hd
  · intro e he hne
    have hmem : e ∈ (unbind_data_device w d).seat.drag_data_device_list :=
      (List.mem_erase_of_ne hne).2 he
    refine ⟨hmem, ?_⟩
    rcases h : find_data_device (unbind_data_device w d).seat.drag_data_device_list
        (wl_resource_get_client e.resource) with _ | found
    · exfalso
      unfold find_data_device at h
      rw [List.find?_eq_none] at h
      exact h e hmem (by simp)
    · exact ⟨found, rfl⟩

/-- C20, exercised: client 3 asks for a second device; the lookup finds the
new one; after the new one is unbound the lookup finds the first one. -/
theorem C20_device_collection_witness :
    (get_data_device world_sel 3 { client := 3, object_id := 1 } 35 true
      ).seat.drag_data_device_list =
      [{ resource := { client := 3, object_id := 35 } }, dev_c] ∧
    ∃ found, find_data_device
        (unbind_data_device
          (get_data_device world_sel 3 { client := 3, object_id := 1 } 35 true)
          { resource := { client := 3, object_id := 35 } }).seat.drag_data_device_list
        (wl_resource_get_client dev_c.resource) = some found :=
  ⟨(C20_device_collection world_sel 3 { client := 3, object_id := 1 } 35 36 dev_c).1,
   ((C20_device_collection
      (get_data_device world_sel 3 { client := 3, object_id := 1 } 35 true) 3
      { client := 3, object_id := 1 } 35 36
      { resource := { client := 3, object_id := 35 } }).2.2.2.2.2.2.2.2
      dev_c (by decide) (by decide)).2⟩

end DataDevice
